import Mathlib

/-!
# ZLMediaKit exporter: scrape engine

A shallow embedding of `zlm_exporter.go`.  Go values become Lean values, the
metric channel becomes the list of metrics sent to it, the counter vector
`scrapeErrors` becomes a function from endpoint label to count, and the calls
into libraries (`prometheus`, `encoding/json`, `net/http`) are modelled by the
behaviour the program relies on.
-/

set_option autoImplicit false

namespace ZlmExporter

/-! ## Values -/

/-- A `float64` value: a finite number, given by the rational it denotes, an infinity or a
NaN.  The two zeros are not told apart. -/
inductive Float64 where
  | finite (q : ℚ)
  | posInf
  | negInf
  | nan
  deriving DecidableEq

instance (n : Nat) : OfNat Float64 n := ⟨.finite n⟩

/-- Whether `2^e ≤ n/d`, for a positive `d`. -/
def Float64.powLe (e : Int) (n d : Nat) : Bool :=
  decide (d <<< e.toNat ≤ n <<< (-e).toNat)

/-- Bisection with the steps `2^(j-1)`, ..., 2, 1: the largest `x` from `e` to `e + 2^j - 1`
with `2^x ≤ n/d`, and `e` when there is none. -/
def Float64.bisect (n d : Nat) : Nat → Int → Int
  | 0, e => e
  | j + 1, e =>
    Float64.bisect n d j
      (if Float64.powLe (e + ((1 <<< j : Nat) : Int)) n d then e + ((1 <<< j : Nat) : Int) else e)

/-- The binary exponent at `n/d`: the largest `e` from -1022 to 1025 with `2^e ≤ n/d`, and
-1022, the exponent of the subnormal numbers, when there is none. -/
def Float64.exponent (n d : Nat) : Int := Float64.bisect n d 11 (-1022)

/-- The integer nearest to `N/D`, the even one of the two on a tie. -/
def Float64.roundHalfEven (N D : Nat) : Nat :=
  if 2 * (N % D) < D then N / D
  else if D < 2 * (N % D) then N / D + 1
  else if (N / D) % 2 = 0 then N / D else N / D + 1

/-- The `float64` nearest to the ratio `num/den` of an integer and a positive number, as
every IEEE 754 operation rounds its exact result: a significand of 53 bits, that is a
multiple `m * 2^s` of the unit `2^s` in the last place, where `s` is the exponent less 52;
ties go to the even `m`; from `2^1024` on the result is an infinity. -/
def Float64.round (num : Int) (den : Nat) : Float64 :=
  if num = 0 then .finite 0
  else
    let s : Int := Float64.exponent num.natAbs den - 52
    let m := Float64.roundHalfEven (num.natAbs <<< (-s).toNat) (den <<< s.toNat)
    if (1 <<< 1024) <<< (-s).toNat ≤ m <<< s.toNat then
      if 0 < num then .posInf else .negInf
    else if 0 < num then .finite (mkRat ((m <<< s.toNat : Nat) : Int) (1 <<< (-s).toNat))
    else .finite (mkRat (-((m <<< s.toNat : Nat) : Int)) (1 <<< (-s).toNat))

/-- The Go operator `+` on `float64`: the exact sum of two finite operands, rounded. -/
def Float64.add : Float64 → Float64 → Float64
  | .finite a, .finite b => Float64.round (a.num * b.den + b.num * a.den) (a.den * b.den)
  | .nan, _ => .nan
  | _, .nan => .nan
  | .posInf, .negInf => .nan
  | .negInf, .posInf => .nan
  | .posInf, _ => .posInf
  | _, .posInf => .posInf
  | .negInf, _ => .negInf
  | _, .negInf => .negInf

instance : Add Float64 := ⟨Float64.add⟩

/-- The Go operator `<` on `float64`: false whenever an operand is a NaN. -/
def Float64.lt : Float64 → Float64 → Bool
  | .finite a, .finite b => decide (a < b)
  | .finite _, .posInf => true
  | .negInf, .finite _ => true
  | .negInf, .posInf => true
  | _, _ => false

instance : LT Float64 := ⟨fun a b => Float64.lt a b = true⟩

instance (a b : Float64) : Decidable (a < b) :=
  inferInstanceAs (Decidable (Float64.lt a b = true))

/-- The Go conversion `float64(n)` of an `int`: the nearest `float64`. -/
def float64 (n : Int) : Float64 := Float64.round n 1

/-! ## Constants -/

def ZlmAPISuccessCode : Int := 0

def ZlmAPIEndpointVersion : String := "index/api/version"
def ZlmAPIEndpointGetApiList : String := "index/api/getApiList"
def ZlmAPIEndpointGetNetworkThreads : String := "index/api/getThreadsLoad"
def ZlmAPIEndpointGetWorkThreads : String := "index/api/getWorkThreadsLoad"
def ZlmAPIEndpointGetStatistics : String := "index/api/getStatistic"
def ZlmAPIEndpointGetAllSession : String := "index/api/getAllSession"
def ZlmAPIEndpointGetMediaList : String := "index/api/getMediaList"
def ZlmAPIEndpointListRtpServer : String := "index/api/listRtpServer"

def Namespace : String := "zlm"
def SubsystemVersion : String := "version"
def SubsystemApi : String := "api"
def SubsystemNetworkThreads : String := "network_threads"
def SubsystemWorkThreads : String := "work_threads"
def SubsystemStatistics : String := "statistics"
def SubsystemSession : String := "session"
def SubsystemStream : String := "stream"
def SubsystemRtp : String := "rtp"

/-! ## Metric descriptors and samples -/

/-- A `prometheus.Desc`: fully qualified name, help text, ordered label names. -/
structure Desc where
  fqName : String
  help : String
  variableLabels : List String
  deriving DecidableEq

/-- The function `prometheus.BuildFQName`: the non-empty parts joined by underscores,
empty when the name is empty. -/
def BuildFQName (ns subsystem name : String) : String :=
  if name = "" then ""
  else if ns ≠ "" ∧ subsystem ≠ "" then ns ++ "_" ++ subsystem ++ "_" ++ name
  else if ns ≠ "" then ns ++ "_" ++ name
  else if subsystem ≠ "" then subsystem ++ "_" ++ name
  else name

/-- The descriptor `newMetricDescr` builds (its append to the registry list `metrics`
is the order of the declarations below). -/
def newMetricDescr (ns subsystem metricName docString : String) (labels : List String) : Desc :=
  { fqName := BuildFQName ns subsystem metricName, help := docString, variableLabels := labels }

def ZLMediaKitInfo : Desc :=
  newMetricDescr Namespace SubsystemVersion "info" "ZLMediaKit version info."
    ["branchName", "buildTime", "commitHash"]
def ApiStatus : Desc :=
  newMetricDescr Namespace SubsystemApi "status" "The status of API endpoint" ["endpoint"]

def NetworkThreadsTotal : Desc :=
  newMetricDescr Namespace SubsystemNetworkThreads "total" "Total number of network threads" []
def NetworkThreadsLoadTotal : Desc :=
  newMetricDescr Namespace SubsystemNetworkThreads "load_total" "Total of network threads load" []
def NetworkThreadsDelayTotal : Desc :=
  newMetricDescr Namespace SubsystemNetworkThreads "delay_total" "Total of network threads delay" []

def WorkThreadsTotal : Desc :=
  newMetricDescr Namespace SubsystemWorkThreads "total" "Total number of work threads" []
def WorkThreadsLoadTotal : Desc :=
  newMetricDescr Namespace SubsystemWorkThreads "load_total" "Total of work threads load" []
def WorkThreadsDelayTotal : Desc :=
  newMetricDescr Namespace SubsystemWorkThreads "delay_total" "Total of work threads delay" []

def StatisticsBuffer : Desc :=
  newMetricDescr Namespace SubsystemStatistics "buffer" "Statistics buffer" []
def StatisticsBufferLikeString : Desc :=
  newMetricDescr Namespace SubsystemStatistics "buffer_like_string" "Statistics BufferLikeString" []
def StatisticsBufferList : Desc :=
  newMetricDescr Namespace SubsystemStatistics "buffer_list" "Statistics BufferList" []
def StatisticsBufferRaw : Desc :=
  newMetricDescr Namespace SubsystemStatistics "buffer_raw" "Statistics BufferRaw" []
def StatisticsFrame : Desc :=
  newMetricDescr Namespace SubsystemStatistics "frame" "Statistics Frame" []
def StatisticsFrameImp : Desc :=
  newMetricDescr Namespace SubsystemStatistics "frame_imp" "Statistics FrameImp" []
def StatisticsMediaSource : Desc :=
  newMetricDescr Namespace SubsystemStatistics "media_source" "Statistics MediaSource" []
def StatisticsMultiMediaSourceMuxer : Desc :=
  newMetricDescr Namespace SubsystemStatistics "multi_media_source_muxer"
    "Statistics MultiMediaSourceMuxer" []
def StatisticsRtmpPacket : Desc :=
  newMetricDescr Namespace SubsystemStatistics "rtmp_packet" "Statistics RtmpPacket" []
def StatisticsRtpPacket : Desc :=
  newMetricDescr Namespace SubsystemStatistics "rtp_packet" "Statistics RtpPacket" []
def StatisticsSocket : Desc :=
  newMetricDescr Namespace SubsystemStatistics "socket" "Statistics Socket" []
def StatisticsTcpClient : Desc :=
  newMetricDescr Namespace SubsystemStatistics "tcp_client" "Statistics TcpClient" []
def StatisticsTcpServer : Desc :=
  newMetricDescr Namespace SubsystemStatistics "tcp_server" "Statistics TcpServer" []
def StatisticsTcpSession : Desc :=
  newMetricDescr Namespace SubsystemStatistics "tcp_session" "Statistics TcpSession" []
def StatisticsUdpServer : Desc :=
  newMetricDescr Namespace SubsystemStatistics "udp_server" "Statistics UdpServer" []
def StatisticsUdpSession : Desc :=
  newMetricDescr Namespace SubsystemStatistics "udp_session" "Statistics UdpSession" []

def SessionInfo : Desc :=
  newMetricDescr Namespace SubsystemSession "info" "Session info"
    ["id", "identifier", "local_ip", "local_port", "peer_ip", "peer_port", "typeid"]
def SessionTotal : Desc :=
  newMetricDescr Namespace SubsystemSession "total" "Total number of sessions" []

def StreamsInfo : Desc :=
  newMetricDescr Namespace SubsystemStream "info" "Stream basic information"
    ["vhost", "app", "stream", "schema", "origin_type", "origin_url"]
def StreamStatus : Desc :=
  newMetricDescr Namespace SubsystemStream "status"
    "Stream status (1: active with data flowing, 0: inactive)" ["vhost", "app", "stream", "schema"]
def StreamReaderCount : Desc :=
  newMetricDescr Namespace SubsystemStream "reader_count" "Stream reader count"
    ["vhost", "app", "stream", "schema"]
def StreamTotalReaderCount : Desc :=
  newMetricDescr Namespace SubsystemStream "total_reader_count"
    "Total reader count across all schemas" ["vhost", "app", "stream"]
def StreamBitrate : Desc :=
  newMetricDescr Namespace SubsystemStream "bitrate" "Stream bitrate"
    ["vhost", "app", "stream", "schema"]
def StreamaliveSecond : Desc :=
  newMetricDescr Namespace SubsystemStream "alive_second" "Stream alive second"
    ["vhost", "app", "stream", "schema"]
def StreamCreateStamp : Desc :=
  newMetricDescr Namespace SubsystemStream "create_stamp" "Stream create stamp"
    ["vhost", "app", "stream", "schema"]
def StreamTotal : Desc :=
  newMetricDescr Namespace SubsystemStream "total" "Total number of streams" []

def RtpServerInfo : Desc :=
  newMetricDescr Namespace SubsystemRtp "server_info" "RTP server info" ["port", "stream_id"]
def RtpServerTotal : Desc :=
  newMetricDescr Namespace SubsystemRtp "server_total" "Total number of RTP servers" []

/-- A constant gauge metric: the descriptor it references, its value, its label values. -/
structure Sample where
  desc : Desc
  value : Float64
  labelValues : List String
  deriving DecidableEq

/-- What travels on the channel of `prometheus.Metric`: an interface value, possibly nil. -/
abbrev Metric := Option Sample

/-- The run-time panic of `prometheus.MustNewConstMetric`. -/
inductive Panic where
  | inconsistentLabelCardinality (desc : Desc) (labelValues : List String)
  deriving DecidableEq

/-- The function `prometheus.MustNewConstMetric` at value type gauge: the sample, or a
panic when the number of label values differs from the number of label names of the
descriptor. -/
def MustNewConstMetric (desc : Desc) (value : Float64) (labelValues : List String) :
    Except Panic Sample :=
  if labelValues.length = desc.variableLabels.length then
    .ok { desc := desc, value := value, labelValues := labelValues }
  else .error (.inconsistentLabelCardinality desc labelValues)

/-! ## JSON documents and the decoder of `encoding/json` -/

/-- A JSON number token, given by what the decoder can observe of it:
`strconv.ParseInt(token, 10, 64)` (absent when the token has a fraction or an exponent,
or is out of range) and `strconv.ParseFloat(token, 64)` (absent on a range error). -/
structure JNumber where
  asInt : Option Int
  asFloat : Option Float64


/-- The token of an integer literal of the `int64` range such as `100`: `ParseInt` gives
the integer and `ParseFloat` the `float64` nearest to it. -/
def JNumber.ofInt (n : Int) : JNumber := { asInt := some n, asFloat := some (float64 n) }

/-- A JSON value; the members of an object are kept in document order. -/
inductive Json where
  | null
  | bool (b : Bool)
  | num (n : JNumber)
  | str (s : String)
  | arr (elems : List Json)
  | obj (members : List (String × Json))

/-- A response body as `json.NewDecoder(body).Decode` sees it: the first JSON value of
the stream, or nothing when the stream does not start with a well-formed value. -/
abbrev Body := Option Json

/-- The function `foldRune` of `encoding/json` on the runes that share a fold set with an
ASCII letter (a-z, the Kelvin sign and the long s); all field names of this program
are ASCII, and no other rune folds to an ASCII one. -/
def foldRune (c : Char) : Char :=
  if c = Char.ofNat 0x212A then 'K'
  else if c = Char.ofNat 0x17F then 'S'
  else c.toUpper

/-- The function `foldName` of `encoding/json`: two member names match the same struct
field when their folded names are equal. -/
def foldName (s : String) : String := String.mk (s.data.map foldRune)

/-- Whether an object member named `key` is stored into the field tagged `tag`. -/
def matchesField (key tag : String) : Bool := foldName key == foldName tag

/-- Decoding into a `string` field: `null` leaves it, a string sets it, anything else is
an `UnmarshalTypeError`. -/
def decodeString (cur : String) : Json → Option String
  | .null => some cur
  | .str s => some s
  | _ => none

/-- Decoding into an `int` field. -/
def decodeInt (cur : Int) : Json → Option Int
  | .null => some cur
  | .num n => n.asInt
  | _ => none

/-- Decoding into a `float64` field. -/
def decodeFloat64 (cur : Float64) : Json → Option Float64
  | .null => some cur
  | .num n => n.asFloat
  | _ => none

/-- Decoding into a slice that is still nil, as it is when the member is met for the
first time: `null` leaves the nil slice, an array decodes each element into a zero value,
anything else is an `UnmarshalTypeError`.  A second occurrence of the same member in one
object is decoded in the same way, without the elements the first one left. -/
def decodeSlice {α : Type} (zero : α) (decodeElem : α → Json → Option α) : Json → Option (List α)
  | .null => some []
  | .arr elems => elems.mapM (decodeElem zero)
  | _ => none

/-- Decoding into a struct: `null` leaves it, an object stores its members in document
order (`store` skips the names that match no field), anything else is an
`UnmarshalTypeError`. -/
def decodeStruct {α : Type} (store : α → String → Json → Option α) (cur : α) : Json → Option α
  | .null => some cur
  | .obj members => members.foldlM (fun acc kv => store acc kv.1 kv.2) cur
  | _ => none

/-! ## The response envelope -/

structure ZLMAPIResponse (T : Type) where
  Code : Int
  Msg : String
  Data : T


/-- The store of one object member into the envelope (tags `code`, `msg`, `data`). -/
def ZLMAPIResponse.store {T : Type} (decodeData : T → Json → Option T)
    (cur : ZLMAPIResponse T) (key : String) (v : Json) : Option (ZLMAPIResponse T) :=
  if matchesField key "code" then (decodeInt cur.Code v).map (fun c => { cur with Code := c })
  else if matchesField key "msg" then (decodeString cur.Msg v).map (fun m => { cur with Msg := m })
  else if matchesField key "data" then (decodeData cur.Data v).map (fun d => { cur with Data := d })
  else some cur

/-- The call `decoder.Decode(result)` on a zero-valued envelope: the decoded envelope, or
nothing when the decoder returns an error. -/
def Decode {T : Type} (zero : T) (decodeData : T → Json → Option T) (body : Body) :
    Option (ZLMAPIResponse T) :=
  body.bind (decodeStruct (ZLMAPIResponse.store decodeData) { Code := 0, Msg := "", Data := zero })

/-- The errors `processAPIResponse` returns. -/
inductive ScrapeError where
  | decoding (endpoint : String)
  | noCodeField
  | unexpectedCode (endpoint : String) (code : Int) (msg : String)
  deriving DecidableEq

/-- The method `processAPIResponse`: decode the body into the envelope, then compare the
`Code` field with the success code.  Every envelope type has the `Code` field, so the
reflective lookup always finds it. -/
def processAPIResponse {T : Type} (endpoint : String) (body : Body) (zero : T)
    (decodeData : T → Json → Option T) : Except ScrapeError (ZLMAPIResponse T) :=
  match Decode zero decodeData body with
  | none => .error (.decoding endpoint)
  | some result =>
    if result.Code ≠ ZlmAPISuccessCode then
      .error (.unexpectedCode endpoint result.Code result.Msg)
    else .ok result

/-! ## The exporter and the HTTP fetch -/

structure Options where
  SSLVerify : Bool
  deriving DecidableEq

structure TLSConfig where
  InsecureSkipVerify : Bool
  deriving DecidableEq

/-- The `http.Client`: its transport is nil (the default transport) or one with the
given TLS configuration. -/
structure Client where
  Transport : Option TLSConfig
  deriving DecidableEq

structure Exporter where
  scrapeURI : String
  scrapeSecret : String
  client : Client
  totalScrapes : Nat
  options : Options
  deriving DecidableEq

/-- The constructor `NewExporter`; the error carries the message. -/
def NewExporter (uri secret : String) (options : Options) : Except String Exporter :=
  if uri = "" then .error "ZlMediaKit API uri is required"
  else if secret = "" then .error "ZlMediaKit API secret is required"
  else
    .ok { scrapeURI := uri, scrapeSecret := secret,
          client := if options.SSLVerify then { Transport := some { InsecureSkipVerify := true } }
                    else { Transport := none },
          totalScrapes := 0, options := options }

/-- The `http.Request` that `fetchHTTP` builds. -/
structure Request where
  Method : String
  URL : String
  Header : List (String × List String)
  deriving DecidableEq

/-- What `client.Do` does within one scrape cycle: it has not returned when the cycle
ends, it returns an error, or it returns a response with a body. -/
inductive DoResult where
  | pending
  | failed
  | response (body : Body)

/-- The network as seen by one scrape cycle: whether `url.Parse` accepts a URI, and the
result of `client.Do` for a request. -/
structure Transport where
  urlParse : String → Bool
  Do : Client → Request → DoResult

/-- The counter vector `scrapeErrors`: one count per value of the `endpoint` label. -/
abbrev Counters := String → Nat

/-- The call `scrapeErrors.WithLabelValues(endpoint).Inc()`. -/
def Counters.inc (c : Counters) (endpoint : String) : Counters :=
  fun l => if l = endpoint then c l + 1 else c l

/-- What one source task has done when the cycle ends. -/
structure TaskResult where
  returned : Bool
  sent : List Metric
  scrapeErrors : Counters

/-- The method `fetchHTTP`: build the URI and the request, issue it, and hand the body to
`processFunc`; each of the three failures increments the counter of `endpoint`.
`processFunc` yields the metrics it sent and the error it returned.  The source passes
the deadline context `ctx` and the channel to `fetchHTTP`; its body uses neither: the
request is the literal with `Method`, `URL` and `Header` and carries no context. -/
def fetchHTTP (e : Exporter) (net : Transport) (scrapeErrors : Counters) (endpoint : String)
    (processFunc : Body → Except Panic (List Metric × Option ScrapeError)) :
    Except Panic TaskResult :=
  let uri := e.scrapeURI ++ "/" ++ endpoint
  if ¬ net.urlParse uri then
    pure { returned := true, sent := [], scrapeErrors := scrapeErrors.inc endpoint }
  else
    let req : Request :=
      { Method := "GET", URL := uri, Header := [("secret", [e.scrapeSecret])] }
    match net.Do e.client req with
    | .pending => pure { returned := false, sent := [], scrapeErrors := scrapeErrors }
    | .failed => pure { returned := true, sent := [], scrapeErrors := scrapeErrors.inc endpoint }
    | .response body => do
      let (sent, err) ← processFunc body
      match err with
      | some _ => pure { returned := true, sent := sent, scrapeErrors := scrapeErrors.inc endpoint }
      | none => pure { returned := true, sent := sent, scrapeErrors := scrapeErrors }

/-! ## Streams payload -/

structure APIStreamInfoObj where
  AliveSecond : Int
  App : String
  BytesSpeed : Float64
  CreateStamp : Int
  OriginType : Int
  OriginTypeStr : String
  OriginUrl : String
  ReaderCount : Int
  Schema : String
  Stream : String
  TotalReaderCount : Int
  Vhost : String
  deriving DecidableEq

abbrev APIStreamInfoObjs := List APIStreamInfoObj

/-- The key `fmt.Sprintf("%s_%s_%s", stream.Vhost, stream.App, stream.Stream)`. -/
def streamKey (stream : APIStreamInfoObj) : String :=
  stream.Vhost ++ "_" ++ stream.App ++ "_" ++ stream.Stream

/-- The body of the `for _, stream := range apiResponse.Data` loop of `extractStream`,
run over the records that remain.  `uniqueStreamKeys` is the key set of the Go map
(each key once, in insertion order); the result is the metrics sent to the channel
and the key set after the loop. -/
def extractStream.loop :
    List APIStreamInfoObj → List String → Except Panic (List Metric × List String)
  | [], uniqueStreamKeys => pure ([], uniqueStreamKeys)
  | stream :: rest, uniqueStreamKeys => do
    let key := streamKey stream
    let (first, keys) ←
      if ¬ uniqueStreamKeys.contains key then do
        let m ← MustNewConstMetric StreamTotalReaderCount (float64 stream.TotalReaderCount)
          [stream.App, stream.Stream, stream.Vhost]
        pure ([some m], uniqueStreamKeys ++ [key])
      else pure ([], uniqueStreamKeys)
    let info ← MustNewConstMetric StreamsInfo 1
      [stream.Vhost, stream.App, stream.Stream, stream.Schema, stream.OriginTypeStr,
        stream.OriginUrl]
    let status : Float64 := if stream.BytesSpeed > 0 then 1 else 0
    let st ← MustNewConstMetric StreamStatus status
      [stream.Vhost, stream.App, stream.Stream, stream.Schema]
    let rc ← MustNewConstMetric StreamReaderCount (float64 stream.ReaderCount)
      [stream.Vhost, stream.App, stream.Stream, stream.Schema]
    let br ← MustNewConstMetric StreamBitrate stream.BytesSpeed
      [stream.Vhost, stream.App, stream.Stream, stream.Schema]
    let al ← MustNewConstMetric StreamaliveSecond (float64 stream.AliveSecond)
      [stream.Vhost, stream.App, stream.Stream, stream.Schema]
    let cs ← MustNewConstMetric StreamCreateStamp (float64 stream.CreateStamp)
      [stream.Vhost, stream.App, stream.Stream, stream.Schema]
    let (later, keysEnd) ← extractStream.loop rest keys
    pure (first ++ [some info, some st, some rc, some br, some al, some cs] ++ later, keysEnd)

/-- What `extractStream` sends for a decoded payload: the loop over the records, then
the stream-total sample whose value is `float64(len(uniqueStreamKeys))`. -/
def extractStream.publish (data : APIStreamInfoObjs) : Except Panic (List Metric) := do
  let (sent, uniqueStreamKeys) ← extractStream.loop data []
  let total ← MustNewConstMetric StreamTotal (float64 uniqueStreamKeys.length) []
  pure (sent ++ [some total])


/-- The zero value of `APIStreamInfoObj`. -/
def APIStreamInfoObj.zero : APIStreamInfoObj :=
  { AliveSecond := 0, App := "", BytesSpeed := 0, CreateStamp := 0, OriginType := 0,
    OriginTypeStr := "", OriginUrl := "", ReaderCount := 0, Schema := "", Stream := "",
    TotalReaderCount := 0, Vhost := "" }

/-- The store of one object member into an `APIStreamInfoObj` (by its JSON tags). -/
def APIStreamInfoObj.store (cur : APIStreamInfoObj) (key : String) (v : Json) :
    Option APIStreamInfoObj :=
  if matchesField key "aliveSecond" then
    (decodeInt cur.AliveSecond v).map (fun x => { cur with AliveSecond := x })
  else if matchesField key "app" then
    (decodeString cur.App v).map (fun x => { cur with App := x })
  else if matchesField key "bytesSpeed" then
    (decodeFloat64 cur.BytesSpeed v).map (fun x => { cur with BytesSpeed := x })
  else if matchesField key "createStamp" then
    (decodeInt cur.CreateStamp v).map (fun x => { cur with CreateStamp := x })
  else if matchesField key "originType" then
    (decodeInt cur.OriginType v).map (fun x => { cur with OriginType := x })
  else if matchesField key "originTypeStr" then
    (decodeString cur.OriginTypeStr v).map (fun x => { cur with OriginTypeStr := x })
  else if matchesField key "originUrl" then
    (decodeString cur.OriginUrl v).map (fun x => { cur with OriginUrl := x })
  else if matchesField key "readerCount" then
    (decodeInt cur.ReaderCount v).map (fun x => { cur with ReaderCount := x })
  else if matchesField key "schema" then
    (decodeString cur.Schema v).map (fun x => { cur with Schema := x })
  else if matchesField key "stream" then
    (decodeString cur.Stream v).map (fun x => { cur with Stream := x })
  else if matchesField key "totalReaderCount" then
    (decodeInt cur.TotalReaderCount v).map (fun x => { cur with TotalReaderCount := x })
  else if matchesField key "vhost" then
    (decodeString cur.Vhost v).map (fun x => { cur with Vhost := x })
  else some cur

def decodeAPIStreamInfoObjs (_ : APIStreamInfoObjs) : Json → Option APIStreamInfoObjs :=
  decodeSlice APIStreamInfoObj.zero (decodeStruct APIStreamInfoObj.store)

/-- The closure `processFunc` of `extractStream`. -/
def extractStream.processFunc (body : Body) : Except Panic (List Metric × Option ScrapeError) :=
  match processAPIResponse ZlmAPIEndpointGetMediaList body [] decodeAPIStreamInfoObjs with
  | .error err => pure ([], some err)
  | .ok apiResponse => do
    let sent ← extractStream.publish apiResponse.Data
    pure (sent, none)

def extractStream (e : Exporter) (net : Transport) (scrapeErrors : Counters) :
    Except Panic TaskResult :=
  fetchHTTP e net scrapeErrors ZlmAPIEndpointGetMediaList extractStream.processFunc

/-! ## Version -/

structure APIVersionObj where
  BranchName : String
  BuildTime : String
  CommitHash : String
  deriving DecidableEq

def APIVersionObj.zero : APIVersionObj := { BranchName := "", BuildTime := "", CommitHash := "" }

def APIVersionObj.store (cur : APIVersionObj) (key : String) (v : Json) : Option APIVersionObj :=
  if matchesField key "branchName" then
    (decodeString cur.BranchName v).map (fun x => { cur with BranchName := x })
  else if matchesField key "buildTime" then
    (decodeString cur.BuildTime v).map (fun x => { cur with BuildTime := x })
  else if matchesField key "commitHash" then
    (decodeString cur.CommitHash v).map (fun x => { cur with CommitHash := x })
  else some cur

def decodeAPIVersionObj : APIVersionObj → Json → Option APIVersionObj :=
  decodeStruct APIVersionObj.store

def extractVersion.processFunc (body : Body) : Except Panic (List Metric × Option ScrapeError) :=
  match processAPIResponse ZlmAPIEndpointVersion body APIVersionObj.zero decodeAPIVersionObj with
  | .error err => pure ([], some err)
  | .ok apiResponse => do
    let data := apiResponse.Data
    let m ← MustNewConstMetric ZLMediaKitInfo 1 [data.BranchName, data.BuildTime, data.CommitHash]
    pure ([some m], none)

def extractVersion (e : Exporter) (net : Transport) (scrapeErrors : Counters) :
    Except Panic TaskResult :=
  fetchHTTP e net scrapeErrors ZlmAPIEndpointVersion extractVersion.processFunc

/-! ## API list -/

def decodeStringSlice (_ : List String) : Json → Option (List String) :=
  decodeSlice "" decodeString

/-- The loop `for _, endpoint := range data` of `extractAPIStatus`. -/
def extractAPIStatus.loop : List String → Except Panic (List Metric)
  | [] => pure []
  | endpoint :: rest => do
    let m ← MustNewConstMetric ApiStatus 1 [endpoint]
    let later ← extractAPIStatus.loop rest
    pure (some m :: later)

def extractAPIStatus.processFunc (body : Body) : Except Panic (List Metric × Option ScrapeError) :=
  match processAPIResponse ZlmAPIEndpointGetApiList body [] decodeStringSlice with
  | .error err => pure ([], some err)
  | .ok apiResponse => do
    let sent ← extractAPIStatus.loop apiResponse.Data
    pure (sent, none)

def extractAPIStatus (e : Exporter) (net : Transport) (scrapeErrors : Counters) :
    Except Panic TaskResult :=
  fetchHTTP e net scrapeErrors ZlmAPIEndpointGetApiList extractAPIStatus.processFunc

/-! ## Network threads and work threads -/

structure APINetworkThreadsObj where
  Load : Float64
  Delay : Float64
  deriving DecidableEq

abbrev APINetworkThreadsObjs := List APINetworkThreadsObj

def APINetworkThreadsObj.store (cur : APINetworkThreadsObj) (key : String) (v : Json) :
    Option APINetworkThreadsObj :=
  if matchesField key "load" then
    (decodeFloat64 cur.Load v).map (fun x => { cur with Load := x })
  else if matchesField key "delay" then
    (decodeFloat64 cur.Delay v).map (fun x => { cur with Delay := x })
  else some cur

def decodeAPINetworkThreadsObjs (_ : APINetworkThreadsObjs) : Json → Option APINetworkThreadsObjs :=
  decodeSlice { Load := 0, Delay := 0 } (decodeStruct APINetworkThreadsObj.store)

/-- The accumulation loop of `extractNetworkThreads` over the records that remain; the
state is `(loadTotal, delayTotal, total)`, and every `+=` and `++` is the rounded
`float64` addition. -/
def extractNetworkThreads.loop :
    List APINetworkThreadsObj → Float64 × Float64 × Float64 → Float64 × Float64 × Float64
  | [], acc => acc
  | data :: rest, (loadTotal, delayTotal, total) =>
    extractNetworkThreads.loop rest (loadTotal + data.Load, delayTotal + data.Delay, total + 1)

def extractNetworkThreads.processFunc (body : Body) :
    Except Panic (List Metric × Option ScrapeError) :=
  match processAPIResponse ZlmAPIEndpointGetNetworkThreads body [] decodeAPINetworkThreadsObjs with
  | .error err => pure ([], some err)
  | .ok apiResponse => do
    let (loadTotal, delayTotal, total) := extractNetworkThreads.loop apiResponse.Data (0, 0, 0)
    let m1 ← MustNewConstMetric NetworkThreadsTotal total []
    let m2 ← MustNewConstMetric NetworkThreadsLoadTotal loadTotal []
    let m3 ← MustNewConstMetric NetworkThreadsDelayTotal delayTotal []
    pure ([some m1, some m2, some m3], none)

def extractNetworkThreads (e : Exporter) (net : Transport) (scrapeErrors : Counters) :
    Except Panic TaskResult :=
  fetchHTTP e net scrapeErrors ZlmAPIEndpointGetNetworkThreads extractNetworkThreads.processFunc

structure APIWorkThreadsObj where
  Load : Float64
  Delay : Float64
  deriving DecidableEq

abbrev APIWorkThreadsObjs := List APIWorkThreadsObj

def APIWorkThreadsObj.store (cur : APIWorkThreadsObj) (key : String) (v : Json) :
    Option APIWorkThreadsObj :=
  if matchesField key "load" then
    (decodeFloat64 cur.Load v).map (fun x => { cur with Load := x })
  else if matchesField key "delay" then
    (decodeFloat64 cur.Delay v).map (fun x => { cur with Delay := x })
  else some cur

def decodeAPIWorkThreadsObjs (_ : APIWorkThreadsObjs) : Json → Option APIWorkThreadsObjs :=
  decodeSlice { Load := 0, Delay := 0 } (decodeStruct APIWorkThreadsObj.store)

/-- The accumulation loop of `extractWorkThreads`, as for the network threads. -/
def extractWorkThreads.loop :
    List APIWorkThreadsObj → Float64 × Float64 × Float64 → Float64 × Float64 × Float64
  | [], acc => acc
  | data :: rest, (loadTotal, delayTotal, total) =>
    extractWorkThreads.loop rest (loadTotal + data.Load, delayTotal + data.Delay, total + 1)

def extractWorkThreads.processFunc (body : Body) :
    Except Panic (List Metric × Option ScrapeError) :=
  match processAPIResponse ZlmAPIEndpointGetWorkThreads body [] decodeAPIWorkThreadsObjs with
  | .error err => pure ([], some err)
  | .ok apiResponse => do
    let (loadTotal, delayTotal, total) := extractWorkThreads.loop apiResponse.Data (0, 0, 0)
    let m1 ← MustNewConstMetric WorkThreadsTotal total []
    let m2 ← MustNewConstMetric WorkThreadsLoadTotal loadTotal []
    let m3 ← MustNewConstMetric WorkThreadsDelayTotal delayTotal []
    pure ([some m1, some m2, some m3], none)

def extractWorkThreads (e : Exporter) (net : Transport) (scrapeErrors : Counters) :
    Except Panic TaskResult :=
  fetchHTTP e net scrapeErrors ZlmAPIEndpointGetWorkThreads extractWorkThreads.processFunc

/-! ## Statistics -/

structure APIStatisticsObj where
  Buffer : Float64
  BufferLikeString : Float64
  BufferList : Float64
  BufferRaw : Float64
  Frame : Float64
  FrameImp : Float64
  MediaSource : Float64
  MultiMediaSourceMuxer : Float64
  RtmpPacket : Float64
  RtpPacket : Float64
  Socket : Float64
  TcpClient : Float64
  TcpServer : Float64
  TcpSession : Float64
  UdpServer : Float64
  UdpSession : Float64
  deriving DecidableEq

def APIStatisticsObj.zero : APIStatisticsObj :=
  { Buffer := 0, BufferLikeString := 0, BufferList := 0, BufferRaw := 0,
    Frame := 0, FrameImp := 0, MediaSource := 0, MultiMediaSourceMuxer := 0,
    RtmpPacket := 0, RtpPacket := 0, Socket := 0, TcpClient := 0,
    TcpServer := 0, TcpSession := 0, UdpServer := 0, UdpSession := 0 }

def APIStatisticsObj.store (cur : APIStatisticsObj) (key : String) (v : Json) :
    Option APIStatisticsObj :=
  if matchesField key "Buffer" then
    (decodeFloat64 cur.Buffer v).map (fun x => { cur with Buffer := x })
  else if matchesField key "BufferLikeString" then
    (decodeFloat64 cur.BufferLikeString v).map (fun x => { cur with BufferLikeString := x })
  else if matchesField key "BufferList" then
    (decodeFloat64 cur.BufferList v).map (fun x => { cur with BufferList := x })
  else if matchesField key "BufferRaw" then
    (decodeFloat64 cur.BufferRaw v).map (fun x => { cur with BufferRaw := x })
  else if matchesField key "Frame" then
    (decodeFloat64 cur.Frame v).map (fun x => { cur with Frame := x })
  else if matchesField key "FrameImp" then
    (decodeFloat64 cur.FrameImp v).map (fun x => { cur with FrameImp := x })
  else if matchesField key "MediaSource" then
    (decodeFloat64 cur.MediaSource v).map (fun x => { cur with MediaSource := x })
  else if matchesField key "MultiMediaSourceMuxer" then
    (decodeFloat64 cur.MultiMediaSourceMuxer v).map (fun x => { cur with MultiMediaSourceMuxer := x })
  else if matchesField key "RtmpPacket" then
    (decodeFloat64 cur.RtmpPacket v).map (fun x => { cur with RtmpPacket := x })
  else if matchesField key "RtpPacket" then
    (decodeFloat64 cur.RtpPacket v).map (fun x => { cur with RtpPacket := x })
  else if matchesField key "Socket" then
    (decodeFloat64 cur.Socket v).map (fun x => { cur with Socket := x })
  else if matchesField key "TcpClient" then
    (decodeFloat64 cur.TcpClient v).map (fun x => { cur with TcpClient := x })
  else if matchesField key "TcpServer" then
    (decodeFloat64 cur.TcpServer v).map (fun x => { cur with TcpServer := x })
  else if matchesField key "TcpSession" then
    (decodeFloat64 cur.TcpSession v).map (fun x => { cur with TcpSession := x })
  else if matchesField key "UdpServer" then
    (decodeFloat64 cur.UdpServer v).map (fun x => { cur with UdpServer := x })
  else if matchesField key "UdpSession" then
    (decodeFloat64 cur.UdpSession v).map (fun x => { cur with UdpSession := x })
  else some cur

def decodeAPIStatisticsObj : APIStatisticsObj → Json → Option APIStatisticsObj :=
  decodeStruct APIStatisticsObj.store

/-- A Go value passed as `interface{}` to `mustNewConstMetric`, by its dynamic type. -/
inductive AnyValue where
  | float64 (v : Float64)
  | string (s : String)
  | other
  deriving DecidableEq

/-- The method `mustNewConstMetric`: a type switch on the value.  `ParseFloat` is
`strconv.ParseFloat(_, 64)` (nothing when it returns an error).  The default case
returns the nil metric. -/
def mustNewConstMetric (ParseFloat : String → Option Float64) (desc : Desc) (value : AnyValue)
    (labelValues : List String) : Except Panic Metric :=
  match value with
  | .float64 vt => do
    let m ← MustNewConstMetric desc vt labelValues
    pure (some m)
  | .string vt =>
    match ParseFloat vt with
    | some valueFloat => do
      let m ← MustNewConstMetric desc valueFloat labelValues
      pure (some m)
    | none => do
      let m ← MustNewConstMetric desc 1 labelValues
      pure (some m)
  | .other => pure none

/-- The sixteen sends of `extractStatistics`; every field has static type `float64`. -/
def extractStatistics.publish (ParseFloat : String → Option Float64) (data : APIStatisticsObj) :
    Except Panic (List Metric) := do
  let m1 ← mustNewConstMetric ParseFloat StatisticsBuffer (.float64 data.Buffer) []
  let m2 ← mustNewConstMetric ParseFloat StatisticsBufferLikeString (.float64 data.BufferLikeString) []
  let m3 ← mustNewConstMetric ParseFloat StatisticsBufferList (.float64 data.BufferList) []
  let m4 ← mustNewConstMetric ParseFloat StatisticsBufferRaw (.float64 data.BufferRaw) []
  let m5 ← mustNewConstMetric ParseFloat StatisticsFrame (.float64 data.Frame) []
  let m6 ← mustNewConstMetric ParseFloat StatisticsFrameImp (.float64 data.FrameImp) []
  let m7 ← mustNewConstMetric ParseFloat StatisticsMediaSource (.float64 data.MediaSource) []
  let m8 ← mustNewConstMetric ParseFloat StatisticsMultiMediaSourceMuxer (.float64 data.MultiMediaSourceMuxer) []
  let m9 ← mustNewConstMetric ParseFloat StatisticsRtmpPacket (.float64 data.RtmpPacket) []
  let m10 ← mustNewConstMetric ParseFloat StatisticsRtpPacket (.float64 data.RtpPacket) []
  let m11 ← mustNewConstMetric ParseFloat StatisticsSocket (.float64 data.Socket) []
  let m12 ← mustNewConstMetric ParseFloat StatisticsTcpClient (.float64 data.TcpClient) []
  let m13 ← mustNewConstMetric ParseFloat StatisticsTcpServer (.float64 data.TcpServer) []
  let m14 ← mustNewConstMetric ParseFloat StatisticsTcpSession (.float64 data.TcpSession) []
  let m15 ← mustNewConstMetric ParseFloat StatisticsUdpServer (.float64 data.UdpServer) []
  let m16 ← mustNewConstMetric ParseFloat StatisticsUdpSession (.float64 data.UdpSession) []
  pure [m1, m2, m3, m4, m5, m6, m7, m8, m9, m10, m11, m12, m13, m14, m15, m16]

def extractStatistics.processFunc (ParseFloat : String → Option Float64) (body : Body) :
    Except Panic (List Metric × Option ScrapeError) :=
  match processAPIResponse ZlmAPIEndpointGetStatistics body APIStatisticsObj.zero
      decodeAPIStatisticsObj with
  | .error err => pure ([], some err)
  | .ok apiResponse => do
    let sent ← extractStatistics.publish ParseFloat apiResponse.Data
    pure (sent, none)

def extractStatistics (ParseFloat : String → Option Float64) (e : Exporter) (net : Transport)
    (scrapeErrors : Counters) : Except Panic TaskResult :=
  fetchHTTP e net scrapeErrors ZlmAPIEndpointGetStatistics
    (extractStatistics.processFunc ParseFloat)

/-! ## Sessions -/

structure APISessionObj where
  Id : String
  Identifier : String
  LocalIp : String
  LocalPort : Int
  PeerIp : String
  PeerPort : Int
  TypeID : String
  deriving DecidableEq

abbrev APISessionObjs := List APISessionObj

def APISessionObj.zero : APISessionObj :=
  { Id := "", Identifier := "", LocalIp := "", LocalPort := 0, PeerIp := "", PeerPort := 0,
    TypeID := "" }

def APISessionObj.store (cur : APISessionObj) (key : String) (v : Json) : Option APISessionObj :=
  if matchesField key "id" then
    (decodeString cur.Id v).map (fun x => { cur with Id := x })
  else if matchesField key "identifier" then
    (decodeString cur.Identifier v).map (fun x => { cur with Identifier := x })
  else if matchesField key "local_ip" then
    (decodeString cur.LocalIp v).map (fun x => { cur with LocalIp := x })
  else if matchesField key "local_port" then
    (decodeInt cur.LocalPort v).map (fun x => { cur with LocalPort := x })
  else if matchesField key "peer_ip" then
    (decodeString cur.PeerIp v).map (fun x => { cur with PeerIp := x })
  else if matchesField key "peer_port" then
    (decodeInt cur.PeerPort v).map (fun x => { cur with PeerPort := x })
  else if matchesField key "typeid" then
    (decodeString cur.TypeID v).map (fun x => { cur with TypeID := x })
  else some cur

def decodeAPISessionObjs (_ : APISessionObjs) : Json → Option APISessionObjs :=
  decodeSlice APISessionObj.zero (decodeStruct APISessionObj.store)

/-- The function `strconv.Itoa`. -/
def Itoa (n : Int) : String := toString n

/-- The loop `for _, v := range apiResponse.Data` of `extractSession`. -/
def extractSession.loop : List APISessionObj → Except Panic (List Metric)
  | [] => pure []
  | v :: rest => do
    let id := v.Id
    let identifier := v.Identifier
    let localIP := v.LocalIp
    let localPort := Itoa v.LocalPort
    let peerIP := v.PeerIp
    let peerPort := Itoa v.PeerPort
    let typeID := v.TypeID
    let m ← MustNewConstMetric SessionInfo 1
      [id, identifier, localIP, localPort, peerIP, peerPort, typeID]
    let later ← extractSession.loop rest
    pure (some m :: later)

def extractSession.processFunc (body : Body) : Except Panic (List Metric × Option ScrapeError) :=
  match processAPIResponse ZlmAPIEndpointGetAllSession body [] decodeAPISessionObjs with
  | .error err => pure ([], some err)
  | .ok apiResponse => do
    let sent ← extractSession.loop apiResponse.Data
    let total ← MustNewConstMetric SessionTotal (float64 apiResponse.Data.length) []
    pure (sent ++ [some total], none)

def extractSession (e : Exporter) (net : Transport) (scrapeErrors : Counters) :
    Except Panic TaskResult :=
  fetchHTTP e net scrapeErrors ZlmAPIEndpointGetAllSession extractSession.processFunc

/-! ## RTP servers -/

structure APIRtpServerObj where
  Port : String
  StreamID : String
  deriving DecidableEq

abbrev APIRtpServerObjs := List APIRtpServerObj

def APIRtpServerObj.store (cur : APIRtpServerObj) (key : String) (v : Json) :
    Option APIRtpServerObj :=
  if matchesField key "port" then
    (decodeString cur.Port v).map (fun x => { cur with Port := x })
  else if matchesField key "stream_id" then
    (decodeString cur.StreamID v).map (fun x => { cur with StreamID := x })
  else some cur

def decodeAPIRtpServerObjs (_ : APIRtpServerObjs) : Json → Option APIRtpServerObjs :=
  decodeSlice { Port := "", StreamID := "" } (decodeStruct APIRtpServerObj.store)

/-- The loop `for _, v := range apiResponse.Data` of `extractRtp`. -/
def extractRtp.loop : List APIRtpServerObj → Except Panic (List Metric)
  | [] => pure []
  | v :: rest => do
    let rtpPort := v.Port
    let streamID := v.StreamID
    let m ← MustNewConstMetric RtpServerInfo 1 [rtpPort, streamID]
    let later ← extractRtp.loop rest
    pure (some m :: later)

def extractRtp.processFunc (body : Body) : Except Panic (List Metric × Option ScrapeError) :=
  match processAPIResponse ZlmAPIEndpointListRtpServer body [] decodeAPIRtpServerObjs with
  | .error err => pure ([], some err)
  | .ok apiResponse => do
    let sent ← extractRtp.loop apiResponse.Data
    let total ← MustNewConstMetric RtpServerTotal (float64 apiResponse.Data.length) []
    pure (sent ++ [some total], none)

def extractRtp (e : Exporter) (net : Transport) (scrapeErrors : Counters) :
    Except Panic TaskResult :=
  fetchHTTP e net scrapeErrors ZlmAPIEndpointListRtpServer extractRtp.processFunc

/-! ## The scrape cycle -/

/-- The eight source tasks that `scrape` starts, in the order of the `go` statements. -/
inductive Source where
  | version
  | apiStatus
  | networkThreads
  | workThreads
  | statistics
  | session
  | stream
  | rtp
  deriving DecidableEq

/-- The endpoint path each source task passes to `fetchHTTP`. -/
def Source.endpoint : Source → String
  | .version => ZlmAPIEndpointVersion
  | .apiStatus => ZlmAPIEndpointGetApiList
  | .networkThreads => ZlmAPIEndpointGetNetworkThreads
  | .workThreads => ZlmAPIEndpointGetWorkThreads
  | .statistics => ZlmAPIEndpointGetStatistics
  | .session => ZlmAPIEndpointGetAllSession
  | .stream => ZlmAPIEndpointGetMediaList
  | .rtp => ZlmAPIEndpointListRtpServer

/-- The transformer each source task runs. -/
def Source.extract (ParseFloat : String → Option Float64) (e : Exporter) (net : Transport)
    (scrapeErrors : Counters) : Source → Except Panic TaskResult
  | .version => extractVersion e net scrapeErrors
  | .apiStatus => extractAPIStatus e net scrapeErrors
  | .networkThreads => extractNetworkThreads e net scrapeErrors
  | .workThreads => extractWorkThreads e net scrapeErrors
  | .statistics => extractStatistics ParseFloat e net scrapeErrors
  | .session => extractSession e net scrapeErrors
  | .stream => extractStream e net scrapeErrors
  | .rtp => extractRtp e net scrapeErrors

/-- The status code of the envelope that the transformer of a source decodes from a body,
when the body decodes. -/
def Source.envelopeCode (body : Body) : Source → Option Int
  | .version => (Decode APIVersionObj.zero decodeAPIVersionObj body).map (fun r => r.Code)
  | .apiStatus => (Decode [] decodeStringSlice body).map (fun r => r.Code)
  | .networkThreads => (Decode [] decodeAPINetworkThreadsObjs body).map (fun r => r.Code)
  | .workThreads => (Decode [] decodeAPIWorkThreadsObjs body).map (fun r => r.Code)
  | .statistics => (Decode APIStatisticsObj.zero decodeAPIStatisticsObj body).map (fun r => r.Code)
  | .session => (Decode [] decodeAPISessionObjs body).map (fun r => r.Code)
  | .stream => (Decode [] decodeAPIStreamInfoObjs body).map (fun r => r.Code)
  | .rtp => (Decode [] decodeAPIRtpServerObjs body).map (fun r => r.Code)

/-- The request `fetchHTTP` issues for an endpoint. -/
def Exporter.request (e : Exporter) (endpoint : String) : Request :=
  { Method := "GET", URL := e.scrapeURI ++ "/" ++ endpoint,
    Header := [("secret", [e.scrapeSecret])] }

/-- What one cycle leaves behind: the value `scrape` returns, the exporter with its
cycle counter, the metrics each source task sent to the channel (the channel
interleaves the eight sequences in an order the scheduler chooses), and the error
counters. -/
structure ScrapeResult where
  up : Float64
  exporter : Exporter
  sent : Source → List Metric
  scrapeErrors : Counters

/-- The method `scrape`: count the cycle, run the eight source tasks, and return 1 when
all of them have returned before the deadline (`done` is closed) and 0 when the
deadline fires first.  A task still waiting for its response has sent nothing.  Each
task increments only the counter of its own endpoint, so the order in which the
counter updates are threaded does not show. -/
def scrape (ParseFloat : String → Option Float64) (e : Exporter) (net : Transport)
    (scrapeErrors : Counters) : Except Panic ScrapeResult := do
  let e : Exporter := { e with totalScrapes := e.totalScrapes + 1 }
  let r1 ← extractVersion e net scrapeErrors
  let r2 ← extractAPIStatus e net r1.scrapeErrors
  let r3 ← extractNetworkThreads e net r2.scrapeErrors
  let r4 ← extractWorkThreads e net r3.scrapeErrors
  let r5 ← extractStatistics ParseFloat e net r4.scrapeErrors
  let r6 ← extractSession e net r5.scrapeErrors
  let r7 ← extractStream e net r6.scrapeErrors
  let r8 ← extractRtp e net r7.scrapeErrors
  let done := r1.returned && r2.returned && r3.returned && r4.returned && r5.returned
    && r6.returned && r7.returned && r8.returned
  let sent : Source → List Metric := fun
    | .version => r1.sent
    | .apiStatus => r2.sent
    | .networkThreads => r3.sent
    | .workThreads => r4.sent
    | .statistics => r5.sent
    | .session => r6.sent
    | .stream => r7.sent
    | .rtp => r8.sent
  pure { up := if done then 1 else 0, exporter := e, sent := sent,
         scrapeErrors := r8.scrapeErrors }

/-! ## Reading the channel -/

/-- The non-nil metrics of a sequence that reference the descriptor `d`, in order. -/
def samplesOf (d : Desc) (sent : List Metric) : List Sample :=
  (sent.filterMap id).filter (fun x => decide (x.desc = d))

/-- The number of distinct (vhost, app, stream) triples among the records of a payload. -/
def distinctTriples (data : APIStreamInfoObjs) : Nat :=
  ((data.map (fun r => (r.Vhost, r.App, r.Stream))).dedup).length

/-- A stream record with the given triple, schema and total reader count, every other
field zero. -/
def streamRecord (vhost app stream schema : String) (totalReaderCount : Int) :
    APIStreamInfoObj :=
  { APIStreamInfoObj.zero with
    Vhost := vhost, App := app, Stream := stream, Schema := schema,
    TotalReaderCount := totalReaderCount }

/-- Two records with different triples whose keys are both `__defaultVhost___live_a_b`. -/
def collidingStreams : APIStreamInfoObjs :=
  [streamRecord "__defaultVhost__" "live_a" "b" "rtmp" 7,
   streamRecord "__defaultVhost__" "live" "a_b" "rtmp" 9]

/-- The JSON object of a stream record `vhost`, `app`, `stream`, `schema`, `bytesSpeed`. -/
def streamJson (vhost app stream schema : String) (bytesSpeed : Int) : Json :=
  .obj [("vhost", .str vhost), ("app", .str app), ("stream", .str stream),
        ("schema", .str schema), ("bytesSpeed", .num (JNumber.ofInt bytesSpeed))]

/-- A media-list body with status code 0 holding two schema variants of one stream. -/
def mediaListBody : Body :=
  some (.obj [("code", .num (JNumber.ofInt 0)), ("msg", .str "success"),
    ("data", .arr [streamJson "a" "b" "c" "rtmp" 100, streamJson "a" "b" "c" "rtsp" 0])])


/-- The decoded envelope of `mediaListBody`. -/
def mediaListResponse : ZLMAPIResponse APIStreamInfoObjs :=
  { Code := 0, Msg := "success",
    Data := [{ APIStreamInfoObj.zero with
                Vhost := "a", App := "b", Stream := "c", Schema := "rtmp", BytesSpeed := 100 },
             { APIStreamInfoObj.zero with
                Vhost := "a", App := "b", Stream := "c", Schema := "rtsp", BytesSpeed := 0 }] }

/-- The two records of `TestExtractStreamInfo`. -/
def testStreamsResponse : ZLMAPIResponse APIStreamInfoObjs :=
  { Code := 0, Msg := "success",
    Data := [{ AliveSecond := 100, App := "test1", BytesSpeed := 100, CreateStamp := 0,
               OriginType := 100, OriginTypeStr := "test1", OriginUrl := "test1",
               ReaderCount := 100, Schema := "test1", Stream := "test1",
               TotalReaderCount := 100, Vhost := "test1" },
             { AliveSecond := 200, App := "test2", BytesSpeed := 200, CreateStamp := 0,
               OriginType := 200, OriginTypeStr := "test2", OriginUrl := "test2",
               ReaderCount := 200, Schema := "test2", Stream := "test2",
               TotalReaderCount := 200, Vhost := "test2" }] }

/-- The JSON object that `json.Marshal` writes for a record of `TestExtractStreamInfo`. -/
def testStreamJson (name : String) (n : Int) : Json :=
  .obj [("aliveSecond", .num (JNumber.ofInt n)), ("app", .str name),
        ("bytesSpeed", .num (JNumber.ofInt n)), ("createStamp", .num (JNumber.ofInt 0)),
        ("originType", .num (JNumber.ofInt n)), ("originTypeStr", .str name),
        ("originUrl", .str name), ("readerCount", .num (JNumber.ofInt n)),
        ("schema", .str name), ("stream", .str name),
        ("totalReaderCount", .num (JNumber.ofInt n)), ("vhost", .str name)]

/-- The body the test server of `TestExtractStreamInfo` answers with. -/
def testStreamsBody : Body :=
  some (.obj [("code", .num (JNumber.ofInt 0)), ("msg", .str "success"),
    ("data", .arr [testStreamJson "test1" 100, testStreamJson "test2" 200])])

/-- The values of `strconv.ParseFloat(_, 64)` on the strings of the examples: `100` and
`123.45` parse, the latter to the `float64` nearest to 12345/100, and every other string
used there does not. -/
def exampleParseFloat (s : String) : Option Float64 :=
  if s = "100" then some 100
  else if s = "123.45" then some (Float64.round 12345 100)
  else none

/-- The envelope of `TestExtractStatistics`: every field 100. -/
def testStatisticsResponse : ZLMAPIResponse APIStatisticsObj :=
  { Code := 0, Msg := "success",
    Data := { Buffer := 100, BufferLikeString := 100, BufferList := 100,
              BufferRaw := 100, Frame := 100, FrameImp := 100,
              MediaSource := 100, MultiMediaSourceMuxer := 100, RtmpPacket := 100,
              RtpPacket := 100, Socket := 100, TcpClient := 100,
              TcpServer := 100, TcpSession := 100, UdpServer := 100,
              UdpSession := 100 } }

/-- The body the test server of `TestExtractStatistics` answers with. -/
def testStatisticsBody : Body :=
  some (.obj [("code", .num (JNumber.ofInt 0)), ("msg", .str "success"),
    ("data", .obj [
      ("Buffer", .num (JNumber.ofInt 100)), ("BufferLikeString", .num (JNumber.ofInt 100)),
      ("BufferList", .num (JNumber.ofInt 100)), ("BufferRaw", .num (JNumber.ofInt 100)),
      ("Frame", .num (JNumber.ofInt 100)), ("FrameImp", .num (JNumber.ofInt 100)),
      ("MediaSource", .num (JNumber.ofInt 100)), ("MultiMediaSourceMuxer", .num (JNumber.ofInt 100)),
      ("RtmpPacket", .num (JNumber.ofInt 100)), ("RtpPacket", .num (JNumber.ofInt 100)),
      ("Socket", .num (JNumber.ofInt 100)), ("TcpClient", .num (JNumber.ofInt 100)),
      ("TcpServer", .num (JNumber.ofInt 100)), ("TcpSession", .num (JNumber.ofInt 100)),
      ("UdpServer", .num (JNumber.ofInt 100)), ("UdpSession", .num (JNumber.ofInt 100))])])

/-- The JSON tags of the sixteen fields of `APIStatisticsObj`. -/
def APIStatisticsObj.tags : List String :=
  ["Buffer", "BufferLikeString", "BufferList", "BufferRaw", "Frame", "FrameImp", "MediaSource",
   "MultiMediaSourceMuxer", "RtmpPacket", "RtpPacket", "Socket", "TcpClient", "TcpServer",
   "TcpSession", "UdpServer", "UdpSession"]

/-- An exporter as `NewExporter "http://127.0.0.1" "secret"` builds it without SSL
verification. -/
def exampleExporter : Exporter :=
  { scrapeURI := "http://127.0.0.1", scrapeSecret := "secret", client := { Transport := none },
    totalScrapes := 0, options := { SSLVerify := false } }

/-- A network in which every URI parses and every request is answered with `body`. -/
def answering (body : Body) : Transport :=
  { urlParse := fun _ => true, Do := fun _ _ => .response body }

/-- A statistics body with status code 0 whose `Buffer` field is the JSON value `v`. -/
def statisticsBodyWith (v : Json) : Body :=
  some (.obj [("code", .num (JNumber.ofInt 0)), ("msg", .str "success"),
    ("data", .obj [("Buffer", v), ("Frame", .num (JNumber.ofInt 5))])])

/-- The closure `processFunc` of the transformer of each source. -/
def Source.processFunc (ParseFloat : String → Option Float64) :
    Source → Body → Except Panic (List Metric × Option ScrapeError)
  | .version => extractVersion.processFunc
  | .apiStatus => extractAPIStatus.processFunc
  | .networkThreads => extractNetworkThreads.processFunc
  | .workThreads => extractWorkThreads.processFunc
  | .statistics => extractStatistics.processFunc ParseFloat
  | .session => extractSession.processFunc
  | .stream => extractStream.processFunc
  | .rtp => extractRtp.processFunc

/-- A version body with status code 1 whose payload is present and well-typed. -/
def versionErrorBody : Body :=
  some (.obj [("code", .num (JNumber.ofInt 1)), ("msg", .str "error"),
    ("data", .obj [("branchName", .str "master"), ("buildTime", .str "20220101"),
      ("commitHash", .str "abc123")])])

/-- A body with status code 0 and no payload. -/
def emptyOkBody : Body :=
  some (.obj [("code", .num (JNumber.ofInt 0)), ("msg", .str "success")])

/-- A body with status code 1. -/
def errorBody : Body :=
  some (.obj [("code", .num (JNumber.ofInt 1)), ("msg", .str "error")])

/-- A network in which every URI parses, the request for `uri` is answered with `body`
and every other request with `other`. -/
def answeringAt (uri : String) (body other : Body) : Transport :=
  { urlParse := fun _ => true,
    Do := fun _ req => if req.URL = uri then .response body else .response other }

/-! ## The collector -/

/-- The package variable `metrics` once the package is initialised.  It is declared without
a value, so it starts nil; the initialisers of the 36 descriptor variables then run in the
order of their declarations, and each call of `newMetricDescr` runs
`metrics = append(metrics, newDesc)` with the descriptor it returns. -/
def metrics : List Desc :=
  [ZLMediaKitInfo, ApiStatus,
   NetworkThreadsTotal, NetworkThreadsLoadTotal, NetworkThreadsDelayTotal,
   WorkThreadsTotal, WorkThreadsLoadTotal, WorkThreadsDelayTotal,
   StatisticsBuffer, StatisticsBufferLikeString, StatisticsBufferList, StatisticsBufferRaw,
   StatisticsFrame, StatisticsFrameImp, StatisticsMediaSource, StatisticsMultiMediaSourceMuxer,
   StatisticsRtmpPacket, StatisticsRtpPacket, StatisticsSocket, StatisticsTcpClient,
   StatisticsTcpServer, StatisticsTcpSession, StatisticsUdpServer, StatisticsUdpSession,
   SessionInfo, SessionTotal,
   StreamsInfo, StreamStatus, StreamReaderCount, StreamTotalReaderCount, StreamBitrate,
   StreamaliveSecond, StreamCreateStamp, StreamTotal,
   RtpServerInfo, RtpServerTotal].foldl (fun registry newDesc => registry ++ [newDesc]) []

/-- The descriptor `e.up.Desc()` of the gauge `NewExporter` creates. -/
def upDesc : Desc :=
  { fqName := BuildFQName Namespace "" "up",
    help := "Was the last scrape of ZLMediaKit successful.", variableLabels := [] }

/-- The descriptor `e.totalScrapes.Desc()` of the counter `NewExporter` creates. -/
def totalScrapesDesc : Desc :=
  { fqName := BuildFQName Namespace "" "exporter_scrapes_total",
    help := "Current total ZLMediaKit scrapes.", variableLabels := [] }

/-- The method `Describe`: the descriptors sent to the channel, in order, and the exporter
it leaves behind. -/
def Exporter.Describe (e : Exporter) : List Desc × Exporter :=
  (metrics ++ [upDesc, totalScrapesDesc], e)

/-- What `Collect` leaves behind: the exporter, the metrics each source task sent during
the cycle, the metrics `Collect` itself sent after `scrape` returned, in order, and the
error counters. -/
structure CollectResult where
  exporter : Exporter
  cycle : Source → List Metric
  after : List Metric
  scrapeErrors : Counters

/-- The method `Collect`: one scrape cycle, then the `up` sample with the value `scrape`
returned, then the counter `totalScrapes`, which reports the number of cycles counted
so far. -/
def Exporter.Collect (ParseFloat : String → Option Float64) (e : Exporter) (net : Transport)
    (scrapeErrors : Counters) : Except Panic CollectResult := do
  let r ← scrape ParseFloat e net scrapeErrors
  let up ← MustNewConstMetric upDesc r.up []
  let totalScrapes : Sample :=
    { desc := totalScrapesDesc, value := float64 r.exporter.totalScrapes, labelValues := [] }
  pure { exporter := r.exporter, cycle := r.sent, after := [some up, some totalScrapes],
         scrapeErrors := r.scrapeErrors }

/-! ## Secret masking -/

/-- The UTF-8 encoding of a character, as bytes. -/
def utf8EncodeChar (c : Char) : List Nat :=
  let v := c.toNat
  if v < 0x80 then [v]
  else if v < 0x800 then [0xC0 + v / 0x40, 0x80 + v % 0x40]
  else if v < 0x10000 then [0xE0 + v / 0x1000, 0x80 + v / 0x40 % 0x40, 0x80 + v % 0x40]
  else [0xF0 + v / 0x40000, 0x80 + v / 0x1000 % 0x40, 0x80 + v / 0x40 % 0x40, 0x80 + v % 0x40]

/-- A Go string as the sequence of its bytes (`len` and slicing count bytes). -/
def goBytes (s : String) : List Nat :=
  s.data.flatMap utf8EncodeChar

/-- The function `maskSecret`, on the bytes of the secret. -/
def maskSecret (secret : List Nat) : List Nat :=
  if secret.length = 0 then goBytes "<empty>"
  else if secret.length ≤ 4 then goBytes "****"
  else secret.take 2 ++ goBytes "****" ++ secret.drop (secret.length - 2)

/-! ## Example networks -/

/-- A network in which every URI parses and no request is answered before the deadline. -/
def stalled : Transport :=
  { urlParse := fun _ => true, Do := fun _ _ => .pending }

/-- A network in which every URI parses, the request for `uri` is not answered before the
deadline and every other request is answered with `other`. -/
def stalledAt (uri : String) (other : Body) : Transport :=
  { urlParse := fun _ => true,
    Do := fun _ req => if req.URL = uri then .pending else .response other }

/-- A network in which no URI parses. -/
def unparsable : Transport :=
  { urlParse := fun _ => false, Do := fun _ _ => .failed }

/-- A network in which every URI parses and every request fails in transport. -/
def refusing : Transport :=
  { urlParse := fun _ => true, Do := fun _ _ => .failed }

/-- The network `net` cut down to the one request `e.request endpoint` issued through the
client of `e`: every other request fails. -/
def Transport.only (net : Transport) (e : Exporter) (endpoint : String) : Transport :=
  { urlParse := net.urlParse,
    Do := fun c r => if c = e.client ∧ r = e.request endpoint then net.Do c r else .failed }

/-- A thread-load body with status code 1 whose payload is a string. -/
def threadsErrorBadPayloadBody : Body :=
  some (.obj [("code", .num (JNumber.ofInt 1)), ("msg", .str "error"),
    ("data", .str "invalid")])

/-! ## Declared types of the payload fields -/

def Json.isNull : Json → Bool
  | .null => true
  | _ => false

def Json.isArr : Json → Bool
  | .arr _ => true
  | _ => false

def Json.isObj : Json → Bool
  | .obj _ => true
  | _ => false

/-- The Go types of the scalar fields of the payload structs. -/
inductive FieldType where
  | string
  | int
  | float64
  deriving DecidableEq

/-- Whether a JSON value has the JSON type of a field: a string for `string`, a number for
`int` and `float64`. -/
def FieldType.accepts : FieldType → Json → Bool
  | .string, .str _ => true
  | .int, .num _ => true
  | .float64, .num _ => true
  | _, _ => false

/-- A JSON value of a type other than the declared one, `null` apart. -/
def FieldType.mismatch (t : FieldType) (v : Json) : Bool :=
  !v.isNull && !t.accepts v

/-- The JSON tags and declared types of the fields of `APIVersionObj`. -/
def APIVersionObj.fieldTypes : List (String × FieldType) :=
  [("branchName", .string), ("buildTime", .string), ("commitHash", .string)]

/-- The JSON tags and declared types of the fields of `APINetworkThreadsObj`. -/
def APINetworkThreadsObj.fieldTypes : List (String × FieldType) :=
  [("load", .float64), ("delay", .float64)]

/-- The JSON tags and declared types of the fields of `APIWorkThreadsObj`. -/
def APIWorkThreadsObj.fieldTypes : List (String × FieldType) :=
  [("load", .float64), ("delay", .float64)]

/-- The JSON tags and declared types of the fields of `APIStatisticsObj`. -/
def APIStatisticsObj.fieldTypes : List (String × FieldType) :=
  [("Buffer", .float64), ("BufferLikeString", .float64), ("BufferList", .float64),
   ("BufferRaw", .float64), ("Frame", .float64), ("FrameImp", .float64),
   ("MediaSource", .float64), ("MultiMediaSourceMuxer", .float64), ("RtmpPacket", .float64),
   ("RtpPacket", .float64), ("Socket", .float64), ("TcpClient", .float64),
   ("TcpServer", .float64), ("TcpSession", .float64), ("UdpServer", .float64),
   ("UdpSession", .float64)]

/-- The JSON tags and declared types of the fields of `APISessionObj`. -/
def APISessionObj.fieldTypes : List (String × FieldType) :=
  [("id", .string), ("identifier", .string), ("local_ip", .string), ("local_port", .int),
   ("peer_ip", .string), ("peer_port", .int), ("typeid", .string)]

/-- The JSON tags and declared types of the fields of `APIStreamInfoObj`. -/
def APIStreamInfoObj.fieldTypes : List (String × FieldType) :=
  [("aliveSecond", .int), ("app", .string), ("bytesSpeed", .float64), ("createStamp", .int),
   ("originType", .int), ("originTypeStr", .string), ("originUrl", .string),
   ("readerCount", .int), ("schema", .string), ("stream", .string), ("totalReaderCount", .int),
   ("vhost", .string)]

/-- The JSON tags and declared types of the fields of `APIRtpServerObj`. -/
def APIRtpServerObj.fieldTypes : List (String × FieldType) :=
  [("port", .string), ("stream_id", .string)]

/-- A JSON value that does not fit a struct with the given fields: it is neither `null`
nor an object, or it is an object with a member that is stored into a field and whose
value has a type other than the one declared for the field. -/
def structMismatch (fields : List (String × FieldType)) (v : Json) : Prop :=
  (v.isNull = false ∧ v.isObj = false) ∨
    ∃ members key x tag t, v = .obj members ∧ (key, x) ∈ members ∧ (tag, t) ∈ fields ∧
      matchesField key tag = true ∧ t.mismatch x = true

/-- A JSON value that does not fit a slice: it is neither `null` nor an array, or it is an
array with an element that does not fit the element type. -/
def sliceMismatch (elemMismatch : Json → Prop) (v : Json) : Prop :=
  (v.isNull = false ∧ v.isArr = false) ∨
    ∃ elems x, v = .arr elems ∧ x ∈ elems ∧ elemMismatch x

/-- A payload in which some field arrives with a JSON type other than the one declared in
the payload type of the source. -/
def Source.payloadMismatch : Source → Json → Prop
  | .version => structMismatch APIVersionObj.fieldTypes
  | .apiStatus => sliceMismatch (fun x => FieldType.string.mismatch x = true)
  | .networkThreads => sliceMismatch (structMismatch APINetworkThreadsObj.fieldTypes)
  | .workThreads => sliceMismatch (structMismatch APIWorkThreadsObj.fieldTypes)
  | .statistics => structMismatch APIStatisticsObj.fieldTypes
  | .session => sliceMismatch (structMismatch APISessionObj.fieldTypes)
  | .stream => sliceMismatch (structMismatch APIStreamInfoObj.fieldTypes)
  | .rtp => sliceMismatch (structMismatch APIRtpServerObj.fieldTypes)

/-- A body with status code 0 and the payload `data`. -/
def okBodyWith (data : Json) : Body :=
  some (.obj [("code", .num (JNumber.ofInt 0)), ("msg", .str "success"), ("data", data)])

/-- The version payload of `TestExtractVersion` with the JSON value `v` as build time. -/
def versionPayloadWith (v : Json) : Json :=
  .obj [("branchName", .str "master"), ("buildTime", v), ("commitHash", .str "abc123")]

/-- The descriptor of `TestMustNewConstMetric`. -/
def testMetricDesc : Desc :=
  { fqName := "test_metric", help := "Test metric", variableLabels := ["label"] }

/-- A thread-load record `load`, `delay` as a JSON object. -/
def threadJson (load delay : Int) : Json :=
  .obj [("load", .num (JNumber.ofInt load)), ("delay", .num (JNumber.ofInt delay))]

/-- The body of the success case of `TestExtractNetworkThreads`. -/
def testThreadsBody : Body :=
  okBodyWith (.arr [threadJson 100 100, threadJson 200 200])

/-- The token of a number literal with the value `num/den` that `strconv.ParseInt` rejects
(it has a fraction or an exponent, or it is out of the `int64` range):
`strconv.ParseFloat` gives the nearest `float64`, and a range error when that is an
infinity. -/
def JNumber.ofDecimal (num : Int) (den : Nat) : JNumber :=
  { asInt := none,
    asFloat := match Float64.round num den with
      | .finite q => some (.finite q)
      | _ => none }

/-- A thread-load record with the number tokens `load` and `delay`. -/
def threadJsonOf (load delay : JNumber) : Json :=
  .obj [("load", .num load), ("delay", .num delay)]

/-- A thread-load payload with the loads `0.1` and `0.2` and the delays `0.5` and `0.25`. -/
def fractionThreadsBody : Body :=
  okBodyWith (.arr [threadJsonOf (JNumber.ofDecimal 1 10) (JNumber.ofDecimal 1 2),
    threadJsonOf (JNumber.ofDecimal 2 10) (JNumber.ofDecimal 1 4)])

/-- A thread-load payload of two records whose load is the number `2^1023`, written out in
digits, and whose delay is 0. -/
def hugeThreadsBody : Body :=
  okBodyWith (.arr [threadJsonOf (JNumber.ofDecimal ((1 <<< 1023 : Nat) : Int) 1)
      (JNumber.ofInt 0),
    threadJsonOf (JNumber.ofDecimal ((1 <<< 1023 : Nat) : Int) 1) (JNumber.ofInt 0)])


/-- The members of the body `{"msg": "success"}`: neither `code` nor `data`. -/
def noCodeMembers : List (String × Json) := [("msg", .str "success")]

/-- The members of the body `{"data": "unavailable"}`: no `code`, and a string where every
endpoint expects an object or an array. -/
def noCodeBadPayloadMembers : List (String × Json) := [("data", .str "unavailable")]

/-! ## Lemmas on `float64` rounding -/

/-- Bisection finds the threshold of a predicate that holds exactly up to `k`. -/
theorem Float64.bisect_eq (n d : Nat) (k : Int)
    (hP : ∀ x, Float64.powLe x n d = true ↔ x ≤ k) :
    ∀ (j : Nat) (e : Int), e ≤ k → k < e + ((2 ^ j : Nat) : Int) →
      Float64.bisect n d j e = k := by
  intro j
  induction j with
  | zero =>
    intro e h1 h2
    simp only [Float64.bisect]
    simp at h2
    omega
  | succ j ih =>
    intro e h1 h2
    simp only [Float64.bisect, Nat.shiftLeft_eq, one_mul]
    have h2' : k < e + ((2 ^ j : Nat) : Int) + ((2 ^ j : Nat) : Int) := by
      rw [pow_succ] at h2
      push_cast at h2 ⊢
      omega
    by_cases h : Float64.powLe (e + ((2 ^ j : Nat) : Int)) n d = true
    · rw [if_pos h]
      exact ih _ ((hP _).mp h) h2'
    · rw [if_neg h]
      have hnot : ¬ (e + ((2 ^ j : Nat) : Int) ≤ k) := fun hh => h ((hP _).mpr hh)
      exact ih _ h1 (by omega)

theorem Float64.roundHalfEven_one (N : Nat) : Float64.roundHalfEven N 1 = N := by
  simp [Float64.roundHalfEven, Nat.mod_one]

/-- The exponent at a natural number below `2^(k+1)` and not below `2^k`. -/
theorem Float64.exponent_natCast (n k : Nat) (hk : k ≤ 1025) (h1 : 2 ^ k ≤ n)
    (h2 : n < 2 ^ (k + 1)) : Float64.exponent n 1 = (k : Int) := by
  refine Float64.bisect_eq n 1 k ?_ 11 (-1022) (by omega) (by norm_num; omega)
  intro x
  simp only [Float64.powLe, Nat.shiftLeft_eq, one_mul, decide_eq_true_eq]
  rcases le_or_lt 0 x with hx | hx
  · obtain ⟨y, rfl⟩ := Int.eq_ofNat_of_zero_le hx
    have hneg : (-(y : Int)).toNat = 0 := by omega
    simp only [Int.toNat_ofNat, hneg, pow_zero, mul_one, Nat.cast_le]
    constructor
    · intro hle
      by_contra hcon
      have : 2 ^ (k + 1) ≤ 2 ^ y := Nat.pow_le_pow_right (by norm_num) (by omega)
      omega
    · intro hle
      exact le_trans (Nat.pow_le_pow_right (by norm_num) hle) h1
  · have hx0 : x.toNat = 0 := by omega
    simp only [hx0, pow_zero]
    constructor
    · intro _
      omega
    · intro _
      have hn : 1 ≤ n := le_trans (Nat.one_le_two_pow) h1
      exact le_trans hn (Nat.le_mul_of_pos_right _ (by positivity))

/-- A natural number below `2^53` is below the overflow threshold `2^E` for every
`E ≥ 53`, whatever the common scaling. -/
theorem Float64.no_overflow (n j E : Nat) (hn : n < 2 ^ 53) (hE : 53 ≤ E) :
    ¬ ((1 <<< E) <<< j ≤ n <<< j) := by
  simp only [Nat.shiftLeft_eq, one_mul]
  intro hle
  have h3 : 2 ^ E ≤ n := Nat.le_of_mul_le_mul_right hle (by positivity)
  have h2 : 2 ^ 53 ≤ 2 ^ E := Nat.pow_le_pow_right Nat.two_pos hE
  omega

/-- Rounding leaves the natural numbers up to `2^53` as they are. -/
theorem Float64.round_natCast (n : Nat) (h : n ≤ 2 ^ 53) :
    Float64.round (n : Int) 1 = .finite (n : ℚ) := by
  rcases Nat.eq_zero_or_pos n with h0 | hpos
  · subst h0
    simp [Float64.round]
  rcases Nat.lt_or_eq_of_le h with hlt53 | heq
  · obtain ⟨k, hk1, hk2⟩ : ∃ k, 2 ^ k ≤ n ∧ n < 2 ^ (k + 1) :=
      ⟨Nat.log 2 n, Nat.pow_log_le_self 2 (by omega), Nat.lt_pow_succ_log_self (by norm_num) n⟩
    have hk52 : k ≤ 52 := by
      by_contra hcon
      have : 2 ^ 53 ≤ 2 ^ k := Nat.pow_le_pow_right (by norm_num) (by omega)
      omega
    have hexp : Float64.exponent n 1 = (k : Int) :=
      Float64.exponent_natCast n k (by omega) hk1 hk2
    have hn0 : (n : Int) ≠ 0 := by omega
    have hnpos : (0 : Int) < n := by omega
    have hs1 : (-((k : Int) - 52)).toNat = 52 - k := by omega
    have hs2 : ((k : Int) - 52).toNat = 0 := by omega
    simp only [Float64.round, hn0, if_false, hexp, Int.natAbs_ofNat, hnpos, if_true, hs1, hs2,
      Nat.shiftLeft_zero, Float64.roundHalfEven_one]
    rw [if_neg (Float64.no_overflow n (52 - k) 1024 hlt53 (by omega))]
    refine congrArg Float64.finite ?_
    rw [Rat.mkRat_eq_div]
    simp only [Nat.shiftLeft_eq, one_mul]
    push_cast
    field_simp
  · have e53 : (2 : Nat) ^ 53 = 9007199254740992 := by norm_num
    rw [e53] at heq
    subst heq
    decide

/-- The conversion of a natural number up to `2^53` is exact. -/
theorem float64_natCast (n : Nat) (h : n ≤ 2 ^ 53) : float64 (n : Int) = .finite (n : ℚ) :=
  Float64.round_natCast n h

/-! ## Lemmas on the streams loop -/

theorem samplesOf_append (d : Desc) (a b : List Metric) :
    samplesOf d (a ++ b) = samplesOf d a ++ samplesOf d b := by
  simp [samplesOf, List.filterMap_append]

/-- Reading a descriptor off a sequence that starts with a sample. -/
theorem samplesOf_cons_some (d : Desc) (x : Sample) (a : List Metric) :
    samplesOf d (some x :: a) = if x.desc = d then x :: samplesOf d a else samplesOf d a := by
  by_cases h : x.desc = d <;> simp [samplesOf, h]

/-- Nothing is read off the empty sequence. -/
theorem samplesOf_nil (d : Desc) : samplesOf d [] = [] := rfl

/-- One turn of the streams loop: the metrics the record adds in front of those of the
remaining records. -/
theorem loop_cons (stream : APIStreamInfoObj) (rest : List APIStreamInfoObj) (keys : List String)
    (later : List Metric) (keysEnd : List String)
    (h : extractStream.loop rest
      (if streamKey stream ∈ keys then keys else keys ++ [streamKey stream]) = .ok (later, keysEnd)) :
    extractStream.loop (stream :: rest) keys = .ok
      ((if streamKey stream ∈ keys then [] else
            [some { desc := StreamTotalReaderCount, value := float64 stream.TotalReaderCount,
                    labelValues := [stream.App, stream.Stream, stream.Vhost] }]) ++
          [some { desc := StreamsInfo, value := 1,
                  labelValues := [stream.Vhost, stream.App, stream.Stream, stream.Schema,
                    stream.OriginTypeStr, stream.OriginUrl] },
           some { desc := StreamStatus, value := if stream.BytesSpeed > 0 then 1 else 0,
                  labelValues := [stream.Vhost, stream.App, stream.Stream, stream.Schema] },
           some { desc := StreamReaderCount, value := float64 stream.ReaderCount,
                  labelValues := [stream.Vhost, stream.App, stream.Stream, stream.Schema] },
           some { desc := StreamBitrate, value := stream.BytesSpeed,
                  labelValues := [stream.Vhost, stream.App, stream.Stream, stream.Schema] },
           some { desc := StreamaliveSecond, value := float64 stream.AliveSecond,
                  labelValues := [stream.Vhost, stream.App, stream.Stream, stream.Schema] },
           some { desc := StreamCreateStamp, value := float64 stream.CreateStamp,
                  labelValues := [stream.Vhost, stream.App, stream.Stream, stream.Schema] }]
          ++ later, keysEnd) := by
  rw [extractStream.loop]
  by_cases hk : streamKey stream ∈ keys
  · simp only [hk, if_true] at h
    simp [hk, h, MustNewConstMetric, StreamsInfo, StreamStatus, StreamReaderCount, StreamBitrate,
      StreamaliveSecond, StreamCreateStamp, newMetricDescr, bind, Except.bind, pure, Except.pure]
  · simp only [hk, if_false] at h
    simp [hk, h, MustNewConstMetric, StreamsInfo, StreamStatus, StreamReaderCount, StreamBitrate,
      StreamaliveSecond, StreamCreateStamp, StreamTotalReaderCount, newMetricDescr, bind,
      Except.bind, pure, Except.pure]

/-- The eight descriptors of the streams transformer are pairwise different. -/
theorem stream_descs_pairwise :
    [StreamTotalReaderCount, StreamsInfo, StreamStatus, StreamReaderCount, StreamBitrate,
      StreamaliveSecond, StreamCreateStamp, StreamTotal].Pairwise (fun a b => a ≠ b) := by
  decide

/-- The streams loop always completes; its key set stays duplicate-free and collects the
keys of the records, and the metrics it sends are counted by the records and the new
keys. -/
theorem loop_spec (data : List APIStreamInfoObj) :
    ∀ keys : List String, keys.Nodup →
      ∃ out keysEnd, extractStream.loop data keys = .ok (out, keysEnd) ∧ keysEnd.Nodup ∧
        (∀ k, k ∈ keysEnd ↔ k ∈ keys ∨ k ∈ data.map streamKey) ∧
        out.length + keys.length = 6 * data.length + keysEnd.length ∧
        (samplesOf StreamTotalReaderCount out).length + keys.length = keysEnd.length ∧
        samplesOf StreamTotal out = [] ∧ (∀ m ∈ out, m ≠ none) := by
  induction data with
  | nil =>
    intro keys hk
    exact ⟨[], keys, rfl, hk, by simp, by simp, by simp [samplesOf], rfl, by simp⟩
  | cons stream rest ih =>
    intro keys hk
    have hk1 : (if streamKey stream ∈ keys then keys else keys ++ [streamKey stream]).Nodup := by
      by_cases hm : streamKey stream ∈ keys
      · simpa [hm] using hk
      · simp only [hm, if_false]
        exact List.Nodup.append hk (List.nodup_singleton _) (by simpa using hm)
    obtain ⟨later, keysEnd, hrun, hnd, hmem, hlen, htrc, htot, hnn⟩ := ih _ hk1
    refine ⟨_, keysEnd, loop_cons stream rest keys later keysEnd hrun, hnd, ?_, ?_, ?_, ?_, ?_⟩
    · intro k
      rw [hmem k]
      by_cases hm : streamKey stream ∈ keys
      · simp only [hm, if_true, List.map_cons, List.mem_cons]
        constructor
        · rintro (h | h)
          · exact Or.inl h
          · exact Or.inr (Or.inr h)
        · rintro (h | h | h)
          · exact Or.inl h
          · exact Or.inl (h ▸ hm)
          · exact Or.inr h
      · simp only [hm, if_false, List.map_cons, List.mem_cons, List.mem_append,
          List.mem_singleton]
        tauto
    · by_cases hm : streamKey stream ∈ keys
      · simp only [hm, if_true] at hlen ⊢
        simp only [List.length_append, List.length_cons, List.length_nil] at hlen ⊢
        omega
      · simp only [hm, if_false] at hlen ⊢
        simp only [List.length_append, List.length_cons, List.length_nil] at hlen ⊢
        omega
    · have hp := stream_descs_pairwise
      simp only [List.pairwise_cons, List.mem_cons, forall_eq_or_imp] at hp
      by_cases hm : streamKey stream ∈ keys
      · simp only [hm, if_true] at htrc ⊢
        simp [samplesOf_append, samplesOf_cons_some, samplesOf_nil, hp, Ne.symm, htrc]
      · simp only [hm, if_false] at htrc ⊢
        simp only [List.length_append, List.length_cons, List.length_nil] at htrc
        simp [samplesOf_append, samplesOf_cons_some, samplesOf_nil, hp, Ne.symm]
        omega
    · have hp := stream_descs_pairwise
      simp only [List.pairwise_cons, List.mem_cons, forall_eq_or_imp] at hp
      by_cases hm : streamKey stream ∈ keys
      · simp [hm, samplesOf_append, samplesOf_cons_some, samplesOf_nil, hp, htot]
      · simp [hm, samplesOf_append, samplesOf_cons_some, samplesOf_nil, hp, htot]
    · intro m hmem
      by_cases hm : streamKey stream ∈ keys
      · simp only [hm, if_true, List.nil_append, List.mem_append, List.mem_cons,
          List.mem_nil_iff, or_false] at hmem
        rcases hmem with (h | h | h | h | h | h) | h
        all_goals first | exact hnn m h | (rw [h]; exact Option.some_ne_none _)
      · simp only [hm, if_false, List.mem_append, List.mem_cons, List.mem_nil_iff,
          or_false] at hmem
        rcases hmem with (h | h | h | h | h | h | h) | h
        all_goals first | exact hnn m h | (rw [h]; exact Option.some_ne_none _)

/-- The per-record samples of the streams loop: for each of the six per-record
descriptors, the samples that reference it are one per record, in record order. -/
theorem loop_samples (data : List APIStreamInfoObj) :
    ∀ keys : List String,
      ∃ out keysEnd, extractStream.loop data keys = .ok (out, keysEnd) ∧
        samplesOf StreamsInfo out = data.map (fun r =>
          { desc := StreamsInfo, value := 1,
            labelValues := [r.Vhost, r.App, r.Stream, r.Schema, r.OriginTypeStr, r.OriginUrl] }) ∧
        samplesOf StreamStatus out = data.map (fun r =>
          { desc := StreamStatus, value := if r.BytesSpeed > 0 then 1 else 0,
            labelValues := [r.Vhost, r.App, r.Stream, r.Schema] }) ∧
        samplesOf StreamReaderCount out = data.map (fun r =>
          { desc := StreamReaderCount, value := float64 r.ReaderCount,
            labelValues := [r.Vhost, r.App, r.Stream, r.Schema] }) ∧
        samplesOf StreamBitrate out = data.map (fun r =>
          { desc := StreamBitrate, value := r.BytesSpeed,
            labelValues := [r.Vhost, r.App, r.Stream, r.Schema] }) ∧
        samplesOf StreamaliveSecond out = data.map (fun r =>
          { desc := StreamaliveSecond, value := float64 r.AliveSecond,
            labelValues := [r.Vhost, r.App, r.Stream, r.Schema] }) ∧
        samplesOf StreamCreateStamp out = data.map (fun r =>
          { desc := StreamCreateStamp, value := float64 r.CreateStamp,
            labelValues := [r.Vhost, r.App, r.Stream, r.Schema] }) := by
  induction data with
  | nil =>
    intro keys
    exact ⟨[], keys, rfl, rfl, rfl, rfl, rfl, rfl, rfl⟩
  | cons stream rest ih =>
    intro keys
    obtain ⟨later, keysEnd, hrun, h1, h2, h3, h4, h5, h6⟩ :=
      ih (if streamKey stream ∈ keys then keys else keys ++ [streamKey stream])
    have hp := stream_descs_pairwise
    simp only [List.pairwise_cons, List.mem_cons, forall_eq_or_imp] at hp
    refine ⟨_, keysEnd, loop_cons stream rest keys later keysEnd hrun, ?_, ?_, ?_, ?_, ?_, ?_⟩
    all_goals
      by_cases hm : streamKey stream ∈ keys
      · simp [hm, samplesOf_append, samplesOf_cons_some, samplesOf_nil, hp, Ne.symm,
          h1, h2, h3, h4, h5, h6]
      · simp [hm, samplesOf_append, samplesOf_cons_some, samplesOf_nil, hp, Ne.symm,
          h1, h2, h3, h4, h5, h6]

/-! ## The streams transformer -/

/-- What `extractStream.publish` sends: it always completes, and the loop invariants hold
for the whole payload. -/
theorem publish_spec (data : APIStreamInfoObjs) :
    ∃ out keysEnd, extractStream.loop data [] = .ok (out, keysEnd) ∧
      extractStream.publish data =
        .ok (out ++ [some { desc := StreamTotal, value := float64 keysEnd.length,
                            labelValues := [] }]) ∧
      keysEnd.length = ((data.map streamKey).dedup).length ∧
      out.length = 6 * data.length + keysEnd.length ∧
      (samplesOf StreamTotalReaderCount out).length = keysEnd.length ∧
      samplesOf StreamTotal out = [] ∧ (∀ m ∈ out, m ≠ none) := by
  obtain ⟨out, keysEnd, hrun, hnd, hmem, hlen, htrc, htot, hnn⟩ :=
    loop_spec data [] List.nodup_nil
  refine ⟨out, keysEnd, hrun, ?_, ?_, by simpa using hlen, by simpa using htrc, htot, hnn⟩
  · simp [extractStream.publish, hrun, MustNewConstMetric, StreamTotal, newMetricDescr, bind,
      Except.bind, pure, Except.pure]
  · rw [← List.toFinset_card_of_nodup hnd, ← List.card_toFinset]
    congr 1
    ext k
    simp [hmem k]

/-- On a decoded envelope `processFunc` of `extractStream` sends what `publish` sends and
returns no error. -/
theorem extractStream_processFunc_ok (body : Body) (resp : ZLMAPIResponse APIStreamInfoObjs)
    (sent : List Metric)
    (h : processAPIResponse ZlmAPIEndpointGetMediaList body [] decodeAPIStreamInfoObjs = .ok resp)
    (hp : extractStream.publish resp.Data = .ok sent) :
    extractStream.processFunc body = .ok (sent, none) := by
  simp [extractStream.processFunc, h, hp, bind, Except.bind, pure, Except.pure]

/-- C3, evaluated on the code: for the two records of `collidingStreams`, which carry two
different (vhost, app, stream) triples, the final stream-total sample has value 1. -/
theorem extractStream_total_collision :
    distinctTriples collidingStreams = 2 ∧
    (extractStream.publish collidingStreams).toOption.map (samplesOf StreamTotal) =
      some [{ desc := StreamTotal, value := 1, labelValues := [] }] := by
  decide

/-- C4, evaluated on the code: for the two records of `collidingStreams`, which carry two
different triples, one total-reader-count sample is sent, with the value 7 of the first
record; the second record, the first to carry its triple, sends none. -/
theorem extractStream_totalReaderCount_collision :
    (collidingStreams.map (fun r => (r.Vhost, r.App, r.Stream))).Nodup ∧
    (extractStream.publish collidingStreams).toOption.map
      (fun sent => (samplesOf StreamTotalReaderCount sent).map (fun s => s.value)) =
      some [7] := by
  decide

/-- C6, evaluated on the code: for the record with vhost `__defaultVhost__`, app `live` and
stream `cam1`, the label values of the total-reader-count sample paired with the label
names of its descriptor give vhost = `live`, app = `cam1`, stream = `__defaultVhost__`. -/
theorem extractStream_totalReaderCount_labels :
    (extractStream.publish [streamRecord "__defaultVhost__" "live" "cam1" "rtmp" 3]).toOption.map
      (fun sent => (samplesOf StreamTotalReaderCount sent).map
        (fun s => s.desc.variableLabels.zip s.labelValues)) =
      some [[("vhost", "live"), ("app", "cam1"), ("stream", "__defaultVhost__")]] := by
  decide

/-- C5: for every body that decodes to a streams envelope with status code 0,
`extractStream` sends `6 * n + d + 1` metrics, none nil, where `n` is the number of records
and `d` the number of distinct de-duplication keys: `d` total-reader-count samples, one
stream-total sample, and for each of the six per-record descriptors exactly one sample per
record, in record order, labelled with the vhost, app, stream and schema of the record. -/
theorem extractStream_sample_census (body : Body) (resp : ZLMAPIResponse APIStreamInfoObjs)
    (h : processAPIResponse ZlmAPIEndpointGetMediaList body [] decodeAPIStreamInfoObjs = .ok resp) :
    ∃ sent, extractStream.processFunc body = .ok (sent, none) ∧
      sent.length = 6 * resp.Data.length + ((resp.Data.map streamKey).dedup).length + 1 ∧
      (samplesOf StreamTotalReaderCount sent).length = ((resp.Data.map streamKey).dedup).length ∧
      (samplesOf StreamTotal sent).length = 1 ∧
      (∀ m ∈ sent, m ≠ none) ∧
      samplesOf StreamsInfo sent = resp.Data.map (fun r =>
        { desc := StreamsInfo, value := 1,
          labelValues := [r.Vhost, r.App, r.Stream, r.Schema, r.OriginTypeStr, r.OriginUrl] }) ∧
      samplesOf StreamStatus sent = resp.Data.map (fun r =>
        { desc := StreamStatus, value := if r.BytesSpeed > 0 then 1 else 0,
          labelValues := [r.Vhost, r.App, r.Stream, r.Schema] }) ∧
      samplesOf StreamReaderCount sent = resp.Data.map (fun r =>
        { desc := StreamReaderCount, value := float64 r.ReaderCount,
          labelValues := [r.Vhost, r.App, r.Stream, r.Schema] }) ∧
      samplesOf StreamBitrate sent = resp.Data.map (fun r =>
        { desc := StreamBitrate, value := r.BytesSpeed,
          labelValues := [r.Vhost, r.App, r.Stream, r.Schema] }) ∧
      samplesOf StreamaliveSecond sent = resp.Data.map (fun r =>
        { desc := StreamaliveSecond, value := float64 r.AliveSecond,
          labelValues := [r.Vhost, r.App, r.Stream, r.Schema] }) ∧
      samplesOf StreamCreateStamp sent = resp.Data.map (fun r =>
        { desc := StreamCreateStamp, value := float64 r.CreateStamp,
          labelValues := [r.Vhost, r.App, r.Stream, r.Schema] }) := by
  obtain ⟨out, keysEnd, hrun, hpub, hkeys, hlen, htrc, htot, hnn⟩ := publish_spec resp.Data
  obtain ⟨out2, keysEnd2, hrun2, h1, h2, h3, h4, h5, h6⟩ := loop_samples resp.Data []
  rw [hrun] at hrun2
  obtain ⟨rfl, rfl⟩ : out = out2 ∧ keysEnd = keysEnd2 := by
    simpa using hrun2
  have hp := stream_descs_pairwise
  simp only [List.pairwise_cons, List.mem_cons, forall_eq_or_imp] at hp
  refine ⟨_, extractStream_processFunc_ok body resp _ h hpub, ?_, ?_, ?_, ?_, ?_, ?_, ?_, ?_, ?_, ?_⟩
  · simp only [List.length_append, List.length_cons, List.length_nil, hlen, hkeys]
  · simp [samplesOf_append, samplesOf_cons_some, samplesOf_nil, hp, Ne.symm, htrc, hkeys]
  · simp [samplesOf_append, samplesOf_cons_some, samplesOf_nil, htot]
  · intro m hm
    rcases List.mem_append.mp hm with hm | hm
    · exact hnn m hm
    · rw [List.mem_singleton.mp hm]
      exact Option.some_ne_none _
  all_goals
    simp [samplesOf_append, samplesOf_cons_some, samplesOf_nil, hp, Ne.symm,
      h1, h2, h3, h4, h5, h6]

/-- C5, at the payload of `TestExtractStreamInfo`: two records with different triples give
15 metrics. -/
theorem extractStream_sample_census_witness :
    processAPIResponse ZlmAPIEndpointGetMediaList testStreamsBody [] decodeAPIStreamInfoObjs
        = .ok testStreamsResponse ∧
    ∃ sent, extractStream.processFunc testStreamsBody = .ok (sent, none) ∧
      sent.length = 15 :=
  ⟨rfl, by
    obtain ⟨sent, hs, hlen, _⟩ :=
      extractStream_sample_census testStreamsBody testStreamsResponse rfl
    exact ⟨sent, hs, by rw [hlen]; decide⟩⟩

/-- C7: for every body that decodes to a streams envelope with status code 0, the status
samples are one per record with value 1 when the `bytesSpeed` of the record is strictly
positive and 0 otherwise, and the bitrate samples are one per record and carry the
`bytesSpeed` of the record unchanged; both are labelled with the record. -/
theorem extractStream_status_bitrate (body : Body) (resp : ZLMAPIResponse APIStreamInfoObjs)
    (h : processAPIResponse ZlmAPIEndpointGetMediaList body [] decodeAPIStreamInfoObjs = .ok resp) :
    ∃ sent, extractStream.processFunc body = .ok (sent, none) ∧
      samplesOf StreamStatus sent = resp.Data.map (fun r =>
        { desc := StreamStatus, value := if r.BytesSpeed > 0 then 1 else 0,
          labelValues := [r.Vhost, r.App, r.Stream, r.Schema] }) ∧
      samplesOf StreamBitrate sent = resp.Data.map (fun r =>
        { desc := StreamBitrate, value := r.BytesSpeed,
          labelValues := [r.Vhost, r.App, r.Stream, r.Schema] }) ∧
      (∀ s ∈ samplesOf StreamStatus sent, s.value = 0 ∨ s.value = 1) := by
  obtain ⟨out, keysEnd, hrun, hpub, -⟩ := publish_spec resp.Data
  obtain ⟨out2, keysEnd2, hrun2, -, h2, -, h4, -, -⟩ := loop_samples resp.Data []
  rw [hrun] at hrun2
  obtain ⟨rfl, rfl⟩ : out = out2 ∧ keysEnd = keysEnd2 := by
    simpa using hrun2
  have hp := stream_descs_pairwise
  simp only [List.pairwise_cons, List.mem_cons, forall_eq_or_imp] at hp
  have hst : samplesOf StreamStatus
      (out ++ [some { desc := StreamTotal, value := float64 keysEnd.length, labelValues := [] }])
      = resp.Data.map (fun r =>
        { desc := StreamStatus, value := if r.BytesSpeed > 0 then 1 else 0,
          labelValues := [r.Vhost, r.App, r.Stream, r.Schema] }) := by
    simp [samplesOf_append, samplesOf_cons_some, samplesOf_nil, hp, Ne.symm, h2]
  refine ⟨_, extractStream_processFunc_ok body resp _ h hpub, hst, ?_, ?_⟩
  · simp [samplesOf_append, samplesOf_cons_some, samplesOf_nil, hp, Ne.symm, h4]
  · intro s hs
    rw [hst] at hs
    obtain ⟨r, -, rfl⟩ := List.mem_map.mp hs
    by_cases hr : r.BytesSpeed > 0
    · exact Or.inr (by simp [hr])
    · exact Or.inl (by simp [hr])

/-- C7, at a body with two schema variants of one stream, with speeds 100 and 0: the
status values are 1 and 0, the bitrate values 100 and 0. -/
theorem extractStream_status_bitrate_witness :
    processAPIResponse ZlmAPIEndpointGetMediaList mediaListBody [] decodeAPIStreamInfoObjs
        = .ok mediaListResponse ∧
    ∃ sent, extractStream.processFunc mediaListBody = .ok (sent, none) ∧
      (samplesOf StreamStatus sent).map (fun s => s.value) = [1, 0] ∧
      (samplesOf StreamBitrate sent).map (fun s => s.value) = [100, 0] :=
  ⟨rfl, by
    obtain ⟨sent, hs, hst, hbr, _⟩ :=
      extractStream_status_bitrate mediaListBody mediaListResponse rfl
    exact ⟨sent, hs, by rw [hst]; decide, by rw [hbr]; decide⟩⟩


/-! ## The statistics transformer -/

/-- The sends of `extractStatistics` for a decoded record: sixteen samples, none nil, one
per field in declaration order. -/
theorem extractStatistics_publish_eq (ParseFloat : String → Option Float64)
    (data : APIStatisticsObj) :
    extractStatistics.publish ParseFloat data = .ok
      [some { desc := StatisticsBuffer, value := data.Buffer, labelValues := [] },
       some { desc := StatisticsBufferLikeString, value := data.BufferLikeString, labelValues := [] },
       some { desc := StatisticsBufferList, value := data.BufferList, labelValues := [] },
       some { desc := StatisticsBufferRaw, value := data.BufferRaw, labelValues := [] },
       some { desc := StatisticsFrame, value := data.Frame, labelValues := [] },
       some { desc := StatisticsFrameImp, value := data.FrameImp, labelValues := [] },
       some { desc := StatisticsMediaSource, value := data.MediaSource, labelValues := [] },
       some { desc := StatisticsMultiMediaSourceMuxer, value := data.MultiMediaSourceMuxer, labelValues := [] },
       some { desc := StatisticsRtmpPacket, value := data.RtmpPacket, labelValues := [] },
       some { desc := StatisticsRtpPacket, value := data.RtpPacket, labelValues := [] },
       some { desc := StatisticsSocket, value := data.Socket, labelValues := [] },
       some { desc := StatisticsTcpClient, value := data.TcpClient, labelValues := [] },
       some { desc := StatisticsTcpServer, value := data.TcpServer, labelValues := [] },
       some { desc := StatisticsTcpSession, value := data.TcpSession, labelValues := [] },
       some { desc := StatisticsUdpServer, value := data.UdpServer, labelValues := [] },
       some { desc := StatisticsUdpSession, value := data.UdpSession, labelValues := [] }] := by
  simp [extractStatistics.publish, mustNewConstMetric, MustNewConstMetric, newMetricDescr,
    StatisticsBuffer, StatisticsBufferLikeString, StatisticsBufferList, StatisticsBufferRaw,
    StatisticsFrame, StatisticsFrameImp, StatisticsMediaSource, StatisticsMultiMediaSourceMuxer,
    StatisticsRtmpPacket, StatisticsRtpPacket, StatisticsSocket, StatisticsTcpClient,
    StatisticsTcpServer, StatisticsTcpSession, StatisticsUdpServer, StatisticsUdpSession, bind,
    Except.bind, pure, Except.pure]

/-- C10: for every body that decodes to a statistics envelope with status code 0,
`extractStatistics` sends exactly sixteen metrics, none nil: one unlabeled sample per field
of the record, Buffer through UdpSession in declaration order, each referencing the
descriptor of its field and carrying the value of its field; it returns no error. -/
theorem extractStatistics_sixteen (ParseFloat : String → Option Float64) (body : Body)
    (resp : ZLMAPIResponse APIStatisticsObj)
    (h : processAPIResponse ZlmAPIEndpointGetStatistics body APIStatisticsObj.zero
      decodeAPIStatisticsObj = .ok resp) :
    extractStatistics.processFunc ParseFloat body = .ok
      ([some { desc := StatisticsBuffer, value := resp.Data.Buffer, labelValues := [] },
       some { desc := StatisticsBufferLikeString, value := resp.Data.BufferLikeString, labelValues := [] },
       some { desc := StatisticsBufferList, value := resp.Data.BufferList, labelValues := [] },
       some { desc := StatisticsBufferRaw, value := resp.Data.BufferRaw, labelValues := [] },
       some { desc := StatisticsFrame, value := resp.Data.Frame, labelValues := [] },
       some { desc := StatisticsFrameImp, value := resp.Data.FrameImp, labelValues := [] },
       some { desc := StatisticsMediaSource, value := resp.Data.MediaSource, labelValues := [] },
       some { desc := StatisticsMultiMediaSourceMuxer, value := resp.Data.MultiMediaSourceMuxer, labelValues := [] },
       some { desc := StatisticsRtmpPacket, value := resp.Data.RtmpPacket, labelValues := [] },
       some { desc := StatisticsRtpPacket, value := resp.Data.RtpPacket, labelValues := [] },
       some { desc := StatisticsSocket, value := resp.Data.Socket, labelValues := [] },
       some { desc := StatisticsTcpClient, value := resp.Data.TcpClient, labelValues := [] },
       some { desc := StatisticsTcpServer, value := resp.Data.TcpServer, labelValues := [] },
       some { desc := StatisticsTcpSession, value := resp.Data.TcpSession, labelValues := [] },
       some { desc := StatisticsUdpServer, value := resp.Data.UdpServer, labelValues := [] },
       some { desc := StatisticsUdpSession, value := resp.Data.UdpSession, labelValues := [] }], none) := by
  simp [extractStatistics.processFunc, h, extractStatistics_publish_eq, bind, Except.bind, pure,
    Except.pure]

/-- C10, at the body of `TestExtractStatistics` (every field 100): sixteen metrics are
sent. -/
theorem extractStatistics_sixteen_witness :
    processAPIResponse ZlmAPIEndpointGetStatistics testStatisticsBody APIStatisticsObj.zero
        decodeAPIStatisticsObj = .ok testStatisticsResponse ∧
    (extractStatistics.processFunc exampleParseFloat testStatisticsBody).toOption.map
        (fun p => (p.1.length, p.1.all (fun m => m.isSome), p.2)) = some (16, true, none) :=
  ⟨rfl, by
    rw [extractStatistics_sixteen exampleParseFloat testStatisticsBody testStatisticsResponse rfl]
    rfl⟩


/-! ## The HTTP fetch -/

/-- A response whose body `processFunc` handles: the task returns, has sent what
`processFunc` sent, and counts an error exactly when `processFunc` returned one. -/
theorem fetchHTTP_response (e : Exporter) (net : Transport) (errs : Counters) (ep : String)
    (processFunc : Body → Except Panic (List Metric × Option ScrapeError)) (body : Body)
    (sent : List Metric) (err : Option ScrapeError)
    (hparse : net.urlParse (e.scrapeURI ++ "/" ++ ep) = true)
    (hdo : net.Do e.client (e.request ep) = .response body)
    (hp : processFunc body = .ok (sent, err)) :
    fetchHTTP e net errs ep processFunc = .ok
      { returned := true, sent := sent,
        scrapeErrors := if err.isSome then errs.inc ep else errs } := by
  unfold Exporter.request at hdo
  cases err <;>
    simp [fetchHTTP, hparse, hdo, hp, bind, Except.bind, pure, Except.pure]

/-- A fold in `Option` over a list holding a member on which every step fails, fails. -/
theorem foldlM_none_of_mem {α β : Type} (f : β → α → Option β) (x : α)
    (hf : ∀ b, f b x = none) :
    ∀ (l : List α), x ∈ l → ∀ init, l.foldlM f init = none := by
  intro l
  induction l with
  | nil => intro hx; cases hx
  | cons a l ih =>
    intro hx init
    rw [List.foldlM_cons]
    rcases List.mem_cons.mp hx with rfl | hx
    · simp [hf]
    · cases hfa : f init a with
      | none => rfl
      | some b => simpa using ih hx b

/-- A member name that matches `data` matches neither `code` nor `msg`. -/
theorem matchesField_data (key : String) (h : matchesField key "data" = true) :
    matchesField key "code" = false ∧ matchesField key "msg" = false := by
  simp only [matchesField, beq_iff_eq] at h
  simp only [matchesField, h]
  decide

/-- The envelope does not decode when the payload of a member named `data` does not. -/
theorem Decode_none_of_data {T : Type} (zero : T) (decodeData : T → Json → Option T)
    (members : List (String × Json)) (dataKey : String) (v : Json)
    (hmem : (dataKey, v) ∈ members) (hkey : matchesField dataKey "data" = true)
    (hv : ∀ cur, decodeData cur v = none) :
    Decode zero decodeData (some (.obj members)) = none := by
  obtain ⟨h1, h2⟩ := matchesField_data dataKey hkey
  simp only [Decode, Option.bind_some, decodeStruct]
  have hstep : ∀ b : ZLMAPIResponse T,
      (fun acc (kv : String × Json) => ZLMAPIResponse.store decodeData acc kv.1 kv.2)
        b (dataKey, v) = none := by
    intro b
    simp [ZLMAPIResponse.store, h1, h2, hkey, hv]
  exact foldlM_none_of_mem
    (fun acc (kv : String × Json) => ZLMAPIResponse.store decodeData acc kv.1 kv.2)
    (dataKey, v) hstep members hmem _

/-- One link of a store chain whose decoder fails. -/
theorem ite_map_none {α β : Type} (c : Prop) [Decidable c] (d : Option β) (g : β → α)
    (rest : Option α) (hd : d = none) :
    (if c then d.map g else rest) = none ↔ (c ∨ rest = none) := by
  subst hd
  by_cases hc : c <;> simp [hc]

/-- A statistics field does not take a JSON value that is neither a number nor `null`. -/
theorem APIStatisticsObj.store_none (cur : APIStatisticsObj) (key : String) (v : Json)
    (hkey : APIStatisticsObj.tags.any (matchesField key) = true)
    (hnum : ∀ n, v ≠ .num n) (hnull : v ≠ .null) :
    APIStatisticsObj.store cur key v = none := by
  have hdec : ∀ c, decodeFloat64 c v = none := by
    intro c
    cases v with
    | null => exact absurd rfl hnull
    | num n => exact absurd rfl (hnum n)
    | bool b => rfl
    | str s => rfl
    | arr elems => rfl
    | obj members => rfl
  simp only [APIStatisticsObj.tags, List.any_cons, List.any_nil, Bool.or_false,
    Bool.or_eq_true] at hkey
  unfold APIStatisticsObj.store
  simp only [ite_map_none _ _ _ _ (hdec _)]
  rcases hkey with h | h | h | h | h | h | h | h | h | h | h | h | h | h | h | h <;>
    simp only [h, true_or, or_true]

/-- A statistics body in which a counter field of the payload object holds a JSON value
that is neither a number nor `null` does not decode: the task sends nothing and counts one
error for its endpoint. -/
theorem extractStatistics_bad_field (ParseFloat : String → Option Float64) (e : Exporter)
    (net : Transport) (errs : Counters) (members fields : List (String × Json))
    (dataKey key : String) (v : Json)
    (hparse : net.urlParse (e.scrapeURI ++ "/" ++ ZlmAPIEndpointGetStatistics) = true)
    (hdo : net.Do e.client (e.request ZlmAPIEndpointGetStatistics)
      = .response (some (.obj members)))
    (hdata : (dataKey, Json.obj fields) ∈ members) (hdk : matchesField dataKey "data" = true)
    (hfield : (key, v) ∈ fields)
    (hkey : APIStatisticsObj.tags.any (matchesField key) = true)
    (hnum : ∀ n, v ≠ .num n) (hnull : v ≠ .null) :
    extractStatistics ParseFloat e net errs = .ok
      { returned := true, sent := [],
        scrapeErrors := errs.inc ZlmAPIEndpointGetStatistics } := by
  have hdec : Decode APIStatisticsObj.zero decodeAPIStatisticsObj (some (.obj members)) = none := by
    refine Decode_none_of_data _ _ members dataKey (.obj fields) hdata hdk ?_
    intro cur
    simp only [decodeAPIStatisticsObj, decodeStruct]
    exact foldlM_none_of_mem
      (fun acc (kv : String × Json) => APIStatisticsObj.store acc kv.1 kv.2) (key, v)
      (fun b => APIStatisticsObj.store_none b key v hkey hnum hnull) fields hfield cur
  have hp : extractStatistics.processFunc ParseFloat (some (.obj members))
      = .ok ([], some (.decoding ZlmAPIEndpointGetStatistics)) := by
    simp [extractStatistics.processFunc, processAPIResponse, hdec, pure, Except.pure]
  rw [extractStatistics, fetchHTTP_response e net errs _ _ _ _ _ hparse hdo hp]
  rfl


/-- C8, as stated, fails on the code: for the statistics body with status code 0 and
`"Buffer": "100"` the task sends no metric at all and counts one scrape error, also when
`ParseFloat` parses `100`. -/
theorem extractStatistics_numeric_string_counterexample :
    (extractStatistics exampleParseFloat exampleExporter
        (answering (statisticsBodyWith (.str "100"))) (fun _ => 0)).toOption.map
      (fun t => (t.returned, t.sent, t.scrapeErrors ZlmAPIEndpointGetStatistics))
      = some (true, [], 1) := by
  decide

/-- C8, amended: for every statistics response in which a counter field is supplied as a
JSON string, decoding into the `float64` field fails: `extractStatistics` sends no metric
and the error counter of the statistics endpoint increases by exactly 1. -/
theorem extractStatistics_string_field (ParseFloat : String → Option Float64) (e : Exporter)
    (net : Transport) (errs : Counters) (members fields : List (String × Json))
    (dataKey key s : String)
    (hparse : net.urlParse (e.scrapeURI ++ "/" ++ ZlmAPIEndpointGetStatistics) = true)
    (hdo : net.Do e.client (e.request ZlmAPIEndpointGetStatistics)
      = .response (some (.obj members)))
    (hdata : (dataKey, Json.obj fields) ∈ members) (hdk : matchesField dataKey "data" = true)
    (hfield : (key, Json.str s) ∈ fields)
    (hkey : APIStatisticsObj.tags.any (matchesField key) = true) :
    ∃ t, extractStatistics ParseFloat e net errs = .ok t ∧ t.returned = true ∧ t.sent = [] ∧
      t.scrapeErrors ZlmAPIEndpointGetStatistics = errs ZlmAPIEndpointGetStatistics + 1 := by
  refine ⟨_, extractStatistics_bad_field ParseFloat e net errs members fields dataKey key
    (.str s) hparse hdo hdata hdk hfield hkey (fun n h => by cases h) (fun h => by cases h),
    rfl, rfl, ?_⟩
  simp [Counters.inc]

/-- C8, amended, at the body with `"Buffer": "100"`. -/
theorem extractStatistics_string_field_witness :
    ∃ t, extractStatistics exampleParseFloat exampleExporter
        (answering (statisticsBodyWith (.str "100"))) (fun _ => 0) = .ok t ∧
      t.returned = true ∧ t.sent = [] ∧ t.scrapeErrors ZlmAPIEndpointGetStatistics = 0 + 1 :=
  extractStatistics_string_field exampleParseFloat exampleExporter
    (answering (statisticsBodyWith (.str "100"))) (fun _ => 0)
    [("code", .num (JNumber.ofInt 0)), ("msg", .str "success"),
      ("data", .obj [("Buffer", .str "100"), ("Frame", .num (JNumber.ofInt 5))])]
    [("Buffer", .str "100"), ("Frame", .num (JNumber.ofInt 5))] "data" "Buffer" "100"
    rfl rfl (List.Mem.tail _ (List.Mem.tail _ (List.Mem.head _))) (by decide)
    (List.Mem.head _) (by decide)

/-- C9, as stated, fails on the code: for the statistics body with status code 0 and
`"Buffer": "abc"` no sample of value 1 is sent for the field; the task sends no metric at
all, so the samples of the well-formed fields are dropped too, and counts one scrape
error. -/
theorem extractStatistics_non_numeric_counterexample :
    (extractStatistics exampleParseFloat exampleExporter
        (answering (statisticsBodyWith (.str "abc"))) (fun _ => 0)).toOption.map
      (fun t => (t.sent.length, t.scrapeErrors ZlmAPIEndpointGetStatistics))
      = some (0, 1) := by
  decide

/-- C9, amended: for every statistics response in which a counter field is supplied as a
value that is neither a number nor `null` (a string, a boolean, an array or an object),
decoding fails: `extractStatistics` sends no metric for any field and the error counter
of the statistics endpoint increases by exactly 1. -/
theorem extractStatistics_non_numeric_field (ParseFloat : String → Option Float64)
    (e : Exporter) (net : Transport) (errs : Counters) (members fields : List (String × Json))
    (dataKey key : String) (v : Json)
    (hparse : net.urlParse (e.scrapeURI ++ "/" ++ ZlmAPIEndpointGetStatistics) = true)
    (hdo : net.Do e.client (e.request ZlmAPIEndpointGetStatistics)
      = .response (some (.obj members)))
    (hdata : (dataKey, Json.obj fields) ∈ members) (hdk : matchesField dataKey "data" = true)
    (hfield : (key, v) ∈ fields)
    (hkey : APIStatisticsObj.tags.any (matchesField key) = true)
    (hnum : ∀ n, v ≠ .num n) (hnull : v ≠ .null) :
    ∃ t, extractStatistics ParseFloat e net errs = .ok t ∧ t.returned = true ∧ t.sent = [] ∧
      t.scrapeErrors ZlmAPIEndpointGetStatistics = errs ZlmAPIEndpointGetStatistics + 1 ∧
      ∀ l, l ≠ ZlmAPIEndpointGetStatistics → t.scrapeErrors l = errs l := by
  refine ⟨_, extractStatistics_bad_field ParseFloat e net errs members fields dataKey key
    v hparse hdo hdata hdk hfield hkey hnum hnull, rfl, rfl, ?_, ?_⟩
  · simp [Counters.inc]
  · intro l hl
    simp [Counters.inc, hl]

/-- C9, amended, at the body with `"Buffer": "abc"`. -/
theorem extractStatistics_non_numeric_field_witness :
    ∃ t, extractStatistics exampleParseFloat exampleExporter
        (answering (statisticsBodyWith (.str "abc"))) (fun _ => 0) = .ok t ∧
      t.returned = true ∧ t.sent = [] ∧ t.scrapeErrors ZlmAPIEndpointGetStatistics = 0 + 1 ∧
      ∀ l, l ≠ ZlmAPIEndpointGetStatistics → t.scrapeErrors l = 0 :=
  extractStatistics_non_numeric_field exampleParseFloat exampleExporter
    (answering (statisticsBodyWith (.str "abc"))) (fun _ => 0)
    [("code", .num (JNumber.ofInt 0)), ("msg", .str "success"),
      ("data", .obj [("Buffer", .str "abc"), ("Frame", .num (JNumber.ofInt 5))])]
    [("Buffer", .str "abc"), ("Frame", .num (JNumber.ofInt 5))] "data" "Buffer" (.str "abc")
    rfl rfl (List.Mem.tail _ (List.Mem.tail _ (List.Mem.head _))) (by decide)
    (List.Mem.head _) (by decide) (fun n h => by cases h) (fun h => by cases h)


/-! ## The eight transformers -/

theorem Source.extract_eq (ParseFloat : String → Option Float64) (e : Exporter) (net : Transport)
    (errs : Counters) (s : Source) :
    s.extract ParseFloat e net errs
      = fetchHTTP e net errs s.endpoint (s.processFunc ParseFloat) := by
  cases s <;> rfl

/-- The api-list loop sends one status sample per entry and never panics. -/
theorem extractAPIStatus_loop_eq (data : List String) :
    extractAPIStatus.loop data = .ok (data.map (fun endpoint =>
      some { desc := ApiStatus, value := 1, labelValues := [endpoint] })) := by
  induction data with
  | nil => rfl
  | cons endpoint rest ih =>
    simp [extractAPIStatus.loop, ih, MustNewConstMetric, ApiStatus, newMetricDescr, bind,
      Except.bind, pure, Except.pure]

/-- The session loop sends one info sample per record and never panics. -/
theorem extractSession_loop_eq (data : List APISessionObj) :
    extractSession.loop data = .ok (data.map (fun v =>
      some { desc := SessionInfo, value := 1,
             labelValues := [v.Id, v.Identifier, v.LocalIp, Itoa v.LocalPort, v.PeerIp,
               Itoa v.PeerPort, v.TypeID] })) := by
  induction data with
  | nil => rfl
  | cons v rest ih =>
    simp [extractSession.loop, ih, MustNewConstMetric, SessionInfo, newMetricDescr, bind,
      Except.bind, pure, Except.pure]

/-- The RTP loop sends one info sample per record and never panics. -/
theorem extractRtp_loop_eq (data : List APIRtpServerObj) :
    extractRtp.loop data = .ok (data.map (fun v =>
      some { desc := RtpServerInfo, value := 1, labelValues := [v.Port, v.StreamID] })) := by
  induction data with
  | nil => rfl
  | cons v rest ih =>
    simp [extractRtp.loop, ih, MustNewConstMetric, RtpServerInfo, newMetricDescr, bind,
      Except.bind, pure, Except.pure]

/-- No `processFunc` panics: on every body it returns, with the metrics it sent and
possibly an error. -/
theorem Source.processFunc_total (ParseFloat : String → Option Float64) (s : Source)
    (body : Body) : ∃ sent err, s.processFunc ParseFloat body = .ok (sent, err) := by
  cases s
  · simp only [Source.processFunc, extractVersion.processFunc]
    cases processAPIResponse ZlmAPIEndpointVersion body APIVersionObj.zero decodeAPIVersionObj
      with
    | error err => exact ⟨[], some err, rfl⟩
    | ok resp =>
      simp [MustNewConstMetric, ZLMediaKitInfo, newMetricDescr, bind, Except.bind, pure,
          Except.pure]
  · simp only [Source.processFunc, extractAPIStatus.processFunc]
    cases processAPIResponse ZlmAPIEndpointGetApiList body [] decodeStringSlice with
    | error err => exact ⟨[], some err, rfl⟩
    | ok resp =>
      simp [extractAPIStatus_loop_eq, bind, Except.bind, pure, Except.pure]
  · simp only [Source.processFunc, extractNetworkThreads.processFunc]
    cases processAPIResponse ZlmAPIEndpointGetNetworkThreads body []
      decodeAPINetworkThreadsObjs with
    | error err => exact ⟨[], some err, rfl⟩
    | ok resp =>
      simp [MustNewConstMetric, NetworkThreadsTotal, NetworkThreadsLoadTotal,
          NetworkThreadsDelayTotal, newMetricDescr, bind, Except.bind, pure, Except.pure]
  · simp only [Source.processFunc, extractWorkThreads.processFunc]
    cases processAPIResponse ZlmAPIEndpointGetWorkThreads body [] decodeAPIWorkThreadsObjs with
    | error err => exact ⟨[], some err, rfl⟩
    | ok resp =>
      simp [MustNewConstMetric, WorkThreadsTotal, WorkThreadsLoadTotal,
          WorkThreadsDelayTotal, newMetricDescr, bind, Except.bind, pure, Except.pure]
  · simp only [Source.processFunc, extractStatistics.processFunc]
    cases processAPIResponse ZlmAPIEndpointGetStatistics body APIStatisticsObj.zero
      decodeAPIStatisticsObj with
    | error err => exact ⟨[], some err, rfl⟩
    | ok resp =>
      simp [extractStatistics_publish_eq, bind, Except.bind, pure, Except.pure]
  · simp only [Source.processFunc, extractSession.processFunc]
    cases processAPIResponse ZlmAPIEndpointGetAllSession body [] decodeAPISessionObjs with
    | error err => exact ⟨[], some err, rfl⟩
    | ok resp =>
      simp [extractSession_loop_eq, MustNewConstMetric, SessionTotal, newMetricDescr, bind,
          Except.bind, pure, Except.pure]
  · simp only [Source.processFunc, extractStream.processFunc]
    cases processAPIResponse ZlmAPIEndpointGetMediaList body [] decodeAPIStreamInfoObjs with
    | error err => exact ⟨[], some err, rfl⟩
    | ok resp =>
      obtain ⟨out, keysEnd, -, hpub, -⟩ := publish_spec resp.Data
      simp [hpub, bind, Except.bind, pure, Except.pure]
  · simp only [Source.processFunc, extractRtp.processFunc]
    cases processAPIResponse ZlmAPIEndpointListRtpServer body [] decodeAPIRtpServerObjs with
    | error err => exact ⟨[], some err, rfl⟩
    | ok resp =>
      simp [extractRtp_loop_eq, MustNewConstMetric, RtpServerTotal, newMetricDescr, bind,
          Except.bind, pure, Except.pure]

/-- An envelope that decodes with a status code other than 0 makes `processAPIResponse`
return the API error, whatever the payload holds. -/
theorem processAPIResponse_code {T : Type} (body : Body) (zero : T)
    (decodeData : T → Json → Option T) (code : Int)
    (h : (Decode zero decodeData body).map (fun r => r.Code) = some code) (hne : code ≠ 0) :
    ∃ msg, ∀ endpoint, processAPIResponse endpoint body zero decodeData
      = .error (.unexpectedCode endpoint code msg) := by
  cases hd : Decode zero decodeData body with
  | none => simp [hd] at h
  | some r =>
    simp only [hd, Option.map_some', Option.some.injEq] at h
    refine ⟨r.Msg, fun endpoint => ?_⟩
    simp [processAPIResponse, hd, h, hne, ZlmAPISuccessCode]

/-- On an envelope with a status code other than 0 every `processFunc` sends nothing and
returns the API error of its endpoint. -/
theorem Source.processFunc_code (ParseFloat : String → Option Float64) (s : Source)
    (body : Body) (code : Int) (h : s.envelopeCode body = some code) (hne : code ≠ 0) :
    ∃ msg, s.processFunc ParseFloat body
      = .ok ([], some (.unexpectedCode s.endpoint code msg)) := by
  cases s
  all_goals
    obtain ⟨msg, hm⟩ := processAPIResponse_code body _ _ code h hne
    refine ⟨msg, ?_⟩
    simp only [Source.processFunc, Source.endpoint, extractVersion.processFunc,
      extractAPIStatus.processFunc, extractNetworkThreads.processFunc,
      extractWorkThreads.processFunc, extractStatistics.processFunc,
      extractSession.processFunc, extractStream.processFunc, extractRtp.processFunc, hm]
    rfl


/-- A task whose response carries an envelope with a status code other than 0: it returns,
has sent nothing, and has incremented the counter of its endpoint once. -/
theorem Source.extract_code (ParseFloat : String → Option Float64) (e : Exporter)
    (net : Transport) (errs : Counters) (s : Source) (body : Body) (code : Int)
    (hparse : net.urlParse (e.scrapeURI ++ "/" ++ s.endpoint) = true)
    (hdo : net.Do e.client (e.request s.endpoint) = .response body)
    (hcode : s.envelopeCode body = some code) (hne : code ≠ 0) :
    s.extract ParseFloat e net errs
      = .ok { returned := true, sent := [], scrapeErrors := errs.inc s.endpoint } := by
  obtain ⟨msg, hm⟩ := Source.processFunc_code ParseFloat s body code hcode hne
  rw [Source.extract_eq, fetchHTTP_response e net errs _ _ body _ _ hparse hdo hm]
  rfl

/-- C2: for each of the eight source transformers and every response body that decodes as
the envelope with a status code different from 0, the transformer sends no metric and
increments the error counter of its own endpoint by exactly 1, leaving the counters of the
other labels unchanged; what the payload field holds plays no part. -/
theorem transformer_nonzero_code (ParseFloat : String → Option Float64) (e : Exporter)
    (net : Transport) (errs : Counters) (s : Source) (body : Body) (code : Int)
    (hparse : net.urlParse (e.scrapeURI ++ "/" ++ s.endpoint) = true)
    (hdo : net.Do e.client (e.request s.endpoint) = .response body)
    (hcode : s.envelopeCode body = some code) (hne : code ≠ 0) :
    ∃ t, s.extract ParseFloat e net errs = .ok t ∧ t.returned = true ∧ t.sent = [] ∧
      t.scrapeErrors s.endpoint = errs s.endpoint + 1 ∧
      ∀ l, l ≠ s.endpoint → t.scrapeErrors l = errs l := by
  refine ⟨_, Source.extract_code ParseFloat e net errs s body code hparse hdo hcode hne,
    rfl, rfl, ?_, ?_⟩
  · simp [Counters.inc]
  · intro l hl
    simp [Counters.inc, hl]

/-- C2, at the version transformer, for a body with status code 1 that carries a complete
version payload. -/
theorem transformer_nonzero_code_witness :
    ∃ t, Source.version.extract exampleParseFloat exampleExporter (answering versionErrorBody)
        (fun _ => 0) = .ok t ∧ t.returned = true ∧ t.sent = [] ∧
      t.scrapeErrors Source.version.endpoint = 0 + 1 ∧
      ∀ l, l ≠ Source.version.endpoint → t.scrapeErrors l = 0 :=
  transformer_nonzero_code exampleParseFloat exampleExporter (answering versionErrorBody)
    (fun _ => 0) .version versionErrorBody 1 rfl rfl (by decide) (by decide)

/-! ## The scrape cycle -/

/-- A task depends on the network only through the answers for its own endpoint. -/
theorem fetchHTTP_congr (e : Exporter) (net net2 : Transport) (errs : Counters) (ep : String)
    (processFunc : Body → Except Panic (List Metric × Option ScrapeError))
    (h1 : net2.urlParse (e.scrapeURI ++ "/" ++ ep) = net.urlParse (e.scrapeURI ++ "/" ++ ep))
    (h2 : net2.Do e.client (e.request ep) = net.Do e.client (e.request ep)) :
    fetchHTTP e net2 errs ep processFunc = fetchHTTP e net errs ep processFunc := by
  unfold Exporter.request at h2
  simp only [fetchHTTP, h1, h2]

/-- A task with a total `processFunc` never panics; what it sends and whether it returns
does not depend on the counters, which it changes at its own endpoint only, by at most
one; it returns unless its request is still pending. -/
theorem fetchHTTP_outcome (e : Exporter) (net : Transport) (ep : String)
    (processFunc : Body → Except Panic (List Metric × Option ScrapeError))
    (hp : ∀ body, ∃ sent err, processFunc body = .ok (sent, err)) :
    ∃ (ret : Bool) (sent : List Metric) (failed : Bool),
      (∀ errs, fetchHTTP e net errs ep processFunc = .ok
        { returned := ret, sent := sent,
          scrapeErrors := if failed = true then errs.inc ep else errs }) ∧
      (net.Do e.client (e.request ep) ≠ .pending → ret = true) := by
  by_cases hparse : net.urlParse (e.scrapeURI ++ "/" ++ ep) = true
  · cases hdo : net.Do e.client (e.request ep) with
    | pending =>
      refine ⟨false, [], false, fun errs => ?_, fun h => absurd rfl h⟩
      unfold Exporter.request at hdo
      simp [fetchHTTP, hparse, hdo, pure, Except.pure]
    | failed =>
      refine ⟨true, [], true, fun errs => ?_, fun _ => rfl⟩
      unfold Exporter.request at hdo
      simp [fetchHTTP, hparse, hdo, pure, Except.pure]
    | response body =>
      obtain ⟨sent, err, hb⟩ := hp body
      refine ⟨true, sent, err.isSome, fun errs => ?_, fun _ => rfl⟩
      rw [fetchHTTP_response e net errs ep processFunc body sent err hparse hdo hb]
  · refine ⟨true, [], true, fun errs => ?_, fun _ => rfl⟩
    simp [fetchHTTP, hparse, pure, Except.pure]

/-- The outcome of the task of a source, as `fetchHTTP_outcome`. -/
theorem Source.extract_outcome (ParseFloat : String → Option Float64) (e : Exporter)
    (net : Transport) (s : Source) :
    ∃ (ret : Bool) (sent : List Metric) (failed : Bool),
      (∀ errs, s.extract ParseFloat e net errs = .ok
        { returned := ret, sent := sent,
          scrapeErrors := if failed = true then errs.inc s.endpoint else errs }) ∧
      (net.Do e.client (e.request s.endpoint) ≠ .pending → ret = true) := by
  obtain ⟨ret, sent, failed, h, hr⟩ :=
    fetchHTTP_outcome e net s.endpoint (s.processFunc ParseFloat)
      (Source.processFunc_total ParseFloat s)
  exact ⟨ret, sent, failed, fun errs => by rw [Source.extract_eq, h errs], hr⟩

/-- A conditional increment read at its own label. -/
theorem Counters.bump_same (failed : Bool) (c : Counters) (ep : String) :
    (if failed = true then c.inc ep else c) ep = if failed = true then c ep + 1 else c ep := by
  cases failed <;> simp [Counters.inc]

/-- A conditional increment read at another label. -/
theorem Counters.bump_other (failed : Bool) (c : Counters) (ep l : String) (h : l ≠ ep) :
    (if failed = true then c.inc ep else c) l = c l := by
  cases failed <;> simp [Counters.inc, h]

/-- The eight endpoint paths are pairwise different. -/
theorem endpoints_pairwise :
    [ZlmAPIEndpointVersion, ZlmAPIEndpointGetApiList, ZlmAPIEndpointGetNetworkThreads,
      ZlmAPIEndpointGetWorkThreads, ZlmAPIEndpointGetStatistics, ZlmAPIEndpointGetAllSession,
      ZlmAPIEndpointGetMediaList, ZlmAPIEndpointListRtpServer].Pairwise (fun a b => a ≠ b) := by
  decide

/-- The value of `up`: 1 exactly when all eight tasks returned. -/
theorem up_eq_one_iff (b1 b2 b3 b4 b5 b6 b7 b8 : Bool) :
    (if (b1 && b2 && b3 && b4 && b5 && b6 && b7 && b8) = true then (1 : Float64) else 0) = 1 ↔
      (b1 = true ∧ b2 = true ∧ b3 = true ∧ b4 = true ∧ b5 = true ∧ b6 = true ∧ b7 = true ∧
        b8 = true) := by
  by_cases h : (b1 && b2 && b3 && b4 && b5 && b6 && b7 && b8) = true
  · simp only [h, if_true, true_iff]
    simp only [Bool.and_eq_true] at h
    tauto
  · simp only [h, if_false, zero_ne_one, false_iff]
    simp only [Bool.and_eq_true] at h
    tauto

/-- One cycle, task by task: `scrape` never panics; for every source, what the cycle
records as sent and the counter of the endpoint of the source are those of the task of
the source run on the counters the cycle started with; the cycle counter is one more;
`up` is 1 when every task returned and 0 otherwise. -/
theorem scrape_spec (ParseFloat : String → Option Float64) (e : Exporter) (net : Transport)
    (errs : Counters) :
    ∃ r, scrape ParseFloat e net errs = .ok r ∧
      r.exporter = { e with totalScrapes := e.totalScrapes + 1 } ∧
      (∀ s : Source, ∃ t,
        s.extract ParseFloat { e with totalScrapes := e.totalScrapes + 1 } net errs = .ok t ∧
        r.sent s = t.sent ∧ r.scrapeErrors s.endpoint = t.scrapeErrors s.endpoint ∧
        (r.up = 1 → t.returned = true)) ∧
      ((∀ s : Source, net.Do e.client (e.request s.endpoint) ≠ .pending) → r.up = 1) ∧
      (r.up = 1 ∨ r.up = 0) := by
  obtain ⟨b1, s1, f1, h1, p1⟩ := Source.extract_outcome ParseFloat
    { e with totalScrapes := e.totalScrapes + 1 } net .version
  obtain ⟨b2, s2, f2, h2, p2⟩ := Source.extract_outcome ParseFloat
    { e with totalScrapes := e.totalScrapes + 1 } net .apiStatus
  obtain ⟨b3, s3, f3, h3, p3⟩ := Source.extract_outcome ParseFloat
    { e with totalScrapes := e.totalScrapes + 1 } net .networkThreads
  obtain ⟨b4, s4, f4, h4, p4⟩ := Source.extract_outcome ParseFloat
    { e with totalScrapes := e.totalScrapes + 1 } net .workThreads
  obtain ⟨b5, s5, f5, h5, p5⟩ := Source.extract_outcome ParseFloat
    { e with totalScrapes := e.totalScrapes + 1 } net .statistics
  obtain ⟨b6, s6, f6, h6, p6⟩ := Source.extract_outcome ParseFloat
    { e with totalScrapes := e.totalScrapes + 1 } net .session
  obtain ⟨b7, s7, f7, h7, p7⟩ := Source.extract_outcome ParseFloat
    { e with totalScrapes := e.totalScrapes + 1 } net .stream
  obtain ⟨b8, s8, f8, h8, p8⟩ := Source.extract_outcome ParseFloat
    { e with totalScrapes := e.totalScrapes + 1 } net .rtp
  simp only [Source.extract, Source.endpoint] at h1 h2 h3 h4 h5 h6 h7 h8
  have hp := endpoints_pairwise
  simp only [List.pairwise_cons, List.mem_cons, forall_eq_or_imp] at hp
  apply Exists.intro
  refine ⟨?hrun, ?hexp, ?hsrc, ?hup, ?hval⟩
  case hrun =>
    simp only [scrape, h1, h2, h3, h4, h5, h6, h7, h8, bind, Except.bind, pure, Except.pure]
    rfl
  case hexp => rfl
  case hsrc =>
    intro s
    cases s
    all_goals
      simp only [Source.extract, Source.endpoint, h1, h2, h3, h4, h5, h6, h7, h8]
      refine ⟨_, rfl, rfl, ?_, ?_⟩
      · simp [Counters.bump_same, Counters.bump_other, hp, Ne.symm]
      · intro hup
        obtain ⟨q1, q2, q3, q4, q5, q6, q7, q8⟩ := (up_eq_one_iff _ _ _ _ _ _ _ _).mp hup
        assumption
  case hup =>
    intro hall
    have q1 := p1 (hall .version)
    have q2 := p2 (hall .apiStatus)
    have q3 := p3 (hall .networkThreads)
    have q4 := p4 (hall .workThreads)
    have q5 := p5 (hall .statistics)
    have q6 := p6 (hall .session)
    have q7 := p7 (hall .stream)
    have q8 := p8 (hall .rtp)
    exact (up_eq_one_iff _ _ _ _ _ _ _ _).mpr ⟨q1, q2, q3, q4, q5, q6, q7, q8⟩
  case hval =>
    by_cases hd : (b1 && b2 && b3 && b4 && b5 && b6 && b7 && b8) = true
    · exact Or.inl (by simp only [hd, if_true])
    · exact Or.inr (by simp only [hd]; rfl)

/-- C1: failure isolation in one scrape cycle.  When no request is pending at the deadline
and the envelope of one source carries a status code other than 0, the error counter of
the endpoint of that source increases by exactly 1, no metric of that source is sent,
`scrape` returns 1, and every other source sends what it sends in any cycle in which the
network answers the other seven endpoints in the same way (in particular one in which the
source succeeds). -/
theorem scrape_failure_isolation (ParseFloat : String → Option Float64) (e : Exporter)
    (net net2 : Transport) (errs : Counters) (s : Source) (body : Body) (code : Int)
    (hparse : net.urlParse (e.scrapeURI ++ "/" ++ s.endpoint) = true)
    (hdo : net.Do e.client (e.request s.endpoint) = .response body)
    (hcode : s.envelopeCode body = some code) (hne : code ≠ 0)
    (hall : ∀ s2 : Source, net.Do e.client (e.request s2.endpoint) ≠ .pending)
    (hsame : ∀ s2 : Source, s2 ≠ s →
      net2.urlParse (e.scrapeURI ++ "/" ++ s2.endpoint)
          = net.urlParse (e.scrapeURI ++ "/" ++ s2.endpoint) ∧
        net2.Do e.client (e.request s2.endpoint) = net.Do e.client (e.request s2.endpoint)) :
    ∃ r r2, scrape ParseFloat e net errs = .ok r ∧ scrape ParseFloat e net2 errs = .ok r2 ∧
      r.scrapeErrors s.endpoint = errs s.endpoint + 1 ∧ r.sent s = [] ∧
      (∀ s2 : Source, s2 ≠ s → r.sent s2 = r2.sent s2) ∧ r.up = 1 := by
  obtain ⟨r, hr, -, hsrc, hup, -⟩ := scrape_spec ParseFloat e net errs
  obtain ⟨r2, hr2, -, hsrc2, -, -⟩ := scrape_spec ParseFloat e net2 errs
  refine ⟨r, r2, hr, hr2, ?_, ?_, ?_, hup hall⟩
  · obtain ⟨t, ht, -, hcnt, -⟩ := hsrc s
    rw [Source.extract_code ParseFloat { e with totalScrapes := e.totalScrapes + 1 } net errs s
      body code hparse hdo hcode hne] at ht
    have htv := Except.ok.inj ht
    subst htv
    rw [hcnt]
    simp [Counters.inc]
  · obtain ⟨t, ht, hsent, -, -⟩ := hsrc s
    rw [Source.extract_code ParseFloat { e with totalScrapes := e.totalScrapes + 1 } net errs s
      body code hparse hdo hcode hne] at ht
    have htv := Except.ok.inj ht
    subst htv
    rw [hsent]
  · intro s2 hs2
    obtain ⟨t, ht, hsent, -, -⟩ := hsrc s2
    obtain ⟨t2, ht2, hsent2, -, -⟩ := hsrc2 s2
    obtain ⟨h1, h2⟩ := hsame s2 hs2
    rw [Source.extract_eq,
      fetchHTTP_congr { e with totalScrapes := e.totalScrapes + 1 } net net2 errs _ _ h1 h2,
      ← Source.extract_eq, ht] at ht2
    rw [hsent, hsent2, Except.ok.inj ht2]

/-- C1, for a cycle in which the media-list endpoint answers with status code 1 and the
other seven with status code 0, against the cycle in which all eight answer with status
code 0. -/
theorem scrape_failure_isolation_witness :
    ∃ r r2,
      scrape exampleParseFloat exampleExporter
        (answeringAt "http://127.0.0.1/index/api/getMediaList" errorBody emptyOkBody)
        (fun _ => 0) = .ok r ∧
      scrape exampleParseFloat exampleExporter (answering emptyOkBody) (fun _ => 0) = .ok r2 ∧
      r.scrapeErrors Source.stream.endpoint = 0 + 1 ∧ r.sent Source.stream = [] ∧
      (∀ s2 : Source, s2 ≠ Source.stream → r.sent s2 = r2.sent s2) ∧ r.up = 1 :=
  scrape_failure_isolation exampleParseFloat exampleExporter
    (answeringAt "http://127.0.0.1/index/api/getMediaList" errorBody emptyOkBody)
    (answering emptyOkBody) (fun _ => 0) .stream errorBody 1 rfl rfl (by decide) (by decide)
    (fun s2 h => by cases s2 <;> exact DoResult.noConfusion h)
    (fun s2 hs2 => by cases s2 <;> first | exact absurd rfl hs2 | exact ⟨rfl, rfl⟩)


/-! ## Construction and secret masking -/

/-- C19: `NewExporter` returns an error (and no exporter) exactly when the uri or the
secret is empty, and an exporter whose `scrapeURI` and `scrapeSecret` are the given uri
and secret exactly when both are non-empty. -/
theorem NewExporter_spec (uri secret : String) (options : Options) :
    ((∃ msg, NewExporter uri secret options = .error msg) ↔ (uri = "" ∨ secret = "")) ∧
    ((∃ e, NewExporter uri secret options = .ok e ∧ e.scrapeURI = uri ∧
        e.scrapeSecret = secret) ↔ (uri ≠ "" ∧ secret ≠ "")) := by
  by_cases hu : uri = ""
  · simp [NewExporter, hu]
  · by_cases hs : secret = ""
    · simp [NewExporter, hu, hs]
    · simp [NewExporter, hu, hs]

/-- C20: `maskSecret` on the bytes of the secret: the empty secret gives `<empty>`; a
secret of length 1 to 4 gives `****`; a longer secret gives its first two bytes, `****`
and its last two bytes, which has length 8 and is the same for two secrets that agree on
their first two and on their last two bytes; `1234567890` gives `12****90`. -/
theorem maskSecret_spec (secret other : List Nat) :
    maskSecret [] = goBytes "<empty>" ∧
    (1 ≤ secret.length ∧ secret.length ≤ 4 → maskSecret secret = goBytes "****") ∧
    (4 < secret.length →
      maskSecret secret = secret.take 2 ++ goBytes "****" ++ secret.drop (secret.length - 2) ∧
      (maskSecret secret).length = 8) ∧
    (4 < secret.length ∧ 4 < other.length ∧ secret.take 2 = other.take 2 ∧
      secret.drop (secret.length - 2) = other.drop (other.length - 2) →
      maskSecret secret = maskSecret other) ∧
    maskSecret (goBytes "1234567890") = goBytes "12****90" := by
  have hlong : ∀ s : List Nat, 4 < s.length →
      maskSecret s = s.take 2 ++ goBytes "****" ++ s.drop (s.length - 2) := by
    intro s hs
    have h0 : ¬ s.length = 0 := by omega
    have h4 : ¬ s.length ≤ 4 := by omega
    simp [maskSecret, h0, h4]
  refine ⟨by decide, ?_, ?_, ?_, by decide⟩
  · rintro ⟨h1, h4⟩
    have h0 : ¬ secret.length = 0 := by omega
    simp [maskSecret, h0, h4]
  · intro h
    refine ⟨hlong secret h, ?_⟩
    rw [hlong secret h]
    have hstars : (goBytes "****").length = 4 := by decide
    simp only [List.length_append, List.length_take, List.length_drop, hstars]
    omega
  · rintro ⟨hs, ho, h2, hd⟩
    rw [hlong secret hs, hlong other ho, h2, hd]

/-- C20, at the secrets of `TestMaskSecret`. -/
theorem maskSecret_spec_witness :
    maskSecret (goBytes "") = goBytes "<empty>" ∧
    maskSecret (goBytes "1234") = goBytes "****" ∧
    maskSecret (goBytes "1234567890") = goBytes "12****90" ∧
    (maskSecret (goBytes "1234567890")).length = 8 :=
  ⟨(maskSecret_spec [] []).1, (maskSecret_spec (goBytes "1234") []).2.1 (by decide),
    (maskSecret_spec [] []).2.2.2.2,
    ((maskSecret_spec (goBytes "1234567890") []).2.2.1 (by decide)).2⟩

/-! ## The collector -/

/-- C18: `Describe` sends the 36 descriptors registered through `newMetricDescr`, each
exactly once and in the order of their registration, then the `up` descriptor, then the
total-scrapes descriptor, and nothing else: `len(metrics) + 2` descriptors, all different;
it runs no scrape and leaves the exporter, hence the cycle counter, as it was. -/
theorem Describe_spec (e : Exporter) :
    e.Describe.1 =
      [ZLMediaKitInfo, ApiStatus,
       NetworkThreadsTotal, NetworkThreadsLoadTotal, NetworkThreadsDelayTotal,
       WorkThreadsTotal, WorkThreadsLoadTotal, WorkThreadsDelayTotal,
       StatisticsBuffer, StatisticsBufferLikeString, StatisticsBufferList,
       StatisticsBufferRaw, StatisticsFrame, StatisticsFrameImp, StatisticsMediaSource,
       StatisticsMultiMediaSourceMuxer, StatisticsRtmpPacket, StatisticsRtpPacket,
       StatisticsSocket, StatisticsTcpClient, StatisticsTcpServer, StatisticsTcpSession,
       StatisticsUdpServer, StatisticsUdpSession,
       SessionInfo, SessionTotal,
       StreamsInfo, StreamStatus, StreamReaderCount, StreamTotalReaderCount, StreamBitrate,
       StreamaliveSecond, StreamCreateStamp, StreamTotal,
       RtpServerInfo, RtpServerTotal,
       upDesc, totalScrapesDesc] ∧
    metrics.length = 36 ∧
    e.Describe.1.take metrics.length = metrics ∧
    e.Describe.1.drop metrics.length = [upDesc, totalScrapesDesc] ∧
    e.Describe.1.length = metrics.length + 2 ∧
    e.Describe.1.Nodup ∧
    e.Describe.2 = e ∧ e.Describe.2.totalScrapes = e.totalScrapes := by
  refine ⟨rfl, rfl, ?_, ?_, ?_, ?_, rfl, rfl⟩
  · simp [Exporter.Describe]
  · simp [Exporter.Describe]
  · simp [Exporter.Describe]
  · show (metrics ++ [upDesc, totalScrapesDesc]).Nodup
    decide

/-- A task whose request is still pending has not returned, has sent nothing and has
counted no error. -/
theorem fetchHTTP_pending (e : Exporter) (net : Transport) (errs : Counters) (ep : String)
    (processFunc : Body → Except Panic (List Metric × Option ScrapeError))
    (hparse : net.urlParse (e.scrapeURI ++ "/" ++ ep) = true)
    (hdo : net.Do e.client (e.request ep) = .pending) :
    fetchHTTP e net errs ep processFunc
      = .ok { returned := false, sent := [], scrapeErrors := errs } := by
  unfold Exporter.request at hdo
  simp [fetchHTTP, hparse, hdo, pure, Except.pure]

/-- What `Collect` adds to a cycle: the `up` sample with the value of the cycle and the
cycle counter. -/
theorem Collect_of_scrape (ParseFloat : String → Option Float64) (e : Exporter)
    (net : Transport) (errs : Counters) (c : ScrapeResult)
    (h : scrape ParseFloat e net errs = .ok c) :
    e.Collect ParseFloat net errs = .ok
      { exporter := c.exporter, cycle := c.sent,
        after := [some { desc := upDesc, value := c.up, labelValues := [] },
                  some { desc := totalScrapesDesc, value := float64 c.exporter.totalScrapes,
                         labelValues := [] }],
        scrapeErrors := c.scrapeErrors } := by
  simp [Exporter.Collect, h, MustNewConstMetric, upDesc, bind, Except.bind, pure, Except.pure]

/-- C16: when the request of one source is still pending at the deadline, `scrape` returns
0 and `Collect` completes: after the metrics of the cycle, which are those the tasks had
sent (none for the pending source), it sends the `up` sample with value 0 and then the
cycle counter, which counts this cycle. -/
theorem Collect_timed_out (ParseFloat : String → Option Float64) (e : Exporter)
    (net : Transport) (errs : Counters) (s : Source)
    (hparse : net.urlParse (e.scrapeURI ++ "/" ++ s.endpoint) = true)
    (hpend : net.Do e.client (e.request s.endpoint) = .pending) :
    ∃ c r, scrape ParseFloat e net errs = .ok c ∧ c.up = 0 ∧
      e.Collect ParseFloat net errs = .ok r ∧
      r.after = [some { desc := upDesc, value := 0, labelValues := [] },
                 some { desc := totalScrapesDesc, value := float64 (e.totalScrapes + 1),
                        labelValues := [] }] ∧
      r.exporter.totalScrapes = e.totalScrapes + 1 ∧
      r.cycle s = [] ∧
      ∀ s2 : Source, ∃ t,
        s2.extract ParseFloat { e with totalScrapes := e.totalScrapes + 1 } net errs = .ok t ∧
        r.cycle s2 = t.sent := by
  obtain ⟨c, hc, hexp, hsrc, -, hval⟩ := scrape_spec ParseFloat e net errs
  have hs : s.extract ParseFloat { e with totalScrapes := e.totalScrapes + 1 } net errs
      = .ok { returned := false, sent := [], scrapeErrors := errs } := by
    rw [Source.extract_eq]
    exact fetchHTTP_pending { e with totalScrapes := e.totalScrapes + 1 } net errs _ _
      hparse hpend
  have hup : c.up = 0 := by
    rcases hval with h1 | h0
    · obtain ⟨t, ht, -, -, hret⟩ := hsrc s
      rw [hs] at ht
      have htv := Except.ok.inj ht
      subst htv
      exact absurd (hret h1) (by simp)
    · exact h0
  refine ⟨c, _, hc, hup, Collect_of_scrape ParseFloat e net errs c hc, ?_, ?_, ?_, ?_⟩
  · simp [hup, hexp]
  · simp [hexp]
  · obtain ⟨t, ht, hsent, -, -⟩ := hsrc s
    rw [hs] at ht
    have htv := Except.ok.inj ht
    subst htv
    exact hsent
  · intro s2
    obtain ⟨t, ht, hsent, -, -⟩ := hsrc s2
    exact ⟨t, ht, hsent⟩

/-- C16, for a cycle in which the media-list request is pending and the other seven
endpoints answer with status code 0: `up` is 0 and the version sample was sent. -/
theorem Collect_timed_out_witness :
    ∃ c r, scrape exampleParseFloat exampleExporter
        (stalledAt "http://127.0.0.1/index/api/getMediaList" emptyOkBody) (fun _ => 0) = .ok c ∧
      c.up = 0 ∧
      exampleExporter.Collect exampleParseFloat
        (stalledAt "http://127.0.0.1/index/api/getMediaList" emptyOkBody) (fun _ => 0) = .ok r ∧
      r.after = [some { desc := upDesc, value := 0, labelValues := [] },
                 some { desc := totalScrapesDesc, value := float64 (0 + 1),
                        labelValues := [] }] ∧
      r.exporter.totalScrapes = 0 + 1 ∧
      r.cycle Source.stream = [] ∧
      ∀ s2 : Source, ∃ t,
        s2.extract exampleParseFloat
          { exampleExporter with totalScrapes := exampleExporter.totalScrapes + 1 }
          (stalledAt "http://127.0.0.1/index/api/getMediaList" emptyOkBody) (fun _ => 0)
          = .ok t ∧
        r.cycle s2 = t.sent :=
  Collect_timed_out exampleParseFloat exampleExporter
    (stalledAt "http://127.0.0.1/index/api/getMediaList" emptyOkBody) (fun _ => 0) .stream
    rfl rfl

/-- C17: when every source task returns before the deadline, however many of them failed,
`Collect` completes, the cycle counter is one more than before, and after the metrics of
the cycle `Collect` sends the `up` sample with value 1 and then the cycle counter. -/
theorem Collect_completed (ParseFloat : String → Option Float64) (e : Exporter)
    (net : Transport) (errs : Counters)
    (hall : ∀ s : Source, net.Do e.client (e.request s.endpoint) ≠ .pending) :
    ∃ c r, scrape ParseFloat e net errs = .ok c ∧ c.up = 1 ∧
      e.Collect ParseFloat net errs = .ok r ∧
      r.exporter.totalScrapes = e.totalScrapes + 1 ∧
      r.cycle = c.sent ∧
      r.after = [some { desc := upDesc, value := 1, labelValues := [] },
                 some { desc := totalScrapesDesc, value := float64 (e.totalScrapes + 1),
                        labelValues := [] }] := by
  obtain ⟨c, hc, hexp, -, hup, -⟩ := scrape_spec ParseFloat e net errs
  refine ⟨c, _, hc, hup hall, Collect_of_scrape ParseFloat e net errs c hc, ?_, rfl, ?_⟩
  · simp [hexp]
  · simp [hup hall, hexp]

/-- C17, for a cycle in which every endpoint answers with status code 1, so that all eight
sources fail: `up` is 1 and the cycle is counted. -/
theorem Collect_completed_witness :
    ∃ c r, scrape exampleParseFloat exampleExporter (answering errorBody) (fun _ => 0) = .ok c ∧
      c.up = 1 ∧
      exampleExporter.Collect exampleParseFloat (answering errorBody) (fun _ => 0) = .ok r ∧
      r.exporter.totalScrapes = 0 + 1 ∧
      r.cycle = c.sent ∧
      r.after = [some { desc := upDesc, value := 1, labelValues := [] },
                 some { desc := totalScrapesDesc, value := float64 (0 + 1),
                        labelValues := [] }] :=
  Collect_completed exampleParseFloat exampleExporter (answering errorBody) (fun _ => 0)
    (fun _ h => DoResult.noConfusion h)


/-! ## The envelope check and the fetch, case by case -/

/-- C12, as stated, fails on the code: for the thread-load body with status code 1,
message `error` and the payload `"invalid"`, `processAPIResponse` returns the decoding
error, not the API error that reports the code and the message. -/
theorem processAPIResponse_code_bad_payload_counterexample :
    processAPIResponse ZlmAPIEndpointGetNetworkThreads threadsErrorBadPayloadBody []
        decodeAPINetworkThreadsObjs
      = .error (.decoding ZlmAPIEndpointGetNetworkThreads) ∧
    ScrapeError.decoding ZlmAPIEndpointGetNetworkThreads
      ≠ .unexpectedCode ZlmAPIEndpointGetNetworkThreads 1 "error" :=
  ⟨rfl, by decide⟩

/-- C12, amended: a body that decodes into the target envelope with a status code other
than 0 makes `processAPIResponse` fail with the API error that reports the endpoint, that
code and the message of the envelope, whatever the payload holds; a body that does not
decode into the target type makes it fail with the decoding error of the endpoint,
whatever status code the body carries. -/
theorem processAPIResponse_errors {T : Type} (endpoint : String) (body : Body) (zero : T)
    (decodeData : T → Json → Option T) :
    (∀ r, Decode zero decodeData body = some r → r.Code ≠ 0 →
      processAPIResponse endpoint body zero decodeData
        = .error (.unexpectedCode endpoint r.Code r.Msg)) ∧
    (Decode zero decodeData body = none →
      processAPIResponse endpoint body zero decodeData = .error (.decoding endpoint)) := by
  constructor
  · intro r hr hne
    simp [processAPIResponse, hr, hne, ZlmAPISuccessCode]
  · intro hd
    simp [processAPIResponse, hd]

/-- C12, amended, at a version body with status code 1 and a complete payload, and at the
thread-load body with status code 1 and an ill-typed payload. -/
theorem processAPIResponse_errors_witness :
    processAPIResponse ZlmAPIEndpointVersion versionErrorBody APIVersionObj.zero
        decodeAPIVersionObj = .error (.unexpectedCode ZlmAPIEndpointVersion 1 "error") ∧
    processAPIResponse ZlmAPIEndpointGetNetworkThreads threadsErrorBadPayloadBody []
        decodeAPINetworkThreadsObjs = .error (.decoding ZlmAPIEndpointGetNetworkThreads) :=
  ⟨(processAPIResponse_errors ZlmAPIEndpointVersion versionErrorBody APIVersionObj.zero
      decodeAPIVersionObj).1
      { Code := 1, Msg := "error",
        Data := { BranchName := "master", BuildTime := "20220101", CommitHash := "abc123" } }
      rfl (by decide),
   (processAPIResponse_errors ZlmAPIEndpointGetNetworkThreads threadsErrorBadPayloadBody []
      decodeAPINetworkThreadsObjs).2 rfl⟩

/-- C13: one `fetchHTTP` call, outcome by outcome.  When the URI does not parse, when the
transport fails, and when the processing function returns an error, the call returns and
the counter of its endpoint is one more; when the processing function returns no error
the counters are unchanged; in all four cases the counters of the other labels are
unchanged and the call does not panic. -/
theorem fetchHTTP_counter (e : Exporter) (net : Transport) (errs : Counters) (ep : String)
    (processFunc : Body → Except Panic (List Metric × Option ScrapeError)) :
    (net.urlParse (e.scrapeURI ++ "/" ++ ep) = false →
      ∃ t, fetchHTTP e net errs ep processFunc = .ok t ∧ t.returned = true ∧ t.sent = [] ∧
        t.scrapeErrors ep = errs ep + 1 ∧ ∀ l, l ≠ ep → t.scrapeErrors l = errs l) ∧
    (net.urlParse (e.scrapeURI ++ "/" ++ ep) = true →
      net.Do e.client (e.request ep) = .failed →
      ∃ t, fetchHTTP e net errs ep processFunc = .ok t ∧ t.returned = true ∧ t.sent = [] ∧
        t.scrapeErrors ep = errs ep + 1 ∧ ∀ l, l ≠ ep → t.scrapeErrors l = errs l) ∧
    (∀ body sent err, net.urlParse (e.scrapeURI ++ "/" ++ ep) = true →
      net.Do e.client (e.request ep) = .response body →
      processFunc body = .ok (sent, some err) →
      ∃ t, fetchHTTP e net errs ep processFunc = .ok t ∧ t.returned = true ∧ t.sent = sent ∧
        t.scrapeErrors ep = errs ep + 1 ∧ ∀ l, l ≠ ep → t.scrapeErrors l = errs l) ∧
    (∀ body sent, net.urlParse (e.scrapeURI ++ "/" ++ ep) = true →
      net.Do e.client (e.request ep) = .response body →
      processFunc body = .ok (sent, none) →
      ∃ t, fetchHTTP e net errs ep processFunc = .ok t ∧ t.returned = true ∧ t.sent = sent ∧
        ∀ l, t.scrapeErrors l = errs l) := by
  have hinc : (errs.inc ep) ep = errs ep + 1 ∧ ∀ l, l ≠ ep → (errs.inc ep) l = errs l :=
    ⟨by simp [Counters.inc], fun l hl => by simp [Counters.inc, hl]⟩
  refine ⟨?_, ?_, ?_, ?_⟩
  · intro hparse
    exact ⟨{ returned := true, sent := [], scrapeErrors := errs.inc ep },
      by simp [fetchHTTP, hparse, pure, Except.pure], rfl, rfl, hinc.1, hinc.2⟩
  · intro hparse hdo
    unfold Exporter.request at hdo
    exact ⟨{ returned := true, sent := [], scrapeErrors := errs.inc ep },
      by simp [fetchHTTP, hparse, hdo, pure, Except.pure], rfl, rfl, hinc.1, hinc.2⟩
  · intro body sent err hparse hdo hp
    exact ⟨_, fetchHTTP_response e net errs ep processFunc body sent (some err) hparse hdo hp,
      rfl, rfl, hinc.1, hinc.2⟩
  · intro body sent hparse hdo hp
    exact ⟨_, fetchHTTP_response e net errs ep processFunc body sent none hparse hdo hp,
      rfl, rfl, fun _ => rfl⟩

/-- C13, at the four outcomes: a URI that does not parse, a transport failure, a version
body with status code 1 (the processing function returns an error) and a version body
with status code 0 (it returns none). -/
theorem fetchHTTP_counter_witness :
    (∃ t, fetchHTTP exampleExporter unparsable (fun _ => 0) ZlmAPIEndpointVersion
        extractVersion.processFunc = .ok t ∧ t.returned = true ∧ t.sent = [] ∧
      t.scrapeErrors ZlmAPIEndpointVersion = 0 + 1 ∧
      ∀ l, l ≠ ZlmAPIEndpointVersion → t.scrapeErrors l = 0) ∧
    (∃ t, fetchHTTP exampleExporter refusing (fun _ => 0) ZlmAPIEndpointVersion
        extractVersion.processFunc = .ok t ∧ t.returned = true ∧ t.sent = [] ∧
      t.scrapeErrors ZlmAPIEndpointVersion = 0 + 1 ∧
      ∀ l, l ≠ ZlmAPIEndpointVersion → t.scrapeErrors l = 0) ∧
    (∃ t, fetchHTTP exampleExporter (answering errorBody) (fun _ => 0) ZlmAPIEndpointVersion
        extractVersion.processFunc = .ok t ∧ t.returned = true ∧ t.sent = [] ∧
      t.scrapeErrors ZlmAPIEndpointVersion = 0 + 1 ∧
      ∀ l, l ≠ ZlmAPIEndpointVersion → t.scrapeErrors l = 0) ∧
    (∃ t, fetchHTTP exampleExporter (answering emptyOkBody) (fun _ => 0) ZlmAPIEndpointVersion
        extractVersion.processFunc = .ok t ∧ t.returned = true ∧
      t.sent = [some { desc := ZLMediaKitInfo, value := 1, labelValues := ["", "", ""] }] ∧
      ∀ l, t.scrapeErrors l = 0) :=
  ⟨(fetchHTTP_counter exampleExporter unparsable (fun _ => 0) ZlmAPIEndpointVersion
      extractVersion.processFunc).1 rfl,
   (fetchHTTP_counter exampleExporter refusing (fun _ => 0) ZlmAPIEndpointVersion
      extractVersion.processFunc).2.1 rfl rfl,
   (fetchHTTP_counter exampleExporter (answering errorBody) (fun _ => 0) ZlmAPIEndpointVersion
      extractVersion.processFunc).2.2.1 errorBody []
      (.unexpectedCode ZlmAPIEndpointVersion 1 "error") rfl rfl rfl,
   (fetchHTTP_counter exampleExporter (answering emptyOkBody) (fun _ => 0)
      ZlmAPIEndpointVersion extractVersion.processFunc).2.2.2 emptyOkBody
      [some { desc := ZLMediaKitInfo, value := 1, labelValues := ["", "", ""] }] rfl rfl rfl⟩

/-- C14: the request `fetchHTTP` builds.  Its URI is the base URI, a slash and the endpoint
path; the secret is the one value of its header `secret`; its method and its URI are the
same for every secret; and this request, issued through the client of the exporter, is
the only one `fetchHTTP` issues: cutting the network down to it changes nothing. -/
theorem fetchHTTP_request (e : Exporter) (secret2 : String) (ep : String) (net : Transport)
    (errs : Counters) (processFunc : Body → Except Panic (List Metric × Option ScrapeError)) :
    (e.request ep).URL = e.scrapeURI ++ "/" ++ ep ∧
    (e.request ep).Header = [("secret", [e.scrapeSecret])] ∧
    ({ e with scrapeSecret := secret2 }.request ep).URL = (e.request ep).URL ∧
    ({ e with scrapeSecret := secret2 }.request ep).Method = (e.request ep).Method ∧
    ({ e with scrapeSecret := secret2 }.request ep).Header = [("secret", [secret2])] ∧
    fetchHTTP e (net.only e ep) errs ep processFunc = fetchHTTP e net errs ep processFunc := by
  refine ⟨rfl, rfl, rfl, rfl, rfl, ?_⟩
  apply fetchHTTP_congr
  · rfl
  · simp [Transport.only]

/-- C15, evaluated on the code: in a network in which the request is still pending when
the deadline expires, the `fetchHTTP` call of the version transformer has not returned and
has counted no error. -/
theorem fetchHTTP_pending_not_aborted :
    (fetchHTTP exampleExporter stalled (fun _ => 0) ZlmAPIEndpointVersion
        extractVersion.processFunc).toOption.map
      (fun t => (t.returned, t.sent, t.scrapeErrors ZlmAPIEndpointVersion))
      = some (false, [], 0) := by
  decide


/-! ## Ill-typed payloads -/

theorem decodeString_mismatch (cur : String) (v : Json)
    (h : FieldType.string.mismatch v = true) : decodeString cur v = none := by
  cases v <;> first | rfl | simp [FieldType.mismatch, FieldType.accepts, Json.isNull] at h

theorem decodeInt_mismatch (cur : Int) (v : Json)
    (h : FieldType.int.mismatch v = true) : decodeInt cur v = none := by
  cases v <;> first | rfl | simp [FieldType.mismatch, FieldType.accepts, Json.isNull] at h

theorem decodeFloat64_mismatch (cur : Float64) (v : Json)
    (h : FieldType.float64.mismatch v = true) : decodeFloat64 cur v = none := by
  cases v <;> first | rfl | simp [FieldType.mismatch, FieldType.accepts, Json.isNull] at h

/-- A member that is stored into a field of `APIVersionObj` and has a type other than
the declared one makes the store fail. -/
theorem APIVersionObj_store_mismatch (cur : APIVersionObj) (key : String) (x : Json)
    (tag : String) (t : FieldType) (hmem : (tag, t) ∈ APIVersionObj.fieldTypes)
    (hkey : matchesField key tag = true) (hbad : t.mismatch x = true) :
    APIVersionObj.store cur key x = none := by
  have hk : foldName key = foldName tag := by simpa [matchesField] using hkey
  simp only [APIVersionObj.fieldTypes, List.mem_cons, Prod.mk.injEq, List.mem_nil_iff,
    or_false] at hmem
  rcases hmem with ⟨rfl, rfl⟩ | ⟨rfl, rfl⟩ | ⟨rfl, rfl⟩
  all_goals
    unfold APIVersionObj.store
    simp only [matchesField, hk]
    cases x <;>
      first
      | rfl
      | simp [FieldType.mismatch, FieldType.accepts, Json.isNull] at hbad

/-- A member that is stored into a field of `APINetworkThreadsObj` and has a type other than
the declared one makes the store fail. -/
theorem APINetworkThreadsObj_store_mismatch (cur : APINetworkThreadsObj) (key : String) (x : Json)
    (tag : String) (t : FieldType) (hmem : (tag, t) ∈ APINetworkThreadsObj.fieldTypes)
    (hkey : matchesField key tag = true) (hbad : t.mismatch x = true) :
    APINetworkThreadsObj.store cur key x = none := by
  have hk : foldName key = foldName tag := by simpa [matchesField] using hkey
  simp only [APINetworkThreadsObj.fieldTypes, List.mem_cons, Prod.mk.injEq, List.mem_nil_iff,
    or_false] at hmem
  rcases hmem with ⟨rfl, rfl⟩ | ⟨rfl, rfl⟩
  all_goals
    unfold APINetworkThreadsObj.store
    simp only [matchesField, hk]
    cases x <;>
      first
      | rfl
      | simp [FieldType.mismatch, FieldType.accepts, Json.isNull] at hbad

/-- A member that is stored into a field of `APIWorkThreadsObj` and has a type other than
the declared one makes the store fail. -/
theorem APIWorkThreadsObj_store_mismatch (cur : APIWorkThreadsObj) (key : String) (x : Json)
    (tag : String) (t : FieldType) (hmem : (tag, t) ∈ APIWorkThreadsObj.fieldTypes)
    (hkey : matchesField key tag = true) (hbad : t.mismatch x = true) :
    APIWorkThreadsObj.store cur key x = none := by
  have hk : foldName key = foldName tag := by simpa [matchesField] using hkey
  simp only [APIWorkThreadsObj.fieldTypes, List.mem_cons, Prod.mk.injEq, List.mem_nil_iff,
    or_false] at hmem
  rcases hmem with ⟨rfl, rfl⟩ | ⟨rfl, rfl⟩
  all_goals
    unfold APIWorkThreadsObj.store
    simp only [matchesField, hk]
    cases x <;>
      first
      | rfl
      | simp [FieldType.mismatch, FieldType.accepts, Json.isNull] at hbad

/-- A member that is stored into a field of `APIStatisticsObj` and has a type other than
the declared one makes the store fail. -/
theorem APIStatisticsObj_store_mismatch (cur : APIStatisticsObj) (key : String) (x : Json)
    (tag : String) (t : FieldType) (hmem : (tag, t) ∈ APIStatisticsObj.fieldTypes)
    (hkey : matchesField key tag = true) (hbad : t.mismatch x = true) :
    APIStatisticsObj.store cur key x = none := by
  have hk : foldName key = foldName tag := by simpa [matchesField] using hkey
  simp only [APIStatisticsObj.fieldTypes, List.mem_cons, Prod.mk.injEq, List.mem_nil_iff,
    or_false] at hmem
  rcases hmem with ⟨rfl, rfl⟩ | ⟨rfl, rfl⟩ | ⟨rfl, rfl⟩ | ⟨rfl, rfl⟩ | ⟨rfl, rfl⟩ | ⟨rfl, rfl⟩ |
    ⟨rfl, rfl⟩ | ⟨rfl, rfl⟩ | ⟨rfl, rfl⟩ | ⟨rfl, rfl⟩ | ⟨rfl, rfl⟩ | ⟨rfl, rfl⟩ |
    ⟨rfl, rfl⟩ | ⟨rfl, rfl⟩ | ⟨rfl, rfl⟩ | ⟨rfl, rfl⟩
  all_goals
    unfold APIStatisticsObj.store
    simp only [matchesField, hk]
    cases x <;>
      first
      | rfl
      | simp [FieldType.mismatch, FieldType.accepts, Json.isNull] at hbad

/-- A member that is stored into a field of `APISessionObj` and has a type other than
the declared one makes the store fail. -/
theorem APISessionObj_store_mismatch (cur : APISessionObj) (key : String) (x : Json)
    (tag : String) (t : FieldType) (hmem : (tag, t) ∈ APISessionObj.fieldTypes)
    (hkey : matchesField key tag = true) (hbad : t.mismatch x = true) :
    APISessionObj.store cur key x = none := by
  have hk : foldName key = foldName tag := by simpa [matchesField] using hkey
  simp only [APISessionObj.fieldTypes, List.mem_cons, Prod.mk.injEq, List.mem_nil_iff,
    or_false] at hmem
  rcases hmem with ⟨rfl, rfl⟩ | ⟨rfl, rfl⟩ | ⟨rfl, rfl⟩ | ⟨rfl, rfl⟩ | ⟨rfl, rfl⟩ | ⟨rfl, rfl⟩ |
    ⟨rfl, rfl⟩
  all_goals
    unfold APISessionObj.store
    simp only [matchesField, hk]
    cases x <;>
      first
      | rfl
      | simp [FieldType.mismatch, FieldType.accepts, Json.isNull] at hbad

/-- A member that is stored into a field of `APIStreamInfoObj` and has a type other than
the declared one makes the store fail. -/
theorem APIStreamInfoObj_store_mismatch (cur : APIStreamInfoObj) (key : String) (x : Json)
    (tag : String) (t : FieldType) (hmem : (tag, t) ∈ APIStreamInfoObj.fieldTypes)
    (hkey : matchesField key tag = true) (hbad : t.mismatch x = true) :
    APIStreamInfoObj.store cur key x = none := by
  have hk : foldName key = foldName tag := by simpa [matchesField] using hkey
  simp only [APIStreamInfoObj.fieldTypes, List.mem_cons, Prod.mk.injEq, List.mem_nil_iff,
    or_false] at hmem
  rcases hmem with ⟨rfl, rfl⟩ | ⟨rfl, rfl⟩ | ⟨rfl, rfl⟩ | ⟨rfl, rfl⟩ | ⟨rfl, rfl⟩ | ⟨rfl, rfl⟩ |
    ⟨rfl, rfl⟩ | ⟨rfl, rfl⟩ | ⟨rfl, rfl⟩ | ⟨rfl, rfl⟩ | ⟨rfl, rfl⟩ | ⟨rfl, rfl⟩
  all_goals
    unfold APIStreamInfoObj.store
    simp only [matchesField, hk]
    cases x <;>
      first
      | rfl
      | simp [FieldType.mismatch, FieldType.accepts, Json.isNull] at hbad

/-- A member that is stored into a field of `APIRtpServerObj` and has a type other than
the declared one makes the store fail. -/
theorem APIRtpServerObj_store_mismatch (cur : APIRtpServerObj) (key : String) (x : Json)
    (tag : String) (t : FieldType) (hmem : (tag, t) ∈ APIRtpServerObj.fieldTypes)
    (hkey : matchesField key tag = true) (hbad : t.mismatch x = true) :
    APIRtpServerObj.store cur key x = none := by
  have hk : foldName key = foldName tag := by simpa [matchesField] using hkey
  simp only [APIRtpServerObj.fieldTypes, List.mem_cons, Prod.mk.injEq, List.mem_nil_iff,
    or_false] at hmem
  rcases hmem with ⟨rfl, rfl⟩ | ⟨rfl, rfl⟩
  all_goals
    unfold APIRtpServerObj.store
    simp only [matchesField, hk]
    cases x <;>
      first
      | rfl
      | simp [FieldType.mismatch, FieldType.accepts, Json.isNull] at hbad

/-- A value that does not fit a struct does not decode into it. -/
theorem decodeStruct_mismatch {α : Type} (store : α → String → Json → Option α)
    (fields : List (String × FieldType))
    (hstore : ∀ cur key x tag t, (tag, t) ∈ fields → matchesField key tag = true →
      FieldType.mismatch t x = true → store cur key x = none)
    (v : Json) (hv : structMismatch fields v) (cur : α) :
    decodeStruct store cur v = none := by
  rcases hv with ⟨hn, ho⟩ | ⟨members, key, x, tag, t, rfl, hmem, hf, hk, hb⟩
  · cases v <;> first | rfl | simp [Json.isNull, Json.isObj] at hn ho
  · simp only [decodeStruct]
    exact foldlM_none_of_mem (fun acc (kv : String × Json) => store acc kv.1 kv.2) (key, x)
      (fun b => hstore b key x tag t hf hk hb) members hmem cur

/-- A traversal in `Option` of a list holding a member on which the step fails, fails. -/
theorem mapM_none_of_mem {α β : Type} (f : α → Option β) (x : α) (hx : f x = none) :
    ∀ l : List α, x ∈ l → l.mapM f = none := by
  intro l
  induction l with
  | nil => intro h; cases h
  | cons a l ih =>
    intro h
    rw [List.mapM_cons]
    rcases List.mem_cons.mp h with rfl | h
    · simp [hx]
    · cases hfa : f a with
      | none => rfl
      | some b =>
        rw [ih h]
        rfl

/-- A value that does not fit a slice does not decode into it. -/
theorem decodeSlice_mismatch {α : Type} (zero : α) (decodeElem : α → Json → Option α)
    (bad : Json → Prop) (hbad : ∀ x, bad x → decodeElem zero x = none)
    (v : Json) (hv : sliceMismatch bad v) :
    decodeSlice zero decodeElem v = none := by
  rcases hv with ⟨hn, ha⟩ | ⟨elems, x, rfl, hmem, hx⟩
  · cases v <;> first | rfl | simp [Json.isNull, Json.isArr] at hn ha
  · simp only [decodeSlice]
    exact mapM_none_of_mem _ x (hbad x hx) elems hmem

/-- A body whose payload does not fit the payload type of a source: the `processFunc` of
the source sends nothing and returns the decoding error of its endpoint. -/
theorem Source.processFunc_mismatch (ParseFloat : String → Option Float64) (s : Source)
    (members : List (String × Json)) (dataKey : String) (v : Json)
    (hdata : (dataKey, v) ∈ members) (hdk : matchesField dataKey "data" = true)
    (hbad : s.payloadMismatch v) :
    s.processFunc ParseFloat (some (.obj members))
      = .ok ([], some (.decoding s.endpoint)) := by
  cases s
  · have hdec := Decode_none_of_data APIVersionObj.zero decodeAPIVersionObj members dataKey v
      hdata hdk (fun cur => decodeStruct_mismatch _ _ APIVersionObj_store_mismatch v hbad cur)
    simp [Source.processFunc, Source.endpoint, extractVersion.processFunc, processAPIResponse,
      hdec, pure, Except.pure]
  · have hdec := Decode_none_of_data [] decodeStringSlice members dataKey v hdata hdk
      (fun _ => decodeSlice_mismatch _ _ _ (fun x hx => decodeString_mismatch "" x hx) v hbad)
    simp [Source.processFunc, Source.endpoint, extractAPIStatus.processFunc,
      processAPIResponse, hdec, pure, Except.pure]
  · have hdec := Decode_none_of_data [] decodeAPINetworkThreadsObjs members dataKey v hdata hdk
      (fun _ => decodeSlice_mismatch _ _ _ (fun x hx =>
        decodeStruct_mismatch _ _ APINetworkThreadsObj_store_mismatch x hx _) v hbad)
    simp [Source.processFunc, Source.endpoint, extractNetworkThreads.processFunc,
      processAPIResponse, hdec, pure, Except.pure]
  · have hdec := Decode_none_of_data [] decodeAPIWorkThreadsObjs members dataKey v hdata hdk
      (fun _ => decodeSlice_mismatch _ _ _ (fun x hx =>
        decodeStruct_mismatch _ _ APIWorkThreadsObj_store_mismatch x hx _) v hbad)
    simp [Source.processFunc, Source.endpoint, extractWorkThreads.processFunc,
      processAPIResponse, hdec, pure, Except.pure]
  · have hdec := Decode_none_of_data APIStatisticsObj.zero decodeAPIStatisticsObj members
      dataKey v hdata hdk
      (fun cur => decodeStruct_mismatch _ _ APIStatisticsObj_store_mismatch v hbad cur)
    simp [Source.processFunc, Source.endpoint, extractStatistics.processFunc,
      processAPIResponse, hdec, pure, Except.pure]
  · have hdec := Decode_none_of_data [] decodeAPISessionObjs members dataKey v hdata hdk
      (fun _ => decodeSlice_mismatch _ _ _ (fun x hx =>
        decodeStruct_mismatch _ _ APISessionObj_store_mismatch x hx _) v hbad)
    simp [Source.processFunc, Source.endpoint, extractSession.processFunc,
      processAPIResponse, hdec, pure, Except.pure]
  · have hdec := Decode_none_of_data [] decodeAPIStreamInfoObjs members dataKey v hdata hdk
      (fun _ => decodeSlice_mismatch _ _ _ (fun x hx =>
        decodeStruct_mismatch _ _ APIStreamInfoObj_store_mismatch x hx _) v hbad)
    simp [Source.processFunc, Source.endpoint, extractStream.processFunc,
      processAPIResponse, hdec, pure, Except.pure]
  · have hdec := Decode_none_of_data [] decodeAPIRtpServerObjs members dataKey v hdata hdk
      (fun _ => decodeSlice_mismatch _ _ _ (fun x hx =>
        decodeStruct_mismatch _ _ APIRtpServerObj_store_mismatch x hx _) v hbad)
    simp [Source.processFunc, Source.endpoint, extractRtp.processFunc,
      processAPIResponse, hdec, pure, Except.pure]

/-- C11, as stated, fails on the code: for the version body with status code 0 whose
`buildTime` is `null`, a JSON type other than the declared string, decoding succeeds: the
version sample is sent, with an empty build time, and no error is counted. -/
theorem extractVersion_null_field_counterexample :
    (extractVersion exampleExporter (answering (okBodyWith (versionPayloadWith .null)))
        (fun _ => 0)).toOption.map
      (fun t => (t.sent, t.scrapeErrors ZlmAPIEndpointVersion))
      = some ([some { desc := ZLMediaKitInfo, value := 1,
                      labelValues := ["master", "", "abc123"] }], 0) := by
  decide

/-- C11, amended: for every source transformer, when a payload field arrives with a JSON
type that is neither the declared one nor `null` (the payload itself, an element of a
slice payload, or a member stored into a struct field), decoding fails: the transformer
sends no metric and the error counter of its endpoint increases by exactly 1, the other
counters being unchanged. -/
theorem transformer_type_mismatch (ParseFloat : String → Option Float64) (e : Exporter)
    (net : Transport) (errs : Counters) (s : Source) (members : List (String × Json))
    (dataKey : String) (v : Json)
    (hparse : net.urlParse (e.scrapeURI ++ "/" ++ s.endpoint) = true)
    (hdo : net.Do e.client (e.request s.endpoint) = .response (some (.obj members)))
    (hdata : (dataKey, v) ∈ members) (hdk : matchesField dataKey "data" = true)
    (hbad : s.payloadMismatch v) :
    ∃ t, s.extract ParseFloat e net errs = .ok t ∧ t.returned = true ∧ t.sent = [] ∧
      t.scrapeErrors s.endpoint = errs s.endpoint + 1 ∧
      ∀ l, l ≠ s.endpoint → t.scrapeErrors l = errs l := by
  have hp := Source.processFunc_mismatch ParseFloat s members dataKey v hdata hdk hbad
  refine ⟨{ returned := true, sent := [], scrapeErrors := errs.inc s.endpoint }, ?_, rfl, rfl,
    ?_, ?_⟩
  · rw [Source.extract_eq, fetchHTTP_response e net errs _ _ _ _ _ hparse hdo hp]
    rfl
  · simp [Counters.inc]
  · intro l hl
    simp [Counters.inc, hl]

/-- C11, amended, at the three bodies of the claim: the version payload with a number as
build time, an object as api-list payload and a string as thread-load payload. -/
theorem transformer_type_mismatch_witness :
    (∃ t, Source.version.extract exampleParseFloat exampleExporter
        (answering (okBodyWith (versionPayloadWith (.num (JNumber.ofInt 20220101)))))
        (fun _ => 0) = .ok t ∧ t.returned = true ∧ t.sent = [] ∧
      t.scrapeErrors Source.version.endpoint = 0 + 1 ∧
      ∀ l, l ≠ Source.version.endpoint → t.scrapeErrors l = 0) ∧
    (∃ t, Source.apiStatus.extract exampleParseFloat exampleExporter
        (answering (okBodyWith (.obj []))) (fun _ => 0) = .ok t ∧ t.returned = true ∧
      t.sent = [] ∧ t.scrapeErrors Source.apiStatus.endpoint = 0 + 1 ∧
      ∀ l, l ≠ Source.apiStatus.endpoint → t.scrapeErrors l = 0) ∧
    (∃ t, Source.networkThreads.extract exampleParseFloat exampleExporter
        (answering (okBodyWith (.str "invalid"))) (fun _ => 0) = .ok t ∧ t.returned = true ∧
      t.sent = [] ∧ t.scrapeErrors Source.networkThreads.endpoint = 0 + 1 ∧
      ∀ l, l ≠ Source.networkThreads.endpoint → t.scrapeErrors l = 0) :=
  ⟨transformer_type_mismatch exampleParseFloat exampleExporter
      (answering (okBodyWith (versionPayloadWith (.num (JNumber.ofInt 20220101)))))
      (fun _ => 0) .version _ "data" (versionPayloadWith (.num (JNumber.ofInt 20220101)))
      rfl rfl (List.Mem.tail _ (List.Mem.tail _ (List.Mem.head _))) (by decide)
      (Or.inr ⟨_, "buildTime", .num (JNumber.ofInt 20220101), "buildTime", .string, rfl,
        List.Mem.tail _ (List.Mem.head _), by decide, by decide, by decide⟩),
   transformer_type_mismatch exampleParseFloat exampleExporter
      (answering (okBodyWith (.obj []))) (fun _ => 0) .apiStatus _ "data" (.obj [])
      rfl rfl (List.Mem.tail _ (List.Mem.tail _ (List.Mem.head _))) (by decide)
      (Or.inl ⟨rfl, rfl⟩),
   transformer_type_mismatch exampleParseFloat exampleExporter
      (answering (okBodyWith (.str "invalid"))) (fun _ => 0) .networkThreads _ "data"
      (.str "invalid")
      rfl rfl (List.Mem.tail _ (List.Mem.tail _ (List.Mem.head _))) (by decide)
      (Or.inl ⟨rfl, rfl⟩)⟩


/-! ## Secret masking and TLS, evaluated -/

/-- C21, evaluated on the code: the secret `ééé` has three characters and six bytes;
`maskSecret` does not return `****` but `é****é`, which shows the first and the last
character of the secret. -/
theorem maskSecret_multibyte :
    "ééé".length = 3 ∧ (goBytes "ééé").length = 6 ∧
    maskSecret (goBytes "ééé") = goBytes "é****é" ∧
    maskSecret (goBytes "ééé") ≠ goBytes "****" := by
  decide

/-- C22, evaluated on the code: with `SSLVerify` true the client `NewExporter` builds has a
transport with `InsecureSkipVerify` set, so the certificate is not verified; with
`SSLVerify` false the client keeps the default transport, which verifies it. -/
theorem NewExporter_ssl_verify_inverted :
    (NewExporter "https://zlm.example" "secret" { SSLVerify := true }).toOption.map
        (fun e => e.client.Transport) = some (some { InsecureSkipVerify := true }) ∧
    (NewExporter "https://zlm.example" "secret" { SSLVerify := false }).toOption.map
        (fun e => e.client.Transport) = some none := by
  decide

/-! ## Thread loads -/

/-- The accumulation of the network-threads loop from any start: the loads and the delays
are added to the start values one record after the other, and the count goes up by one
for each record. -/
theorem extractNetworkThreads_loop_eq (data : List APINetworkThreadsObj) :
    ∀ l d n : Float64, extractNetworkThreads.loop data (l, d, n)
      = ((data.map (fun r => r.Load)).foldl (fun acc x => acc + x) l,
         (data.map (fun r => r.Delay)).foldl (fun acc x => acc + x) d,
         (data.map (fun _ => (1 : Float64))).foldl (fun acc x => acc + x) n) := by
  induction data with
  | nil => intro l d n; rfl
  | cons r rest ih =>
    intro l d n
    simp only [extractNetworkThreads.loop, ih, List.map_cons, List.foldl_cons]

/-- The accumulation of the work-threads loop from any start. -/
theorem extractWorkThreads_loop_eq (data : List APIWorkThreadsObj) :
    ∀ l d n : Float64, extractWorkThreads.loop data (l, d, n)
      = ((data.map (fun r => r.Load)).foldl (fun acc x => acc + x) l,
         (data.map (fun r => r.Delay)).foldl (fun acc x => acc + x) d,
         (data.map (fun _ => (1 : Float64))).foldl (fun acc x => acc + x) n) := by
  induction data with
  | nil => intro l d n; rfl
  | cons r rest ih =>
    intro l d n
    simp only [extractWorkThreads.loop, ih, List.map_cons, List.foldl_cons]

/-- The `float64` sum of two natural numbers is their sum, rounded. -/
theorem Float64.add_natCast (a b : Nat) :
    Float64.finite (a : ℚ) + Float64.finite (b : ℚ) = Float64.round ((a + b : Nat) : Int) 1 := by
  show Float64.add (Float64.finite (a : ℚ)) (Float64.finite (b : ℚ)) = _
  simp only [Float64.add, Rat.num_natCast, Rat.den_natCast, Nat.cast_one, mul_one, Nat.cast_add]

/-- One step of a `float64` counter: it goes up by one below `2^53` and stays at `2^53`. -/
theorem Float64.add_one (k : Nat) (h : k ≤ 2 ^ 53) :
    Float64.finite (k : ℚ) + 1 = Float64.finite ((min (k + 1) (2 ^ 53) : Nat) : ℚ) := by
  have h1 : (1 : Float64) = Float64.finite ((1 : Nat) : ℚ) := rfl
  rw [h1, Float64.add_natCast]
  rcases Nat.lt_or_eq_of_le h with hlt | heq
  · rw [Float64.round_natCast (k + 1) hlt, min_eq_left hlt]
  · have e53 : (2 : Nat) ^ 53 = 9007199254740992 := by norm_num
    rw [e53] at heq ⊢
    subst heq
    decide

/-- A `float64` counter that starts at a natural number up to `2^53` and goes up by one
for every element counts the elements, up to `2^53`. -/
theorem Float64.count_eq {α : Type} (data : List α) :
    ∀ k : Nat, k ≤ 2 ^ 53 →
      (data.map (fun _ => (1 : Float64))).foldl (fun acc x => acc + x) (Float64.finite (k : ℚ))
        = Float64.finite ((min (k + data.length) (2 ^ 53) : Nat) : ℚ) := by
  induction data with
  | nil =>
    intro k hk
    simp only [List.map_nil, List.foldl_nil, List.length_nil, Nat.add_zero, min_eq_left hk]
  | cons r rest ih =>
    intro k hk
    simp only [List.map_cons, List.foldl_cons, List.length_cons]
    rw [Float64.add_one k hk, ih _ (min_le_right _ _)]
    congr 2
    generalize (2 : Nat) ^ 53 = B at hk ⊢
    omega

/-- The `float64` sum of natural numbers whose sum is at most `2^53` is that sum: no
addition rounds. -/
theorem Float64.sum_natCast (ks : List Nat) :
    ∀ a : Nat, a + ks.sum ≤ 2 ^ 53 →
      (ks.map (fun (k : Nat) => Float64.finite (k : ℚ))).foldl (fun acc x => acc + x)
          (Float64.finite (a : ℚ))
        = Float64.finite ((a + ks.sum : Nat) : ℚ) := by
  induction ks with
  | nil =>
    intro a _
    simp only [List.map_nil, List.foldl_nil, List.sum_nil, Nat.add_zero]
  | cons k rest ih =>
    intro a ha
    simp only [List.map_cons, List.foldl_cons, List.sum_cons] at ha ⊢
    rw [Float64.add_natCast, Float64.round_natCast (a + k) (by omega), ih (a + k) (by omega)]
    congr 2
    omega

/-- C23: for every thread-load body that decodes with status code 0, `extractNetworkThreads`
and `extractWorkThreads` each send exactly three unlabeled samples, in the order total,
load total, delay total.  The total is the number of records (a `float64` counter, which
stops at `2^53`); the load total and the delay total are the `float64` sums of the loads
and of the delays, added from 0 in payload order with the rounding of every `+=`, and they
are the exact sums whenever the values are natural numbers that add up to at most `2^53`.
The two transformers compute the same function of the loads and delays. -/
theorem extractThreads_samples (body body2 : Body)
    (resp : ZLMAPIResponse APINetworkThreadsObjs) (resp2 : ZLMAPIResponse APIWorkThreadsObjs)
    (h : processAPIResponse ZlmAPIEndpointGetNetworkThreads body []
      decodeAPINetworkThreadsObjs = .ok resp)
    (h2 : processAPIResponse ZlmAPIEndpointGetWorkThreads body2 []
      decodeAPIWorkThreadsObjs = .ok resp2) :
    extractNetworkThreads.processFunc body = .ok
      ([some { desc := NetworkThreadsTotal,
               value := .finite ((min resp.Data.length (2 ^ 53) : Nat) : ℚ),
               labelValues := [] },
        some { desc := NetworkThreadsLoadTotal,
               value := (resp.Data.map (fun r => r.Load)).foldl (fun acc x => acc + x) 0,
               labelValues := [] },
        some { desc := NetworkThreadsDelayTotal,
               value := (resp.Data.map (fun r => r.Delay)).foldl (fun acc x => acc + x) 0,
               labelValues := [] }],
       none) ∧
    extractWorkThreads.processFunc body2 = .ok
      ([some { desc := WorkThreadsTotal,
               value := .finite ((min resp2.Data.length (2 ^ 53) : Nat) : ℚ),
               labelValues := [] },
        some { desc := WorkThreadsLoadTotal,
               value := (resp2.Data.map (fun r => r.Load)).foldl (fun acc x => acc + x) 0,
               labelValues := [] },
        some { desc := WorkThreadsDelayTotal,
               value := (resp2.Data.map (fun r => r.Delay)).foldl (fun acc x => acc + x) 0,
               labelValues := [] }],
       none) ∧
    (resp.Data.length ≤ 2 ^ 53 →
      Float64.finite ((min resp.Data.length (2 ^ 53) : Nat) : ℚ) = float64 resp.Data.length) ∧
    (∀ ks : List Nat, ks.sum ≤ 2 ^ 53 →
      (resp.Data.map (fun r => r.Load) = ks.map (fun (k : Nat) => Float64.finite (k : ℚ)) →
        (resp.Data.map (fun r => r.Load)).foldl (fun acc x => acc + x) 0
          = Float64.finite ((ks.sum : Nat) : ℚ)) ∧
      (resp.Data.map (fun r => r.Delay) = ks.map (fun (k : Nat) => Float64.finite (k : ℚ)) →
        (resp.Data.map (fun r => r.Delay)).foldl (fun acc x => acc + x) 0
          = Float64.finite ((ks.sum : Nat) : ℚ))) ∧
    (resp.Data.map (fun r => (r.Load, r.Delay)) = resp2.Data.map (fun r => (r.Load, r.Delay)) →
      (Float64.finite ((min resp.Data.length (2 ^ 53) : Nat) : ℚ),
          (resp.Data.map (fun r => r.Load)).foldl (fun acc x => acc + x) (0 : Float64),
          (resp.Data.map (fun r => r.Delay)).foldl (fun acc x => acc + x) (0 : Float64))
        = (Float64.finite ((min resp2.Data.length (2 ^ 53) : Nat) : ℚ),
          (resp2.Data.map (fun r => r.Load)).foldl (fun acc x => acc + x) (0 : Float64),
          (resp2.Data.map (fun r => r.Delay)).foldl (fun acc x => acc + x) (0 : Float64))) := by
  have hzero : (0 : Float64) = Float64.finite ((0 : Nat) : ℚ) := rfl
  have hcount : ∀ {α : Type} (data : List α),
      (data.map (fun _ => (1 : Float64))).foldl (fun acc x => acc + x) 0
        = Float64.finite ((min data.length (2 ^ 53) : Nat) : ℚ) := by
    intro α data
    rw [hzero, Float64.count_eq data 0 (Nat.zero_le _), Nat.zero_add]
  have hsum : ∀ (xs : List Float64) (ks : List Nat), ks.sum ≤ 2 ^ 53 →
      xs = ks.map (fun (k : Nat) => Float64.finite (k : ℚ)) →
      xs.foldl (fun acc x => acc + x) 0 = Float64.finite ((ks.sum : Nat) : ℚ) := by
    intro xs ks hks hxs
    rw [hxs, hzero, Float64.sum_natCast ks 0 (by omega), Nat.zero_add]
  refine ⟨?_, ?_, ?_, ?_, ?_⟩
  · simp only [extractNetworkThreads.processFunc, h, extractNetworkThreads_loop_eq, hcount]
    rfl
  · simp only [extractWorkThreads.processFunc, h2, extractWorkThreads_loop_eq, hcount]
    rfl
  · intro hlen
    rw [min_eq_left hlen]
    exact (float64_natCast _ hlen).symm
  · intro ks hks
    exact ⟨hsum _ ks hks, hsum _ ks hks⟩
  · intro hsame
    have hl : resp.Data.map (fun r => r.Load) = resp2.Data.map (fun r => r.Load) := by
      have := congrArg (List.map Prod.fst) hsame
      simpa [List.map_map, Function.comp] using this
    have hd : resp.Data.map (fun r => r.Delay) = resp2.Data.map (fun r => r.Delay) := by
      have := congrArg (List.map Prod.snd) hsame
      simpa [List.map_map, Function.comp] using this
    have hn : resp.Data.length = resp2.Data.length := by
      have := congrArg List.length hsame
      simpa using this
    rw [hl, hd, hn]

/-- C23, at the success body of `TestExtractNetworkThreads`, sent to both transformers: the
values are 2, 300 and 300; at the empty payload: 0, 0 and 0; at the loads 0.1 and 0.2
with the delays 0.5 and 0.25: the load total is the `float64` 0.30000000000000004, which
is not the `float64` nearest to 0.3, and the delay total is 0.75; at two loads of
`2^1023`: the load total is the positive infinity. -/
theorem extractThreads_samples_witness :
    (extractNetworkThreads.processFunc testThreadsBody).toOption.map
        (fun p => p.1.map (fun m => m.map (fun s => (s.value, s.labelValues))))
      = some [some (2, []), some (300, []), some (300, [])] ∧
    (extractWorkThreads.processFunc testThreadsBody).toOption.map
        (fun p => p.1.map (fun m => m.map (fun s => (s.value, s.labelValues))))
      = some [some (2, []), some (300, []), some (300, [])] ∧
    (extractNetworkThreads.processFunc (okBodyWith (.arr []))).toOption.map
        (fun p => p.1.map (fun m => m.map (fun s => (s.value, s.labelValues))))
      = some [some (0, []), some (0, []), some (0, [])] ∧
    (extractNetworkThreads.processFunc fractionThreadsBody).toOption.map
        (fun p => p.1.map (fun m => m.map (fun s => (s.value, s.labelValues))))
      = some [some (2, []),
          some (.finite (mkRat 1351079888211149 4503599627370496), []),
          some (.finite (mkRat 3 4), [])] ∧
    Float64.finite (mkRat 1351079888211149 4503599627370496) ≠ Float64.round 3 10 ∧
    (extractWorkThreads.processFunc hugeThreadsBody).toOption.map
        (fun p => p.1.map (fun m => m.map (fun s => (s.value, s.labelValues))))
      = some [some (2, []), some (.posInf, []), some (0, [])] := by
  have hw := extractThreads_samples testThreadsBody testThreadsBody
    { Code := 0, Msg := "success",
      Data := [{ Load := 100, Delay := 100 }, { Load := 200, Delay := 200 }] }
    { Code := 0, Msg := "success",
      Data := [{ Load := 100, Delay := 100 }, { Load := 200, Delay := 200 }] } rfl rfl
  have he := extractThreads_samples (okBodyWith (.arr [])) testThreadsBody
    { Code := 0, Msg := "success", Data := [] }
    { Code := 0, Msg := "success",
      Data := [{ Load := 100, Delay := 100 }, { Load := 200, Delay := 200 }] } rfl rfl
  refine ⟨?_, ?_, ?_, by decide, by decide, by decide⟩
  · rw [hw.1]; decide
  · rw [hw.2.1]; decide
  · rw [he.1]; decide

/-! ## The dynamic-value constructor and the streams key -/

/-- C25: `mustNewConstMetric`, on a descriptor and label values of the same arity: a
`float64` value gives the sample with that value; a string gives a sample, never nil, with
the value `ParseFloat` returns for it, or 1 when `ParseFloat` returns an error; a value of
any other type gives the nil metric. -/
theorem mustNewConstMetric_spec (ParseFloat : String → Option Float64) (desc : Desc)
    (labelValues : List String) (h : labelValues.length = desc.variableLabels.length) :
    (∀ v : Float64, mustNewConstMetric ParseFloat desc (.float64 v) labelValues
      = .ok (some { desc := desc, value := v, labelValues := labelValues })) ∧
    (∀ s : String, mustNewConstMetric ParseFloat desc (.string s) labelValues
      = .ok (some { desc := desc, value := (ParseFloat s).getD 1,
                    labelValues := labelValues })) ∧
    mustNewConstMetric ParseFloat desc .other labelValues = .ok none := by
  refine ⟨?_, ?_, rfl⟩
  · intro v
    simp [mustNewConstMetric, MustNewConstMetric, h, bind, Except.bind, pure, Except.pure]
  · intro s
    cases hs : ParseFloat s <;>
      simp [mustNewConstMetric, MustNewConstMetric, h, hs, bind, Except.bind, pure,
        Except.pure]

/-- C25, at the four values of `TestMustNewConstMetric`. -/
theorem mustNewConstMetric_spec_witness :
    mustNewConstMetric exampleParseFloat testMetricDesc (.float64 (Float64.round 12345 100))
        ["test_label"]
      = .ok (some { desc := testMetricDesc, value := Float64.round 12345 100,
                    labelValues := ["test_label"] }) ∧
    mustNewConstMetric exampleParseFloat testMetricDesc (.string "123.45") ["test_label"]
      = .ok (some { desc := testMetricDesc, value := Float64.round 12345 100,
                    labelValues := ["test_label"] }) ∧
    mustNewConstMetric exampleParseFloat testMetricDesc (.string "abc") ["test_label"]
      = .ok (some { desc := testMetricDesc, value := 1, labelValues := ["test_label"] }) ∧
    mustNewConstMetric exampleParseFloat testMetricDesc .other ["test_label"] = .ok none :=
  ⟨(mustNewConstMetric_spec exampleParseFloat testMetricDesc ["test_label"] rfl).1 _,
   (mustNewConstMetric_spec exampleParseFloat testMetricDesc ["test_label"] rfl).2.1 "123.45",
   (mustNewConstMetric_spec exampleParseFloat testMetricDesc ["test_label"] rfl).2.1 "abc",
   (mustNewConstMetric_spec exampleParseFloat testMetricDesc ["test_label"] rfl).2.2⟩

/-- Two lists that are cut at a separator absent from their first parts have the same
parts. -/
theorem append_cons_unique {α : Type} (c : α) :
    ∀ (l1 l2 r1 r2 : List α), c ∉ l1 → c ∉ l2 → l1 ++ c :: r1 = l2 ++ c :: r2 →
      l1 = l2 ∧ r1 = r2 := by
  intro l1
  induction l1 with
  | nil =>
    intro l2 r1 r2 _ h2 h
    cases l2 with
    | nil => exact ⟨rfl, by simpa using h⟩
    | cons b l2 =>
      simp only [List.nil_append, List.cons_append, List.cons.injEq] at h
      exact absurd (h.1 ▸ List.mem_cons_self _ _) h2
  | cons a l1 ih =>
    intro l2 r1 r2 h1 h2 h
    cases l2 with
    | nil =>
      simp only [List.nil_append, List.cons_append, List.cons.injEq] at h
      exact absurd (h.1 ▸ List.mem_cons_self _ _) h1
    | cons b l2 =>
      simp only [List.cons_append, List.cons.injEq] at h
      obtain ⟨hl, hr⟩ := ih l2 r1 r2 (fun hm => h1 (List.mem_cons_of_mem _ hm))
        (fun hm => h2 (List.mem_cons_of_mem _ hm)) h.2
      exact ⟨by rw [h.1, hl], hr⟩

/-- The characters of the key of a record. -/
theorem streamKey_data (r : APIStreamInfoObj) :
    (streamKey r).data = r.Vhost.data ++ '_' :: (r.App.data ++ '_' :: r.Stream.data) := by
  simp [streamKey, String.data_append]

/-- C26: on records whose vhost and app contain no underscore the de-duplication key is
injective: the keys of two such records are equal exactly when their (vhost, app, stream)
triples are equal; and the two records of `collidingStreams`, which contain underscores,
have different triples and the same key. -/
theorem streamKey_injective (r r2 : APIStreamInfoObj)
    (hv : '_' ∉ r.Vhost.data) (ha : '_' ∉ r.App.data)
    (hv2 : '_' ∉ r2.Vhost.data) (ha2 : '_' ∉ r2.App.data) :
    (streamKey r = streamKey r2 ↔
      (r.Vhost, r.App, r.Stream) = (r2.Vhost, r2.App, r2.Stream)) ∧
    (collidingStreams.map (fun x => (x.Vhost, x.App, x.Stream))).Nodup ∧
    collidingStreams.map streamKey
      = ["__defaultVhost___live_a_b", "__defaultVhost___live_a_b"] := by
  refine ⟨⟨?_, ?_⟩, by decide, by decide⟩
  · intro h
    have hd := congrArg String.data h
    rw [streamKey_data, streamKey_data] at hd
    obtain ⟨h1, hrest⟩ := append_cons_unique '_' _ _ _ _ hv hv2 hd
    obtain ⟨h2, h3⟩ := append_cons_unique '_' _ _ _ _ ha ha2 hrest
    have e1 : r.Vhost = r2.Vhost := String.ext h1
    have e2 : r.App = r2.App := String.ext h2
    have e3 : r.Stream = r2.Stream := String.ext h3
    rw [e1, e2, e3]
  · intro h
    simp only [Prod.mk.injEq] at h
    obtain ⟨e1, e2, e3⟩ := h
    simp [streamKey, e1, e2, e3]

/-- C26, at two records without underscores in vhost and app, `a/b/c_d` and `a/b/c`: the
keys differ, as the triples do. -/
theorem streamKey_injective_witness :
    (streamKey (streamRecord "a" "b" "c_d" "rtmp" 0) = streamKey (streamRecord "a" "b" "c" "rtmp" 0)
      ↔ (("a", "b", "c_d") : String × String × String) = ("a", "b", "c")) ∧
    (collidingStreams.map (fun x => (x.Vhost, x.App, x.Stream))).Nodup ∧
    collidingStreams.map streamKey
      = ["__defaultVhost___live_a_b", "__defaultVhost___live_a_b"] :=
  streamKey_injective (streamRecord "a" "b" "c_d" "rtmp" 0) (streamRecord "a" "b" "c" "rtmp" 0)
    (by decide) (by decide) (by decide) (by decide)


/-! ## Label arity -/

/-- Every sample `MustNewConstMetric` returns has as many label values as its descriptor
has label names. -/
theorem MustNewConstMetric_arity (desc : Desc) (value : Float64) (labelValues : List String)
    (x : Sample) (h : MustNewConstMetric desc value labelValues = .ok x) :
    x.labelValues.length = x.desc.variableLabels.length := by
  unfold MustNewConstMetric at h
  split_ifs at h with hl
  · have hx := Except.ok.inj h
    subst hx
    exact hl

/-- The streams loop never panics and sends samples of matching arity only. -/
theorem loop_arity (data : List APIStreamInfoObj) :
    ∀ keys : List String, ∃ out keysEnd, extractStream.loop data keys = .ok (out, keysEnd) ∧
      ∀ x : Sample, some x ∈ out → x.labelValues.length = x.desc.variableLabels.length := by
  induction data with
  | nil =>
    intro keys
    exact ⟨[], keys, rfl, fun x hx => by cases hx⟩
  | cons stream rest ih =>
    intro keys
    obtain ⟨later, keysEnd, hrun, hlater⟩ :=
      ih (if streamKey stream ∈ keys then keys else keys ++ [streamKey stream])
    refine ⟨_, keysEnd, loop_cons stream rest keys later keysEnd hrun, ?_⟩
    intro x hx
    rcases List.mem_append.mp hx with hx | hx
    · rcases List.mem_append.mp hx with hx | hx
      · by_cases hk : streamKey stream ∈ keys
        · simp [hk] at hx
        · simp only [hk, if_false, List.mem_singleton, Option.some.injEq] at hx
          subst hx
          rfl
      · simp only [List.mem_cons, Option.some.injEq, List.mem_nil_iff, or_false] at hx
        rcases hx with rfl | rfl | rfl | rfl | rfl | rfl <;> rfl
    · exact hlater x hx

/-- C24: for every body, every `processFunc` of the eight transformers returns without a
panic, and every sample it has sent carries as many label values as the descriptor it
references declares label names. -/
theorem emissions_arity (ParseFloat : String → Option Float64) (s : Source) (body : Body) :
    ∃ sent err, s.processFunc ParseFloat body = .ok (sent, err) ∧
      ∀ x : Sample, some x ∈ sent → x.labelValues.length = x.desc.variableLabels.length := by
  cases s
  · simp only [Source.processFunc, extractVersion.processFunc]
    cases processAPIResponse ZlmAPIEndpointVersion body APIVersionObj.zero decodeAPIVersionObj
      with
    | error err => exact ⟨[], some err, rfl, fun x hx => by cases hx⟩
    | ok resp =>
      refine ⟨[some ⟨ZLMediaKitInfo, 1,
          [resp.Data.BranchName, resp.Data.BuildTime, resp.Data.CommitHash]⟩],
        none, ?_, ?_⟩
      · simp [MustNewConstMetric, ZLMediaKitInfo, newMetricDescr, bind, Except.bind, pure,
          Except.pure]
      · intro x hx
        simp only [List.mem_singleton, Option.some.injEq] at hx
        subst hx
        rfl
  · simp only [Source.processFunc, extractAPIStatus.processFunc]
    cases processAPIResponse ZlmAPIEndpointGetApiList body [] decodeStringSlice with
    | error err => exact ⟨[], some err, rfl, fun x hx => by cases hx⟩
    | ok resp =>
      refine ⟨resp.Data.map (fun endpoint =>
          some ⟨ApiStatus, 1, [endpoint]⟩), none, ?_, ?_⟩
      · simp [extractAPIStatus_loop_eq, bind, Except.bind, pure, Except.pure]
      · intro x hx
        obtain ⟨ep, -, hep⟩ := List.mem_map.mp hx
        have hxe := Option.some.inj hep
        subst hxe
        rfl
  · simp only [Source.processFunc, extractNetworkThreads.processFunc]
    cases processAPIResponse ZlmAPIEndpointGetNetworkThreads body []
      decodeAPINetworkThreadsObjs with
    | error err => exact ⟨[], some err, rfl, fun x hx => by cases hx⟩
    | ok resp =>
      refine ⟨[some ⟨NetworkThreadsTotal,
            (extractNetworkThreads.loop resp.Data (0, 0, 0)).2.2, []⟩,
          some ⟨NetworkThreadsLoadTotal,
            (extractNetworkThreads.loop resp.Data (0, 0, 0)).1, []⟩,
          some ⟨NetworkThreadsDelayTotal,
            (extractNetworkThreads.loop resp.Data (0, 0, 0)).2.1, []⟩], none, ?_, ?_⟩
      · simp [MustNewConstMetric, NetworkThreadsTotal, NetworkThreadsLoadTotal,
          NetworkThreadsDelayTotal, newMetricDescr, bind, Except.bind, pure, Except.pure]
      · intro x hx
        simp only [List.mem_cons, Option.some.injEq, List.mem_nil_iff, or_false] at hx
        rcases hx with rfl | rfl | rfl <;> rfl
  · simp only [Source.processFunc, extractWorkThreads.processFunc]
    cases processAPIResponse ZlmAPIEndpointGetWorkThreads body [] decodeAPIWorkThreadsObjs with
    | error err => exact ⟨[], some err, rfl, fun x hx => by cases hx⟩
    | ok resp =>
      refine ⟨[some ⟨WorkThreadsTotal,
            (extractWorkThreads.loop resp.Data (0, 0, 0)).2.2, []⟩,
          some ⟨WorkThreadsLoadTotal,
            (extractWorkThreads.loop resp.Data (0, 0, 0)).1, []⟩,
          some ⟨WorkThreadsDelayTotal,
            (extractWorkThreads.loop resp.Data (0, 0, 0)).2.1, []⟩], none, ?_, ?_⟩
      · simp [MustNewConstMetric, WorkThreadsTotal, WorkThreadsLoadTotal,
          WorkThreadsDelayTotal, newMetricDescr, bind, Except.bind, pure, Except.pure]
      · intro x hx
        simp only [List.mem_cons, Option.some.injEq, List.mem_nil_iff, or_false] at hx
        rcases hx with rfl | rfl | rfl <;> rfl
  · simp only [Source.processFunc, extractStatistics.processFunc]
    cases processAPIResponse ZlmAPIEndpointGetStatistics body APIStatisticsObj.zero
      decodeAPIStatisticsObj with
    | error err => exact ⟨[], some err, rfl, fun x hx => by cases hx⟩
    | ok resp =>
      refine ⟨_, none, by
        dsimp only
        rw [extractStatistics_publish_eq]
        rfl, ?_⟩
      intro x hx
      simp only [List.mem_cons, Option.some.injEq, List.mem_nil_iff, or_false] at hx
      rcases hx with rfl | rfl | rfl | rfl | rfl | rfl | rfl | rfl | rfl | rfl | rfl | rfl |
        rfl | rfl | rfl | rfl <;> rfl
  · simp only [Source.processFunc, extractSession.processFunc]
    cases processAPIResponse ZlmAPIEndpointGetAllSession body [] decodeAPISessionObjs with
    | error err => exact ⟨[], some err, rfl, fun x hx => by cases hx⟩
    | ok resp =>
      refine ⟨resp.Data.map (fun v =>
          some ⟨SessionInfo, 1, [v.Id, v.Identifier, v.LocalIp, Itoa v.LocalPort, v.PeerIp,
            Itoa v.PeerPort, v.TypeID]⟩) ++
          [some ⟨SessionTotal, float64 resp.Data.length, []⟩],
        none, ?_, ?_⟩
      · simp [extractSession_loop_eq, MustNewConstMetric, SessionTotal, newMetricDescr, bind,
          Except.bind, pure, Except.pure]
      · intro x hx
        rcases List.mem_append.mp hx with hx | hx
        · obtain ⟨v, -, hv⟩ := List.mem_map.mp hx
          have hxe := Option.some.inj hv
          subst hxe
          rfl
        · simp only [List.mem_singleton, Option.some.injEq] at hx
          subst hx
          rfl
  · simp only [Source.processFunc, extractStream.processFunc]
    cases processAPIResponse ZlmAPIEndpointGetMediaList body [] decodeAPIStreamInfoObjs with
    | error err => exact ⟨[], some err, rfl, fun x hx => by cases hx⟩
    | ok resp =>
      obtain ⟨out, keysEnd, hrun, hpub, -⟩ := publish_spec resp.Data
      obtain ⟨out2, keysEnd2, hrun2, harity⟩ := loop_arity resp.Data []
      rw [hrun] at hrun2
      obtain ⟨rfl, rfl⟩ : out = out2 ∧ keysEnd = keysEnd2 := by simpa using hrun2
      refine ⟨_, none, by
        dsimp only
        rw [hpub]
        rfl, ?_⟩
      intro x hx
      rcases List.mem_append.mp hx with hx | hx
      · exact harity x hx
      · simp only [List.mem_singleton, Option.some.injEq] at hx
        subst hx
        rfl
  · simp only [Source.processFunc, extractRtp.processFunc]
    cases processAPIResponse ZlmAPIEndpointListRtpServer body [] decodeAPIRtpServerObjs with
    | error err => exact ⟨[], some err, rfl, fun x hx => by cases hx⟩
    | ok resp =>
      refine ⟨resp.Data.map (fun v =>
          some ⟨RtpServerInfo, 1, [v.Port, v.StreamID]⟩) ++
          [some ⟨RtpServerTotal, float64 resp.Data.length, []⟩], none, ?_, ?_⟩
      · simp [extractRtp_loop_eq, MustNewConstMetric, RtpServerTotal, newMetricDescr, bind,
          Except.bind, pure, Except.pure]
      · intro x hx
        rcases List.mem_append.mp hx with hx | hx
        · obtain ⟨v, -, hv⟩ := List.mem_map.mp hx
          have hxe := Option.some.inj hv
          subst hxe
          rfl
        · simp only [List.mem_singleton, Option.some.injEq] at hx
          subst hx
          rfl

/-! ## Bodies without a status code -/

/-- A member whose key is not `code` leaves the `Code` field of the envelope as it was. -/
theorem ZLMAPIResponse.store_keeps_code {T : Type} (decodeData : T → Json → Option T)
    (cur r : ZLMAPIResponse T) (key : String) (v : Json)
    (hk : matchesField key "code" = false)
    (h : ZLMAPIResponse.store decodeData cur key v = some r) : r.Code = cur.Code := by
  unfold ZLMAPIResponse.store at h
  simp only [hk, Bool.false_eq_true, if_false] at h
  split_ifs at h
  · obtain ⟨m, -, rfl⟩ := Option.map_eq_some'.mp h
    rfl
  · obtain ⟨d, -, rfl⟩ := Option.map_eq_some'.mp h
    rfl
  · cases h
    rfl

/-- Members none of which is keyed `code` leave the `Code` field of the envelope as it was. -/
theorem foldlM_keeps_code {T : Type} (decodeData : T → Json → Option T)
    (members : List (String × Json)) :
    ∀ cur r : ZLMAPIResponse T, (∀ kv ∈ members, matchesField kv.1 "code" = false) →
      members.foldlM (fun acc kv => ZLMAPIResponse.store decodeData acc kv.1 kv.2) cur = some r →
      r.Code = cur.Code := by
  induction members with
  | nil =>
    intro cur r _ h
    cases h
    rfl
  | cons kv rest ih =>
    intro cur r hno h
    rw [List.foldlM_cons] at h
    cases hs : ZLMAPIResponse.store decodeData cur kv.1 kv.2 with
    | none =>
      rw [hs] at h
      cases h
    | some mid =>
      rw [hs] at h
      have hrest := ih mid r (fun kv2 hkv => hno kv2 (List.mem_cons_of_mem _ hkv)) h
      rw [hrest]
      exact ZLMAPIResponse.store_keeps_code decodeData cur mid kv.1 kv.2
        (hno kv (List.mem_cons_self _ _)) hs

/-- An envelope that decodes with the success code makes `processAPIResponse` return it. -/
theorem processAPIResponse_ok {T : Type} (endpoint : String) (body : Body) (zero : T)
    (decodeData : T → Json → Option T) (r : ZLMAPIResponse T)
    (hd : Decode zero decodeData body = some r) (hc : r.Code = 0) :
    processAPIResponse endpoint body zero decodeData = .ok r := by
  simp [processAPIResponse, hd, hc, ZlmAPISuccessCode]

/-- An envelope that decodes with the success code makes the processing function of the
source return without an error. -/
theorem Source.processFunc_ok (ParseFloat : String → Option Float64) (s : Source)
    (body : Body) (h : s.envelopeCode body = some 0) :
    ∃ sent, s.processFunc ParseFloat body = .ok (sent, none) := by
  cases s
  · simp only [Source.envelopeCode, Option.map_eq_some'] at h
    obtain ⟨r, hd, hc⟩ := h
    simp only [Source.processFunc, extractVersion.processFunc,
      processAPIResponse_ok _ body _ _ r hd hc]
    simp [MustNewConstMetric, ZLMediaKitInfo, newMetricDescr, bind, Except.bind, pure,
      Except.pure]
  · simp only [Source.envelopeCode, Option.map_eq_some'] at h
    obtain ⟨r, hd, hc⟩ := h
    simp only [Source.processFunc, extractAPIStatus.processFunc,
      processAPIResponse_ok _ body _ _ r hd hc]
    simp [extractAPIStatus_loop_eq, bind, Except.bind, pure, Except.pure]
  · simp only [Source.envelopeCode, Option.map_eq_some'] at h
    obtain ⟨r, hd, hc⟩ := h
    simp only [Source.processFunc, extractNetworkThreads.processFunc,
      processAPIResponse_ok _ body _ _ r hd hc]
    simp [MustNewConstMetric, NetworkThreadsTotal, NetworkThreadsLoadTotal,
      NetworkThreadsDelayTotal, newMetricDescr, bind, Except.bind, pure, Except.pure]
  · simp only [Source.envelopeCode, Option.map_eq_some'] at h
    obtain ⟨r, hd, hc⟩ := h
    simp only [Source.processFunc, extractWorkThreads.processFunc,
      processAPIResponse_ok _ body _ _ r hd hc]
    simp [MustNewConstMetric, WorkThreadsTotal, WorkThreadsLoadTotal,
      WorkThreadsDelayTotal, newMetricDescr, bind, Except.bind, pure, Except.pure]
  · simp only [Source.envelopeCode, Option.map_eq_some'] at h
    obtain ⟨r, hd, hc⟩ := h
    simp only [Source.processFunc, extractStatistics.processFunc,
      processAPIResponse_ok _ body _ _ r hd hc]
    simp [extractStatistics_publish_eq, bind, Except.bind, pure, Except.pure]
  · simp only [Source.envelopeCode, Option.map_eq_some'] at h
    obtain ⟨r, hd, hc⟩ := h
    simp only [Source.processFunc, extractSession.processFunc,
      processAPIResponse_ok _ body _ _ r hd hc]
    simp [extractSession_loop_eq, MustNewConstMetric, SessionTotal, newMetricDescr, bind,
      Except.bind, pure, Except.pure]
  · simp only [Source.envelopeCode, Option.map_eq_some'] at h
    obtain ⟨r, hd, hc⟩ := h
    simp only [Source.processFunc, extractStream.processFunc,
      processAPIResponse_ok _ body _ _ r hd hc]
    obtain ⟨out, keysEnd, -, hpub, -⟩ := publish_spec r.Data
    simp [hpub, bind, Except.bind, pure, Except.pure]
  · simp only [Source.envelopeCode, Option.map_eq_some'] at h
    obtain ⟨r, hd, hc⟩ := h
    simp only [Source.processFunc, extractRtp.processFunc,
      processAPIResponse_ok _ body _ _ r hd hc]
    simp [extractRtp_loop_eq, MustNewConstMetric, RtpServerTotal, newMetricDescr, bind,
      Except.bind, pure, Except.pure]

/-- C27 as written fails: the body with the one member `data` holding a string has no
`code` member, and `processAPIResponse` returns the decoding error on it, so the version
transformer publishes nothing and reports the error. -/
theorem processAPIResponse_missing_code_counterexample :
    (∀ kv ∈ noCodeBadPayloadMembers, matchesField kv.1 "code" = false) ∧
    processAPIResponse ZlmAPIEndpointVersion (some (.obj noCodeBadPayloadMembers))
        APIVersionObj.zero decodeAPIVersionObj = .error (.decoding ZlmAPIEndpointVersion) ∧
    extractVersion.processFunc (some (.obj noCodeBadPayloadMembers))
      = .ok ([], some (.decoding ZlmAPIEndpointVersion)) :=
  ⟨by decide, rfl, rfl⟩

/-- C27, amended: for a JSON object body none of whose members is keyed `code` and whose
members decode into the target envelope, the decoded status code is 0 and
`processAPIResponse` returns the decoded envelope without an error; the transformer of any
source then returns without an error after publishing from that envelope. -/
theorem processAPIResponse_missing_code (ParseFloat : String → Option Float64)
    (members : List (String × Json))
    (hno : ∀ kv ∈ members, matchesField kv.1 "code" = false) :
    (∀ (T : Type) (zero : T) (decodeData : T → Json → Option T) (endpoint : String)
        (r : ZLMAPIResponse T), Decode zero decodeData (some (.obj members)) = some r →
      r.Code = 0 ∧ processAPIResponse endpoint (some (.obj members)) zero decodeData = .ok r) ∧
    (∀ (s : Source) (code : Int), s.envelopeCode (some (.obj members)) = some code →
      code = 0 ∧
        ∃ sent, s.processFunc ParseFloat (some (.obj members)) = .ok (sent, none)) := by
  have hcode : ∀ (T : Type) (zero : T) (decodeData : T → Json → Option T)
      (r : ZLMAPIResponse T), Decode zero decodeData (some (.obj members)) = some r →
      r.Code = 0 := by
    intro T zero decodeData r hd
    exact foldlM_keeps_code decodeData members _ r hno hd
  constructor
  · intro T zero decodeData endpoint r hd
    exact ⟨hcode T zero decodeData r hd,
      processAPIResponse_ok endpoint _ zero decodeData r hd (hcode T zero decodeData r hd)⟩
  · intro s code hs
    have hzero : code = 0 := by
      cases s
      all_goals
        simp only [Source.envelopeCode, Option.map_eq_some'] at hs
        obtain ⟨r, hd, hc⟩ := hs
        rw [← hc]
        exact hcode _ _ _ r hd
    subst hzero
    exact ⟨rfl, Source.processFunc_ok ParseFloat s _ hs⟩

/-- C27, amended, at the body with the one member `msg`: the version envelope keeps its
zero values, `processAPIResponse` returns it, and the version transformer publishes the
version sample with three empty label values. -/
theorem processAPIResponse_missing_code_witness :
    (∀ kv ∈ noCodeMembers, matchesField kv.1 "code" = false) ∧
    processAPIResponse ZlmAPIEndpointVersion (some (.obj noCodeMembers)) APIVersionObj.zero
        decodeAPIVersionObj
      = .ok { Code := 0, Msg := "success", Data := APIVersionObj.zero } ∧
    extractVersion.processFunc (some (.obj noCodeMembers))
      = .ok ([some ⟨ZLMediaKitInfo, 1, ["", "", ""]⟩], none) :=
  ⟨by decide,
   ((processAPIResponse_missing_code exampleParseFloat noCodeMembers (by decide)).1
      APIVersionObj APIVersionObj.zero decodeAPIVersionObj ZlmAPIEndpointVersion
      { Code := 0, Msg := "success", Data := APIVersionObj.zero } rfl).2,
   rfl⟩

end ZlmExporter
